import Mathlib

/-!
# Order-book reconstruction and session layer of the Deribit client

A shallow embedding of `src/src/deribit/orderbook.cpp` and of the part of
`nlohmann::json` that file consumes, followed by the properties proved about it.

Modelling conventions.

* A `double` that comes out of a decoded JSON document is a finite number; finite doubles
  are rationals and `==`, `<`, `>` on them agree with the order of `ℚ`, so prices and
  amounts are values of `ℚ`.  No arithmetic is performed on them by the code.
* A `nlohmann::json::type_error` thrown by `get<T>()` is the result `none`.
* `std::sort` is modelled by insertion from the front, which keeps equivalent elements in
  their earlier relative order; the standard leaves that order unspecified.  When the
  prices of the sorted range are pairwise distinct the result does not depend on this.

The session layer (`websocket_client.cpp`, `rest_client.cpp`, `api_client.cpp`) follows
further down.

* The transports are given by a `World`: scripted outcomes of the coming transport calls
  and logs of the calls made.  A text that arrives comes with its decoding.
* The two threads of a streaming session meet at the polls of the waiting loops: the
  callbacks of the transport thread that run during one `sleep_for` form one window.
* A call that does not return (an exception leaves it, or `std::terminate` is reached)
  has the result `none`.
* Time points are seconds in `ℚ`.
-/

namespace deribit

/-! ## The JSON values read by the order book -/

/-- The value kinds of `nlohmann::json`: `int` stands for `number_integer` and
`number_unsigned`, `float` for `number_float`; the members of an object are listed in the
order in which the object is iterated. -/
inductive Json where
  | null : Json
  | bool (b : Bool) : Json
  | int (i : Int) : Json
  | float (x : ℚ) : Json
  | str (s : String) : Json
  | arr (xs : List Json) : Json
  | obj (kvs : List (String × Json)) : Json

/-- The call `json.contains(key)`: true exactly for an object that has the key. -/
def Json.contains (j : Json) (key : String) : Bool :=
  match j with
  | .obj kvs => (kvs.lookup key).isSome
  | _ => false

/-- The access `json[key]` on a constant value; the code only evaluates it after `contains(key)`. -/
def Json.getKey (j : Json) (key : String) : Option Json :=
  match j with
  | .obj kvs => kvs.lookup key
  | _ => none

/-- The test `is_array()`. -/
def Json.is_array (j : Json) : Bool :=
  match j with
  | .arr _ => true
  | _ => false

/-- The call `size()`: number of elements of an array or object, 0 for null, 1 for a scalar. -/
def Json.size (j : Json) : Nat :=
  match j with
  | .null => 0
  | .arr xs => xs.length
  | .obj kvs => kvs.length
  | _ => 1

/-- The access `json[i]` on a constant array. -/
def Json.getIdx (j : Json) (i : Nat) : Option Json :=
  match j with
  | .arr xs => xs[i]?
  | _ => none

/-- The values visited by `for (const auto& x : json)`: the elements of an array, the
member values of an object, nothing for null, the value itself for a scalar. -/
def Json.items (j : Json) : List Json :=
  match j with
  | .null => []
  | .arr xs => xs
  | .obj kvs => kvs.map Prod.snd
  | other => [other]

/-- The conversion `get<std::string>()`: a type error unless the value is a string. -/
def Json.getString (j : Json) : Option String :=
  match j with
  | .str s => some s
  | _ => none

/-- The conversion `get<double>()`: a type error unless the value is a number. -/
def Json.getDouble (j : Json) : Option ℚ :=
  match j with
  | .int i => some (i : ℚ)
  | .float x => some x
  | _ => none

/-- The conversion `get<int64_t>()`: a type error unless the value is a number; a floating value is
truncated toward zero.  Values are taken to lie in the range of `int64_t`. -/
def Json.getInt64 (j : Json) : Option Int :=
  match j with
  | .int i => some i
  | .float x => some (if 0 ≤ x then ⌊x⌋ else ⌈x⌉)
  | _ => none

/-! ## Price levels and the book -/

/-- The record `struct PriceLevel`. -/
structure PriceLevel where
  price : ℚ
  amount : ℚ
  deriving DecidableEq, Repr

/-- The state of `class Orderbook`: the four private data members. -/
structure Orderbook where
  instrument_name_ : String
  timestamp_ : Int
  bids_ : List PriceLevel
  asks_ : List PriceLevel
  deriving DecidableEq, Repr

/-- The default constructor `Orderbook() = default`: empty name, timestamp 0, no levels. -/
def Orderbook.default : Orderbook :=
  { instrument_name_ := "", timestamp_ := 0, bids_ := [], asks_ := [] }

/-- The comparator of the bid sorts: `a.price > b.price`. -/
def bidComp (a b : PriceLevel) : Bool := decide (a.price > b.price)

/-- The comparator of the ask sorts: `a.price < b.price`. -/
def askComp (a b : PriceLevel) : Bool := decide (a.price < b.price)

/-- The call `std::sort(first, last, comp)`: the elements are inserted one by one, each
in front of the first element that `comp` does not put before it, so that afterwards no
element is `comp`-before an element to its left. -/
def stdSort (comp : PriceLevel → PriceLevel → Bool) (l : List PriceLevel) : List PriceLevel :=
  l.insertionSort (fun a b => comp b a = false)

/-- Body of the constructor loops (lines 28-38 and 43-53): an element that is an array of
at least three values is read as `[action, price, amount]` and appended when the action
is "new" or "change"; any other element is skipped. -/
def snapshotStep (levels : List PriceLevel) (e : Json) : Option (List PriceLevel) :=
  if e.is_array && decide (e.size ≥ 3) then do
    let action ← (← e.getIdx 0).getString
    let price ← (← e.getIdx 1).getDouble
    let amount ← (← e.getIdx 2).getDouble
    if action = "new" ∨ action = "change" then
      pure (levels ++ [PriceLevel.mk price amount])
    else
      pure levels
  else
    pure levels

/-- The constructor `Orderbook::Orderbook(const nlohmann::json&)`: the data members start from their
defaults, the optional keys are read, both sides are sorted. -/
def Orderbook.ofJson (json : Json) : Option Orderbook := do
  let name ←
    if json.contains "instrument_name" then
      (← json.getKey "instrument_name").getString
    else pure ""
  let ts ←
    if json.contains "timestamp" then
      (← json.getKey "timestamp").getInt64
    else pure 0
  let bids ←
    if json.contains "bids" then
      (← json.getKey "bids").items.foldlM snapshotStep []
    else pure []
  let asks ←
    if json.contains "asks" then
      (← json.getKey "asks").items.foldlM snapshotStep []
    else pure []
  pure
    { instrument_name_ := name
      timestamp_ := ts
      bids_ := stdSort bidComp bids
      asks_ := stdSort askComp asks }

/-- The query `getBestBidPrice`: 0 on an empty bid list, else the price of its front. -/
def Orderbook.getBestBidPrice (b : Orderbook) : ℚ :=
  match b.bids_ with
  | [] => 0
  | front :: _ => front.price

/-- The query `getBestAskPrice`: 0 on an empty ask list, else the price of its front. -/
def Orderbook.getBestAskPrice (b : Orderbook) : ℚ :=
  match b.asks_ with
  | [] => 0
  | front :: _ => front.price

/-- The query `getBestBidAmount`: 0 on an empty bid list, else the amount of its front. -/
def Orderbook.getBestBidAmount (b : Orderbook) : ℚ :=
  match b.bids_ with
  | [] => 0
  | front :: _ => front.amount

/-- The query `getBestAskAmount`: 0 on an empty ask list, else the amount of its front. -/
def Orderbook.getBestAskAmount (b : Orderbook) : ℚ :=
  match b.asks_ with
  | [] => 0
  | front :: _ => front.amount

/-- Lines 113-130 (and 148-165): `find_if` for the first level whose price equals `price`;
when one is found its amount is overwritten (`amount > 0`) or the level is erased; when
none is found a new level is appended if `amount > 0`. -/
def applyPair (levels : List PriceLevel) (price amount : ℚ) : List PriceLevel :=
  match levels.findIdx? (fun level => decide (level.price = price)) with
  | some it =>
      if amount > 0 then
        levels.modify (fun level => { level with amount := amount }) it
      else
        levels.eraseIdx it
  | none =>
      if amount > 0 then levels ++ [PriceLevel.mk price amount] else levels

/-- Body of the update loops (lines 108-132 and 143-167): an element that is an array of
at least two values is read as `[price, amount]` and merged; any other is skipped. -/
def updateStep (levels : List PriceLevel) (e : Json) : Option (List PriceLevel) :=
  if e.is_array && decide (e.size ≥ 2) then do
    let price ← (← e.getIdx 0).getDouble
    let amount ← (← e.getIdx 1).getDouble
    pure (applyPair levels price amount)
  else
    pure levels

/-- The method `Orderbook::update`: name and timestamp are overwritten when their keys are present;
a side is merged pair by pair and then sorted only when its key is present.  The result
`none` stands for a type error leaving the function. -/
def Orderbook.update (b : Orderbook) (json : Json) : Option Orderbook := do
  let name ←
    if json.contains "instrument_name" then
      (← json.getKey "instrument_name").getString
    else pure b.instrument_name_
  let ts ←
    if json.contains "timestamp" then
      (← json.getKey "timestamp").getInt64
    else pure b.timestamp_
  let bids ←
    if json.contains "bids" then do
      let merged ← (← json.getKey "bids").items.foldlM updateStep b.bids_
      pure (stdSort bidComp merged)
    else pure b.bids_
  let asks ←
    if json.contains "asks" then do
      let merged ← (← json.getKey "asks").items.foldlM updateStep b.asks_
      pure (stdSort askComp merged)
    else pure b.asks_
  pure { instrument_name_ := name, timestamp_ := ts, bids_ := bids, asks_ := asks }

/-! ## Payloads

The two message shapes of the exchange, and their encoding as JSON documents. -/

/-- One `[action, price, amount]` entry of a snapshot payload. -/
structure SnapshotEntry where
  action : String
  price : ℚ
  amount : ℚ
  deriving DecidableEq, Repr

/-- A snapshot payload; every key may be absent. -/
structure Snapshot where
  instrument_name : Option String
  timestamp : Option Int
  bids : Option (List SnapshotEntry)
  asks : Option (List SnapshotEntry)
  deriving DecidableEq, Repr

/-- An incremental message: `[price, amount]` pairs per side; every key may be absent. -/
structure Incremental where
  instrument_name : Option String
  timestamp : Option Int
  bids : Option (List (ℚ × ℚ))
  asks : Option (List (ℚ × ℚ))
  deriving DecidableEq, Repr

/-- The members of an object whose keys are optional. -/
def optField (key : String) (v : Option Json) : List (String × Json) :=
  match v with
  | some j => [(key, j)]
  | none => []

/-- The JSON array `[action, price, amount]`. -/
def SnapshotEntry.toJson (e : SnapshotEntry) : Json :=
  .arr [.str e.action, .float e.price, .float e.amount]

/-- The JSON array `[price, amount]`. -/
def pairToJson (pa : ℚ × ℚ) : Json :=
  .arr [.float pa.1, .float pa.2]

/-- The JSON document of a snapshot payload. -/
def Snapshot.toJson (s : Snapshot) : Json :=
  .obj (optField "asks" (s.asks.map (fun es => .arr (es.map SnapshotEntry.toJson)))
    ++ optField "bids" (s.bids.map (fun es => .arr (es.map SnapshotEntry.toJson)))
    ++ optField "instrument_name" (s.instrument_name.map .str)
    ++ optField "timestamp" (s.timestamp.map .int))

/-- The JSON document of an incremental message. -/
def Incremental.toJson (m : Incremental) : Json :=
  .obj (optField "asks" (m.asks.map (fun ps => .arr (ps.map pairToJson)))
    ++ optField "bids" (m.bids.map (fun ps => .arr (ps.map pairToJson)))
    ++ optField "instrument_name" (m.instrument_name.map .str)
    ++ optField "timestamp" (m.timestamp.map .int))

/-- An entry the full replace keeps: its action is "new" or "change". -/
def SnapshotEntry.kept (e : SnapshotEntry) : Bool :=
  decide (e.action = "new" ∨ e.action = "change")

/-- The level an entry stands for. -/
def SnapshotEntry.level (e : SnapshotEntry) : PriceLevel :=
  { price := e.price, amount := e.amount }

/-- The levels a side of a snapshot payload stands for (none when the key is absent). -/
def keptLevels (side : Option (List SnapshotEntry)) : List PriceLevel :=
  ((side.getD []).filter SnapshotEntry.kept).map SnapshotEntry.level

/-- The pairs of one side of an incremental message merged one after the other. -/
def mergePairs (levels : List PriceLevel) (ps : List (ℚ × ℚ)) : List PriceLevel :=
  ps.foldl (fun l pa => applyPair l pa.1 pa.2) levels

/-- An operation on a Book: a full replace or an incremental update. -/
inductive BookOp where
  | replace (s : Snapshot) : BookOp
  | update (m : Incremental) : BookOp

/-- One operation: a full replace builds the Book anew, an update merges into it. -/
def applyOp (b : Orderbook) : BookOp → Option Orderbook
  | .replace s => Orderbook.ofJson s.toJson
  | .update m => b.update m.toJson

/-- A sequence of operations applied from left to right. -/
def runOps (b : Orderbook) (ops : List BookOp) : Option Orderbook :=
  ops.foldlM applyOp b

/-- Bid side ordered strictly descending by price. -/
def StrictDesc (l : List PriceLevel) : Prop := l.Pairwise (fun a b => a.price > b.price)

/-- Ask side ordered strictly ascending by price. -/
def StrictAsc (l : List PriceLevel) : Prop := l.Pairwise (fun a b => a.price < b.price)

/-- Bid side ordered descending by price, equal prices allowed. -/
def WeakDesc (l : List PriceLevel) : Prop := l.Pairwise (fun a b => a.price ≥ b.price)

/-- Ask side ordered ascending by price, equal prices allowed. -/
def WeakAsc (l : List PriceLevel) : Prop := l.Pairwise (fun a b => a.price ≤ b.price)

/-- No two levels share a price. -/
def DistinctPrices (l : List PriceLevel) : Prop := (l.map PriceLevel.price).Nodup

/-- The Book invariant of the data model. -/
def BookInvariant (b : Orderbook) : Prop :=
  StrictDesc b.bids_ ∧ StrictAsc b.asks_ ∧ DistinctPrices b.bids_ ∧ DistinctPrices b.asks_

/-- Both sides ordered by price, equal prices allowed. -/
def WeaklyOrdered (b : Orderbook) : Prop := WeakDesc b.bids_ ∧ WeakAsc b.asks_

/-- A snapshot payload whose kept entries have pairwise distinct prices on each side. -/
def SnapshotDistinct (s : Snapshot) : Prop :=
  DistinctPrices (keptLevels s.bids) ∧ DistinctPrices (keptLevels s.asks)

/-- Every level of the Book has a positive amount. -/
def AllPositive (b : Orderbook) : Prop :=
  (∀ l ∈ b.bids_, l.amount > 0) ∧ (∀ l ∈ b.asks_, l.amount > 0)


/-! ## The environment of the session layer

The transports are external collaborators.  What they do is given by a `World`: scripts
of the outcomes of the coming transport calls, and logs of what has been handed to the
transports so far. -/

/-- A received text together with what `nlohmann::json::parse` makes of it (`none` when it
throws `parse_error`). -/
structure Payload where
  text : String
  decoded : Option Json

/-- The callbacks the transport thread can run on a `WebSocketClient`. -/
inductive WsEvent where
  | opened : WsEvent
  | closed : WsEvent
  | failed : WsEvent
  | message (frame : Payload) : WsEvent

/-- The outcome of one `curl_easy_perform`: a transport failure, or a status code with the
body that was received. -/
inductive HttpReply where
  | curlError : HttpReply
  | done (http_code : Nat) (body : Payload) : HttpReply

/-- The requests `RestClient` performs.  Only the parts the session layer decides are
recorded: the target, the body, and the bearer token of the Authorization header,
if one is attached. -/
inductive HttpRequest where
  | login (client_id client_secret : String) : HttpRequest
  | refresh (refresh_token client_id client_secret : String) : HttpRequest
  | get (endpoint : String) (bearer : Option String) : HttpRequest
  | post (endpoint : String) (data : Json) (bearer : Option String) : HttpRequest

/-- The environment: the reading of `system_clock::now()` in seconds, the scripted
outcomes of the coming transport calls, and the logs of the calls made so far (oldest
first).  Every `sleep_for` of a polling loop consumes one entry of `wsWindows`: the
callbacks the transport thread runs during that sleep. -/
structure World where
  now : ℚ
  httpScript : List HttpReply
  httpSent : List HttpRequest
  wsConnectError : Bool
  wsSendError : List Bool
  wsWindows : List (List WsEvent)
  wsConnects : Nat
  wsSent : List Json
  delivered : List Payload

/-- One `curl_easy_perform`: the request is logged and the next scripted outcome is
returned (a transport failure once the script is used up). -/
def World.httpPerform (w : World) (req : HttpRequest) : HttpReply × World :=
  match w.httpScript with
  | [] => (HttpReply.curlError, { w with httpSent := w.httpSent ++ [req] })
  | r :: rest => (r, { w with httpScript := rest, httpSent := w.httpSent ++ [req] })

/-- One `client_.send(connection_, text, ...)`: the next scripted outcome says whether an
error code is set (none once the script is used up); a frame sent without error is
logged. -/
def World.wsSend (w : World) (frame : Json) : Bool × World :=
  match w.wsSendError with
  | [] => (true, { w with wsSent := w.wsSent ++ [frame] })
  | true :: rest => (false, { w with wsSendError := rest })
  | false :: rest => (true, { w with wsSendError := rest, wsSent := w.wsSent ++ [frame] })

/-! ## More of `nlohmann::json` -/

/-- The access `json[key]` on a mutable object: the member, or null when the key is
absent.  The code evaluates it on objects only. -/
def Json.index (j : Json) (key : String) : Json := (j.getKey key).getD Json.null

/-- The comparison `json == n` with an integer. -/
def Json.eqInt (j : Json) (n : Int) : Bool :=
  match j with
  | .int i => decide (i = n)
  | .float x => decide (x = (n : ℚ))
  | _ => false

/-- The comparison `json == "text"`. -/
def Json.eqStr (j : Json) (s : String) : Bool :=
  match j with
  | .str t => decide (t = s)
  | _ => false

/-- The test `is_null()`. -/
def Json.is_null (j : Json) : Bool :=
  match j with
  | .null => true
  | _ => false

/-- The call `target.update(src)`: the members of `src` are written into `target`,
replacing members of the same key; a type error (`none`) unless `src` is an object and
`target` is an object or null. -/
def Json.update (target src : Json) : Option Json :=
  match target, src with
  | .obj kvs, .obj new =>
      some (.obj (kvs.filter (fun kv => !(new.map Prod.fst).contains kv.1) ++ new))
  | .null, .obj new => some (.obj new)
  | _, _ => none

/-- The conversion `get<int>()`: numbers and booleans convert, a floating value is
truncated toward zero, and the value is reduced to the 32-bit two-complement range. -/
def Json.getInt (j : Json) : Option Int :=
  let wrap (i : Int) : Int := (i + 2147483648) % 4294967296 - 2147483648
  match j with
  | .int i => some (wrap i)
  | .float x => some (wrap (if 0 ≤ x then ⌊x⌋ else ⌈x⌉))
  | .bool b => some (if b then 1 else 0)
  | _ => none

/-! ## The streaming session (`WebSocketClient`) -/

/-- The record `class Config`. -/
structure Config where
  api_key_ : String
  api_secret_ : String
  testnet_ : Bool
  deriving DecidableEq, Repr

/-- The state of `class WebSocketClient`: the three atomic flags, and whether
`message_callback_` holds a function. -/
structure WebSocketClient where
  config_ : Config
  is_connected_ : Bool
  is_authenticated_ : Bool
  is_running_ : Bool
  has_message_callback_ : Bool
  deriving DecidableEq, Repr

/-- The constructor `WebSocketClient(config)`: no flag set, no callback. -/
def WebSocketClient.new (config : Config) : WebSocketClient :=
  { config_ := config, is_connected_ := false, is_authenticated_ := false,
    is_running_ := false, has_message_callback_ := false }

/-- The handler `onOpen`. -/
def WebSocketClient.onOpen (c : WebSocketClient) : WebSocketClient :=
  { c with is_connected_ := true }

/-- The handler `onClose`. -/
def WebSocketClient.onClose (c : WebSocketClient) : WebSocketClient :=
  { c with is_connected_ := false, is_authenticated_ := false }

/-- The handler `onFail`. -/
def WebSocketClient.onFail (c : WebSocketClient) : WebSocketClient :=
  { c with is_connected_ := false, is_authenticated_ := false }

/-- The payloads handed to `message_callback_` when it holds a function. -/
def WebSocketClient.forward (c : WebSocketClient) (frame : Payload) : List Payload :=
  if c.has_message_callback_ then [frame] else []

/-- The handler `onMessage`: the new state and the payloads handed to the message
callback.  Every exception raised inside (the parse error, a type error while an error
reply is logged) is caught by the handler and changes nothing. -/
def WebSocketClient.onMessage (c : WebSocketClient) (frame : Payload) :
    WebSocketClient × List Payload :=
  match frame.decoded with
  | none => (c, [])
  | some json =>
    if json.contains "id" && (json.index "id").eqInt 9929 then
      if json.contains "result" && !json.contains "error" then
        ({ c with is_authenticated_ := true }, [])
      else
        (c, [])
    else if json.contains "id" && (json.index "id").eqInt 9930 then
      (c, [])
    else if json.contains "method" && (json.index "method").eqStr "subscription" then
      (c, c.forward frame)
    else
      (c, c.forward frame)

/-- One callback of the transport thread. -/
def WebSocketClient.handle (c : WebSocketClient) : WsEvent → WebSocketClient × List Payload
  | .opened => (c.onOpen, [])
  | .closed => (c.onClose, [])
  | .failed => (c.onFail, [])
  | .message frame => c.onMessage frame

/-- The callbacks of the transport thread, one after the other. -/
def WebSocketClient.handleAll (c : WebSocketClient) :
    List WsEvent → WebSocketClient × List Payload
  | [] => (c, [])
  | ev :: evs =>
    let r := c.handle ev
    let rs := WebSocketClient.handleAll r.1 evs
    (rs.1, r.2 ++ rs.2)

/-- What a blocking call of `WebSocketClient` leaves: its result (`none` when the call
does not return because `std::terminate` is reached), the client and the environment. -/
structure WsRet where
  ret : Option Bool
  client : WebSocketClient
  world : World

/-- One `sleep_for(500ms)` of a polling loop: the transport thread runs the callbacks of
the next window. -/
def WebSocketClient.sleep (c : WebSocketClient) (w : World) : WebSocketClient × World :=
  match w.wsWindows with
  | [] => (c, w)
  | evs :: rest =>
    let r := c.handleAll evs
    (r.1, { w with wsWindows := rest, delivered := w.delivered ++ r.2 })

/-- The loop of `connect` (lines 70-77) with `n` iterations left: when the flag is seen
set, one more sleep and success; otherwise sleep and look again. -/
def WebSocketClient.waitConnected : Nat → WebSocketClient → World → WsRet
  | 0, c, w => { ret := some false, client := c, world := w }
  | n + 1, c, w =>
    if c.is_connected_ then
      let s := c.sleep w
      { ret := some true, client := s.1, world := s.2 }
    else
      let s := c.sleep w
      WebSocketClient.waitConnected n s.1 s.2

/-- The method `connect`: nothing to do when connected; otherwise a connection is
requested, the run thread is started and the open callback is awaited for ten polls.
The flag `is_running_` is set exactly when `ws_thread_` holds a started thread
(`disconnect`, the only place that joins it, is left out of the model); the assignment of
line 67 to such a thread object reaches `std::terminate`. -/
def WebSocketClient.connect (c : WebSocketClient) (w : World) : WsRet :=
  if c.is_connected_ then
    { ret := some true, client := c, world := w }
  else if w.wsConnectError then
    { ret := some false, client := c, world := w }
  else if c.is_running_ then
    { ret := none, client := c, world := { w with wsConnects := w.wsConnects + 1 } }
  else
    WebSocketClient.waitConnected 10 { c with is_running_ := true }
      { w with wsConnects := w.wsConnects + 1 }

/-- The request of `authenticate` (lines 114-123). -/
def WebSocketClient.auth_request (c : WebSocketClient) : Json :=
  .obj [("id", .int 9929), ("jsonrpc", .str "2.0"), ("method", .str "public/auth"),
    ("params", .obj [("client_id", .str c.config_.api_key_),
      ("client_secret", .str c.config_.api_secret_),
      ("grant_type", .str "client_credentials")])]

/-- The loop of `authenticate` (lines 137-142) with `n` iterations left: success when the
flag is seen set; otherwise sleep and look again.  The flag is not looked at after the
last sleep. -/
def WebSocketClient.waitAuthenticated : Nat → WebSocketClient → World → WsRet
  | 0, c, w => { ret := some false, client := c, world := w }
  | n + 1, c, w =>
    if c.is_authenticated_ then
      { ret := some true, client := c, world := w }
    else
      let s := c.sleep w
      WebSocketClient.waitAuthenticated n s.1 s.2

/-- The method `authenticate`: refused when not connected; otherwise the request with id
9929 is sent and the flag is awaited for ten polls.  The access token is not used. -/
def WebSocketClient.authenticate (c : WebSocketClient) (w : World) : WsRet :=
  if !c.is_connected_ then
    { ret := some false, client := c, world := w }
  else
    let s := w.wsSend c.auth_request
    if !s.1 then
      { ret := some false, client := c, world := s.2 }
    else
      WebSocketClient.waitAuthenticated 10 c s.2

/-- The method `send`: refused when not connected. -/
def WebSocketClient.send (c : WebSocketClient) (w : World) (message : Json) : Bool × World :=
  if !c.is_connected_ then (false, w) else w.wsSend message

/-- The method `subscribe`: refused unless connected and authenticated; the request with
id 9930 names the channel, takes over the members of `params` unless it is null, and is
sent.  A type error of `update` is caught and reported as failure. -/
def WebSocketClient.subscribe (c : WebSocketClient) (w : World) (channel : String)
    (params : Json) : Bool × World :=
  if !c.is_connected_ || !c.is_authenticated_ then (false, w)
  else
    let base : Json := .obj [("channels", .arr [.str channel])]
    let merged : Option Json := if !params.is_null then base.update params else some base
    match merged with
    | none => (false, w)
    | some ps =>
      c.send w (.obj [("id", .int 9930), ("jsonrpc", .str "2.0"),
        ("method", .str "public/subscribe"), ("params", ps)])

/-- The method `unsubscribe`: refused unless connected and authenticated; the request with
id 9931 is sent. -/
def WebSocketClient.unsubscribe (c : WebSocketClient) (w : World) (channel : String) :
    Bool × World :=
  if !c.is_connected_ || !c.is_authenticated_ then (false, w)
  else
    c.send w (.obj [("id", .int 9931), ("jsonrpc", .str "2.0"),
      ("method", .str "public/unsubscribe"),
      ("params", .obj [("channels", .arr [.str channel])])])

/-! ## The synchronous transport client (`RestClient`) -/

/-- The state of `class RestClient`: whether the curl handle is non-null, the token
fields, the flag and the expiry (a time point, in seconds). -/
structure RestClient where
  config_ : Config
  curl_ : Bool
  access_token_ : String
  refresh_token_ : String
  expires_in_ : Int
  token_type_ : String
  is_authenticated_ : Bool
  token_expiry_ : ℚ
  deriving DecidableEq, Repr

/-- What a call of `RestClient` leaves: the JSON it returns (`none` when an exception
leaves the call instead), the client and the environment. -/
structure RestRet where
  value : Option Json
  client : RestClient
  world : World

/-- The helper `handleResponse`: the decoded body, or null when it does not parse. -/
def handleResponse (body : Payload) : Json := body.decoded.getD Json.null

/-- The helper `updateTokenExpiry`: now plus `expires_in_` seconds. -/
def RestClient.updateTokenExpiry (c : RestClient) (now : ℚ) : RestClient :=
  { c with token_expiry_ := now + (c.expires_in_ : ℚ) }

/-- The method `needsRefresh`: false without authentication or refresh token; otherwise
whether less than five minutes remain until the expiry. -/
def RestClient.needsRefresh (c : RestClient) (now : ℚ) : Bool :=
  if !c.is_authenticated_ || c.refresh_token_.isEmpty then false
  else decide (c.token_expiry_ - now < 300)

/-- The four assignments from `result` (lines 79-82 and 130-133), in order.  Each reads a
member of the constant `result` and converts it; when the member is missing or of the
wrong type the call is left at that point, the earlier assignments done.  The flag tells
whether all four were made. -/
def RestClient.storeToken (c : RestClient) (result : Json) : RestClient × Bool :=
  match (result.getKey "access_token").bind Json.getString with
  | none => (c, false)
  | some access =>
    let c1 := { c with access_token_ := access }
    match (result.getKey "refresh_token").bind Json.getString with
    | none => (c1, false)
    | some refresh =>
      let c2 := { c1 with refresh_token_ := refresh }
      match (result.getKey "expires_in").bind Json.getInt with
      | none => (c2, false)
      | some expires =>
        let c3 := { c2 with expires_in_ := expires }
        match (result.getKey "token_type").bind Json.getString with
        | none => (c3, false)
        | some kind => ({ c3 with token_type_ := kind }, true)

/-- The method `authenticate`: the login request is performed (with a null handle curl
reports an error without performing anything); a reply with a result stores the token,
sets the flag and the expiry; any other outcome clears the flag. -/
def RestClient.authenticate (c : RestClient) (w : World) : RestRet :=
  let p : HttpReply × World :=
    if c.curl_ then w.httpPerform (.login c.config_.api_key_ c.config_.api_secret_)
    else (HttpReply.curlError, w)
  match p.1 with
  | .curlError =>
    { value := some Json.null, client := { c with is_authenticated_ := false }, world := p.2 }
  | .done _ body =>
    let json_response := handleResponse body
    if json_response.contains "result" then
      let st := c.storeToken (json_response.index "result")
      if st.2 then
        { value := some json_response,
          client := RestClient.updateTokenExpiry { st.1 with is_authenticated_ := true } p.2.now,
          world := p.2 }
      else
        { value := none, client := st.1, world := p.2 }
    else
      { value := some json_response, client := { c with is_authenticated_ := false },
        world := p.2 }

/-- The method `refreshToken`: nothing is done without a refresh token; otherwise the
refresh request is performed; a reply with a result stores the token and the expiry; a
transport failure or an error reply clears the flag and returns null; any other reply is
returned as it is. -/
def RestClient.refreshToken (c : RestClient) (w : World) : RestRet :=
  if c.refresh_token_.isEmpty then
    { value := some Json.null, client := c, world := w }
  else
    let p : HttpReply × World :=
      if c.curl_ then
        w.httpPerform (.refresh c.refresh_token_ c.config_.api_key_ c.config_.api_secret_)
      else (HttpReply.curlError, w)
    match p.1 with
    | .curlError =>
      { value := some Json.null, client := { c with is_authenticated_ := false },
        world := p.2 }
    | .done _ body =>
      let json_response := handleResponse body
      if json_response.contains "result" then
        let st := c.storeToken (json_response.index "result")
        if st.2 then
          { value := some json_response, client := st.1.updateTokenExpiry p.2.now,
            world := p.2 }
        else
          { value := none, client := st.1, world := p.2 }
      else if json_response.contains "error" then
        { value := some Json.null, client := { c with is_authenticated_ := false },
          world := p.2 }
      else
        { value := some json_response, client := c, world := p.2 }

/-- The assignment `json[key] = v` on a mutable value: the member is written; a value
that is not an object becomes one. -/
def Json.setKey (j : Json) (key : String) (v : Json) : Json :=
  match j with
  | .obj kvs => .obj (kvs.filter (fun kv => kv.1 != key) ++ [(key, v)])
  | _ => .obj [(key, v)]

/-- The log line of a failed request (lines 199-201 and 288-290): when the document has a
member `error`, `error_json["error"]["message"]` is formed on the mutable document, which
inserts a null `message` when there is none and is a type error (`none`) when `error` is
neither an object nor null.  The result is the document as it is afterwards. -/
def Json.logErrorMessage (error_json : Json) : Option Json :=
  if error_json.contains "error" then
    match error_json.index "error" with
    | .obj kvs =>
      if (kvs.lookup "message").isSome then some error_json
      else some (error_json.setKey "error" (.obj (kvs ++ [("message", Json.null)])))
    | .null => some (error_json.setKey "error" (.obj [("message", Json.null)]))
    | _ => none
  else some error_json

/-- The bearer token of the Authorization header, attached when the flag is set. -/
def RestClient.bearer (c : RestClient) : Option String :=
  if c.is_authenticated_ then some c.access_token_ else none

/-- The request of `get` itself (lines 159-213): throws on a transport failure, on a
status other than 200 whose body does not parse or cannot be logged, and on a body that
does not parse. -/
def RestClient.performGet (c : RestClient) (w : World) (endpoint : String) : RestRet :=
  let p := w.httpPerform (.get endpoint c.bearer)
  match p.1 with
  | .curlError => { value := none, client := c, world := p.2 }
  | .done http_code body =>
    if http_code ≠ 200 then
      { value := body.decoded.bind Json.logErrorMessage, client := c, world := p.2 }
    else
      { value := body.decoded, client := c, world := p.2 }

/-- The method `get`: throws without a handle; refreshes a token that is due and throws
when that gives no result; then performs the request.  The parameter `params` of the
method is not used by it. -/
def RestClient.get (c : RestClient) (w : World) (endpoint : String) : RestRet :=
  if !c.curl_ then { value := none, client := c, world := w }
  else if c.is_authenticated_ && c.needsRefresh w.now then
    let r := c.refreshToken w
    match r.value with
    | none => r
    | some response =>
      if !response.contains "result" then { r with value := none }
      else r.client.performGet r.world endpoint
  else c.performGet w endpoint

/-- The helper `checkAndRefreshToken`: refreshes a token that is due and tells whether
that gave a result (`none` when an exception leaves the refresh). -/
def RestClient.checkAndRefreshToken (c : RestClient) (w : World) :
    Option Bool × RestClient × World :=
  if c.needsRefresh w.now then
    let r := c.refreshToken w
    (r.value.map (fun response => response.contains "result"), r.client, r.world)
  else (some true, c, w)

/-- The method `post` for an endpoint that is not an order placement (every call site
passes the empty endpoint): null without a handle; `checkAndRefreshToken` is called and
its result is dropped; the request is performed; null on a transport failure and on a
status other than 200 whose body does not parse or cannot be logged; otherwise the decoded
body, null when it does not parse. -/
def RestClient.post (c : RestClient) (w : World) (endpoint : String) (data : Json) :
    RestRet :=
  if !c.curl_ then { value := some Json.null, client := c, world := w }
  else
    let r := c.checkAndRefreshToken w
    match r.1 with
    | none => { value := none, client := r.2.1, world := r.2.2 }
    | some _ =>
      let p := r.2.2.httpPerform (.post endpoint data r.2.1.bearer)
      match p.1 with
      | .curlError => { value := some Json.null, client := r.2.1, world := p.2 }
      | .done http_code body =>
        if http_code ≠ 200 then
          { value := some ((body.decoded.bind Json.logErrorMessage).getD Json.null),
            client := r.2.1, world := p.2 }
        else
          { value := some (handleResponse body), client := r.2.1, world := p.2 }

/-! ## The facade (`ApiClient`) -/

/-- A `std::function<void(const Orderbook&)>`: empty (`none`), or a target, known by a
number. -/
abbrev Callback := Option Nat

/-- The assignment `orderbook_callbacks_[key] = callback`. -/
def mapAssign (m : List (String × Callback)) (key : String) (callback : Callback) :
    List (String × Callback) :=
  (key, callback) :: m.filter (fun kv => kv.1 != key)

/-- The call `orderbook_callbacks_.erase(key)`. -/
def mapErase (m : List (String × Callback)) (key : String) : List (String × Callback) :=
  m.filter (fun kv => kv.1 != key)

/-- The call `orderbook_callbacks_.find(key)`: the mapped callback, `none` for `end()`. -/
def mapFind (m : List (String × Callback)) (key : String) : Option Callback :=
  m.lookup key

/-- The state of `class ApiClient` after `initialize()` has created the two clients.  The
flag `ws_running_` is set exactly when `ws_thread_` holds a started thread. -/
structure ApiClient where
  config_ : Config
  rest_client_ : RestClient
  ws_client_ : WebSocketClient
  orderbook_callbacks_ : List (String × Callback)
  is_initialized_ : Bool
  is_authenticated_ : Bool
  ws_running_ : Bool
  deriving DecidableEq, Repr

/-- What an operation of `ApiClient` leaves: its result (`none` when the call does not
return: an exception leaves it, or `std::terminate` is reached), the facade and the
environment. -/
structure ApiRet where
  ret : Option Bool
  api : ApiClient
  world : World

/-- The method `ApiClient::authenticate`: login over the synchronous transport, then
`connect`, then `authenticate` on the streaming client; the first step that fails ends
the call with false.  After the three steps the flag is set and the dispatch thread is
started, which installs the message callback; starting it a second time assigns to a
started thread object and reaches `std::terminate`. -/
def ApiClient.authenticate (a : ApiClient) (w : World) : ApiRet :=
  if !a.is_initialized_ then { ret := some false, api := a, world := w }
  else
    let r := a.rest_client_.authenticate w
    let a1 := { a with rest_client_ := r.client }
    match r.value with
    | none => { ret := none, api := a1, world := r.world }
    | some _ =>
      if !r.client.is_authenticated_ then { ret := some false, api := a1, world := r.world }
      else
        let cn := a.ws_client_.connect r.world
        let a2 := { a1 with ws_client_ := cn.client }
        match cn.ret with
        | none => { ret := none, api := a2, world := cn.world }
        | some false => { ret := some false, api := a2, world := cn.world }
        | some true =>
          let au := cn.client.authenticate cn.world
          let a3 := { a2 with ws_client_ := au.client }
          match au.ret with
          | none => { ret := none, api := a3, world := au.world }
          | some false => { ret := some false, api := a3, world := au.world }
          | some true =>
            if a.ws_running_ then
              { ret := none, api := { a3 with is_authenticated_ := true, ws_running_ := true },
                world := au.world }
            else
              { ret := some true,
                api := { a3 with
                  is_authenticated_ := true
                  ws_running_ := true
                  ws_client_ := { au.client with has_message_callback_ := true } },
                world := au.world }

/-- The text `response["error"]["message"].get<std::string>()` of the failure log lines:
a type error (`none`) unless `error` is an object whose `message` is a string. -/
def Json.errorMessage (response : Json) : Option String :=
  match response.index "error" with
  | .obj kvs => ((kvs.lookup "message").getD Json.null).getString
  | _ => none

/-- The tail of `cancelOrder` and `modifyOrder` (lines 188-193 and 219-224): false for an
error reply, after its message is logged; otherwise whether the reply has a result. -/
def orderReplyResult (response : Json) : Option Bool :=
  if response.contains "error" then
    match response.errorMessage with
    | some _ => some false
    | none => none
  else some (response.contains "result")

/-- The request of `cancelOrder` (lines 177-184). -/
def cancel_request (order_id : String) : Json :=
  .obj [("id", .int 42), ("jsonrpc", .str "2.0"), ("method", .str "private/cancel"),
    ("params", .obj [("order_id", .str order_id)])]

/-- The request of `modifyOrder` (lines 206-215). -/
def edit_request (order_id : String) (amount price : ℚ) : Json :=
  .obj [("id", .int 42), ("jsonrpc", .str "2.0"), ("method", .str "private/edit"),
    ("params", .obj [("amount", .float amount), ("order_id", .str order_id),
      ("price", .float price)])]

/-- The method `cancelOrder`: refused when the facade is not authenticated; otherwise the
request is posted and the reply is judged.  No exception is caught. -/
def ApiClient.cancelOrder (a : ApiClient) (w : World) (order_id : String) : ApiRet :=
  if !a.is_authenticated_ then { ret := some false, api := a, world := w }
  else
    let r := a.rest_client_.post w "" (cancel_request order_id)
    { ret := r.value.bind orderReplyResult, api := { a with rest_client_ := r.client },
      world := r.world }

/-- The method `modifyOrder`: refused when the facade is not authenticated; otherwise the
request is posted and the reply is judged.  No exception is caught. -/
def ApiClient.modifyOrder (a : ApiClient) (w : World) (order_id : String)
    (amount price : ℚ) : ApiRet :=
  if !a.is_authenticated_ then { ret := some false, api := a, world := w }
  else
    let r := a.rest_client_.post w "" (edit_request order_id amount price)
    { ret := r.value.bind orderReplyResult, api := { a with rest_client_ := r.client },
      world := r.world }

/-- The request of `placeBuyOrder` (lines 104-122). -/
def buy_request (access_token instrument_name : String) (amount : ℚ) (type : String)
    (price : ℚ) (label : String) : Json :=
  .obj [("id", .int 5275), ("jsonrpc", .str "2.0"), ("method", .str "private/buy"),
    ("params", .obj ([("access_token", .str access_token), ("amount", .float amount),
      ("instrument_name", .str instrument_name), ("type", .str type)]
      ++ (if type = "limit" then [("price", .float price)] else [])
      ++ (if label.isEmpty then [] else [("label", .str label)])))]

/-- The method `placeBuyOrder`: refused when the facade is not authenticated; a token that
is due is refreshed and the call ends with false when that gives no result; the amount is
tested; the request is sent over the streaming client.  Every exception is caught and
reported as false.  The floating-point test `fmod(amount, 0.01) != 0.0` is not computed
here: `amountIsMultiple` tells whether it lets the amount pass. -/
def ApiClient.placeBuyOrder (a : ApiClient) (w : World) (amountIsMultiple : Bool)
    (instrument_name : String) (amount : ℚ) (type : String) (price : ℚ) (label : String) :
    ApiRet :=
  if !a.is_authenticated_ then { ret := some false, api := a, world := w }
  else
    let r : RestRet :=
      if a.rest_client_.needsRefresh w.now then a.rest_client_.refreshToken w
      else { value := some Json.null, client := a.rest_client_, world := w }
    let a1 := { a with rest_client_ := r.client }
    let refreshed : Bool :=
      if a.rest_client_.needsRefresh w.now then
        match r.value with
        | some response => response.contains "result"
        | none => false
      else true
    if !refreshed then { ret := some false, api := a1, world := r.world }
    else if !amountIsMultiple then { ret := some false, api := a1, world := r.world }
    else
      let s := a.ws_client_.send r.world
        (buy_request r.client.access_token_ instrument_name amount type price label)
      { ret := some s.1, api := a1, world := s.2 }

/-- The endpoint of `placeSellOrder` with its query (lines 140-154); `to_string` stands for
`std::to_string` on a double. -/
def sell_endpoint (to_string : ℚ → String) (instrument_name : String) (amount : ℚ)
    (type : String) (price : ℚ) (label : String) : String :=
  "private/sell" ++ "?" ++ ("amount=" ++ to_string amount ++ "&instrument_name="
    ++ instrument_name ++ "&type=" ++ type
    ++ (if type = "limit" then "&price=" ++ to_string price else "")
    ++ (if label.isEmpty then "" else "&label=" ++ label))

/-- The method `placeSellOrder`: the request goes out through `RestClient::get`, whatever
the flag of the facade; true when the reply has a result; every exception is caught and
reported as false. -/
def ApiClient.placeSellOrder (a : ApiClient) (w : World) (to_string : ℚ → String)
    (instrument_name : String) (amount : ℚ) (type : String) (price : ℚ) (label : String) :
    ApiRet :=
  let r := a.rest_client_.get w (sell_endpoint to_string instrument_name amount type price label)
  { ret := some (match r.value with
      | some response => response.contains "result"
      | none => false),
    api := { a with rest_client_ := r.client }, world := r.world }

/-- The method `subscribeOrderbook`: refused when the facade is not authenticated;
otherwise the callback is stored under the instrument name and the channel is subscribed
on the streaming client, whose answer is the result. -/
def ApiClient.subscribeOrderbook (a : ApiClient) (w : World) (instrument_name : String)
    (callback : Callback) : ApiRet :=
  if !a.is_authenticated_ then { ret := some false, api := a, world := w }
  else
    let channel := "book." ++ instrument_name ++ ".100ms"
    let a1 := { a with
      orderbook_callbacks_ := mapAssign a.orderbook_callbacks_ instrument_name callback }
    let s := a.ws_client_.subscribe w channel (.obj [("instrument_name", .str instrument_name)])
    { ret := some s.1, api := a1, world := s.2 }

/-- The method `unsubscribeOrderbook`: refused when the facade is not authenticated;
otherwise the entry of the instrument is erased and the channel is unsubscribed on the
streaming client, whose answer is the result. -/
def ApiClient.unsubscribeOrderbook (a : ApiClient) (w : World) (instrument_name : String) :
    ApiRet :=
  if !a.is_authenticated_ then { ret := some false, api := a, world := w }
  else
    let channel := "book." ++ instrument_name ++ ".100ms"
    let a1 := { a with orderbook_callbacks_ := mapErase a.orderbook_callbacks_ instrument_name }
    let s := a.ws_client_.unsubscribe w channel
    { ret := some s.1, api := a1, world := s.2 }

/-- The method `handleOrderbookUpdate`: the callback invocations it makes, each with the
Book handed over (`none` when the type error of a name that is not a string leaves the
call).  Nothing happens without an instrument name, without a registered callback, with
an empty callback, or when the constructor of the Book throws (caught).  The facade is
not changed. -/
def ApiClient.handleOrderbookUpdate (a : ApiClient) (data : Json) :
    Option (List (Nat × Orderbook)) :=
  if !data.contains "instrument_name" then some []
  else
    match (data.index "instrument_name").getString with
    | none => none
    | some instrument_name =>
      match mapFind a.orderbook_callbacks_ instrument_name with
      | some (some callback) =>
        match Orderbook.ofJson data with
        | some orderbook => some [(callback, orderbook)]
        | none => some []
      | _ => some []

/-- The test `text.find(start) == 0`: the text begins with `start`. -/
def startsWith (text start : String) : Bool := start.toList.isPrefixOf text.toList

/-- The message callback installed by `processWebSocketMessages` (lines 366-382): a
notification with method "subscription" whose channel starts with "book." has its data
handed to `handleOrderbookUpdate`; every JSON exception is caught. -/
def ApiClient.onWsMessage (a : ApiClient) (message : Payload) : List (Nat × Orderbook) :=
  match message.decoded with
  | none => []
  | some json =>
    if json.contains "method" && (json.index "method").eqStr "subscription" then
      if json.contains "params" && (json.index "params").contains "channel" then
        match ((json.index "params").index "channel").getString with
        | none => []
        | some channel =>
          if startsWith channel "book." then
            (a.handleOrderbookUpdate ((json.index "params").index "data")).getD []
          else []
      else []
    else []

/-- A frame arriving on the streaming client of the facade: `onMessage` of the client
runs, and the payloads it hands to the message callback go through `onWsMessage`. -/
def ApiClient.receive (a : ApiClient) (frame : Payload) :
    ApiClient × List (Nat × Orderbook) :=
  let r := a.ws_client_.onMessage frame
  ({ a with ws_client_ := r.1 }, (r.2.map a.onWsMessage).flatten)

/-! ## Vocabulary of the session claims -/

/-- A frame that resolves the pending streaming authenticate with success: it decodes,
its id is 9929, it has a result and no error. -/
def Payload.isAuthSuccess (frame : Payload) : Bool :=
  match frame.decoded with
  | none => false
  | some json =>
    json.contains "id" && (json.index "id").eqInt 9929 && json.contains "result"
      && !json.contains "error"

/-- The callback is the handling of a frame that resolves the authenticate with success. -/
def WsEvent.isAuthSuccess : WsEvent → Bool
  | .message frame => frame.isAuthSuccess
  | _ => false

/-- The callback is the open callback. -/
def WsEvent.isOpened : WsEvent → Bool
  | .opened => true
  | _ => false

/-- The callback is the handling of a frame. -/
def WsEvent.isMessage : WsEvent → Bool
  | .message _ => true
  | _ => false

/-- A reply frame `{"id": id, "jsonrpc": "2.0", "result": result}`. -/
def resultFrame (text : String) (id : Int) (result : Json) : Payload :=
  { text := text
    decoded := some (.obj [("id", .int id), ("jsonrpc", .str "2.0"), ("result", result)]) }

/-- A reply frame `{"error": {"code": code, "message": message}, "id": id, "jsonrpc": "2.0"}`. -/
def errorFrame (text : String) (id : Int) (code : Int) (message : String) : Payload :=
  { text := text
    decoded := some (.obj [("error", .obj [("code", .int code), ("message", .str message)]),
      ("id", .int id), ("jsonrpc", .str "2.0")]) }

/-- A notification frame
`{"jsonrpc": "2.0", "method": "subscription", "params": {"channel": channel, "data": data}}`. -/
def notificationFrame (text : String) (channel : String) (data : Json) : Payload :=
  { text := text
    decoded := some (.obj [("jsonrpc", .str "2.0"), ("method", .str "subscription"),
      ("params", .obj [("channel", .str channel), ("data", data)])]) }

/-- An environment in which nothing is scripted and nothing has happened. -/
def World.quiet (now : ℚ) : World :=
  { now := now, httpScript := [], httpSent := [], wsConnectError := false, wsSendError := [],
    wsWindows := [], wsConnects := 0, wsSent := [], delivered := [] }


/-- An environment in which nothing is scripted but the callbacks of the coming waits. -/
def World.withWindows (windows : List (List WsEvent)) : World :=
  { World.quiet 0 with wsWindows := windows }

/-- The constructor `RestClient(config)`: null handle, empty strings, flag clear, expiry at
the epoch.  The member `expires_in_` has no initializer; `expires_in` is whatever it
holds. -/
def RestClient.new (config : Config) (expires_in : Int) : RestClient :=
  { config_ := config, curl_ := false, access_token_ := "", refresh_token_ := "",
    expires_in_ := expires_in, token_type_ := "", is_authenticated_ := false,
    token_expiry_ := 0 }

/-- The facade after a successful `initialize()`: both clients created, the curl handle
obtained, no flag set, no callback registered. -/
def ApiClient.fresh (config : Config) : ApiClient :=
  { config_ := config
    rest_client_ := { RestClient.new config 0 with curl_ := true }
    ws_client_ := WebSocketClient.new config
    orderbook_callbacks_ := []
    is_initialized_ := true
    is_authenticated_ := false
    ws_running_ := false }

/-- A facade as a successful `authenticate()` at time 0 leaves it, with a token valid for
900 seconds, holding the given callbacks. -/
def ApiClient.ready (callbacks : List (String × Callback)) : ApiClient :=
  { config_ := ⟨"key", "secret", true⟩
    rest_client_ :=
      { config_ := ⟨"key", "secret", true⟩, curl_ := true, access_token_ := "access-1",
        refresh_token_ := "refresh-1", expires_in_ := 900, token_type_ := "bearer",
        is_authenticated_ := true, token_expiry_ := 900 }
    ws_client_ :=
      { config_ := ⟨"key", "secret", true⟩, is_connected_ := true, is_authenticated_ := true,
        is_running_ := true, has_message_callback_ := true }
    orderbook_callbacks_ := callbacks
    is_initialized_ := true
    is_authenticated_ := true
    ws_running_ := true }

/-- The reply to a login or refresh request that carries a token. -/
def tokenReply (text access refresh : String) (expires_in : Int) : HttpReply :=
  .done 200
    { text := text
      decoded := some (.obj [("id", .int 9929), ("jsonrpc", .str "2.0"),
        ("result", .obj [("access_token", .str access), ("expires_in", .int expires_in),
          ("refresh_token", .str refresh), ("token_type", .str "bearer")])]) }


/-- The invocations `handleOrderbookUpdate` makes for the callback it found and the Book
the constructor built: one when there is a function and a Book, none otherwise. -/
def invocations (callback : Callback) (orderbook : Option Orderbook) :
    List (Nat × Orderbook) :=
  match callback, orderbook with
  | some target, some book => [(target, book)]
  | _, _ => []


/-- The first step of `ApiClient::authenticate`: the login over the synchronous transport. -/
def ApiClient.loginStep (a : ApiClient) (w : World) : RestRet :=
  a.rest_client_.authenticate w

/-- The second step of `ApiClient::authenticate`: `connect` on the streaming client, in the
environment the login leaves. -/
def ApiClient.connectStep (a : ApiClient) (w : World) : WsRet :=
  a.ws_client_.connect (a.loginStep w).world

/-- The third step of `ApiClient::authenticate`: `authenticate` on the streaming client as
`connect` leaves it. -/
def ApiClient.authStep (a : ApiClient) (w : World) : WsRet :=
  (a.connectStep w).client.authenticate (a.connectStep w).world

/-- Nothing was done on the streaming transport between the two environments: no
connection requested, no send attempted, no wait made. -/
def World.streamUntouched (before after : World) : Prop :=
  after.wsConnects = before.wsConnects ∧ after.wsSendError = before.wsSendError
    ∧ after.wsSent = before.wsSent ∧ after.wsWindows = before.wsWindows
    ∧ after.delivered = before.delivered

/-- No send was attempted on the streaming transport between the two environments. -/
def World.nothingSent (before after : World) : Prop :=
  after.wsSendError = before.wsSendError ∧ after.wsSent = before.wsSent


/-- An environment in which a login is answered with a token valid for 900 seconds, the
connection opens during the first wait of `connect`, and the reply to the streaming
authenticate arrives during its first wait. -/
def World.loginSucceeds : World :=
  { World.quiet 0 with
    httpScript := [tokenReply "login" "access-1" "refresh-1" 900]
    wsWindows := [[.opened], [], [.message (resultFrame "auth" 9929 (.obj []))]] }


/-- An environment at time 700, when the token of `ApiClient.ready` (expiry 900) is due for
refresh, in which the next request meets a transport failure and the one after it is
answered with a result. -/
def World.refreshFails : World :=
  { World.quiet 700 with
    httpScript := [HttpReply.curlError, .done 200 (resultFrame "reply" 42 (.obj []))] }

/-- The request is the refresh of the token. -/
def HttpRequest.isRefresh : HttpRequest → Bool
  | .refresh _ _ _ => true
  | _ => false

/-- The request is a POST whose JSON-RPC method is the given one. -/
def HttpRequest.isPostOf (method : String) : HttpRequest → Bool
  | .post _ data _ => (data.index "method").eqStr method
  | _ => false


/-! ## Vocabulary of the later order-book claims -/

/-- The method `Orderbook::toJson`: name and timestamp, and each level of a side as the
array `[price, amount]`. -/
def Orderbook.toJson (b : Orderbook) : Json :=
  .obj [("asks", .arr (b.asks_.map (fun ask => .arr [.float ask.price, .float ask.amount]))),
    ("bids", .arr (b.bids_.map (fun bid => .arr [.float bid.price, .float bid.amount]))),
    ("instrument_name", .str b.instrument_name_),
    ("timestamp", .int b.timestamp_)]

/-- The pair `(price, amount)` of a level. -/
def PriceLevel.pair (l : PriceLevel) : ℚ × ℚ := (l.price, l.amount)

/-- The incremental message that carries a Book: its name, its timestamp and the pairs of
its levels. -/
def Orderbook.asIncremental (b : Orderbook) : Incremental :=
  { instrument_name := some b.instrument_name_
    timestamp := some b.timestamp_
    bids := some (b.bids_.map PriceLevel.pair)
    asks := some (b.asks_.map PriceLevel.pair) }

/-- The amount of the last pair of a side of a message that names the price, if any. -/
def lastAmount (ps : List (ℚ × ℚ)) (price : ℚ) : Option ℚ :=
  ps.foldl (fun found pa => if pa.1 = price then some pa.2 else found) none


/-! ## Reads of the facade and vocabulary of the token claims -/

/-- What a read operation of `ApiClient` leaves: the objects it returns (`none` when an
exception leaves the call), the facade and the environment. -/
structure ApiList (α : Type) where
  ret : Option (List α)
  api : ApiClient
  world : World

/-- The loop that builds the objects of a reply (lines 276-281 and 309-314): one for each
value iterated in `response["result"]`, in order; an exception of a constructor leaves
the call. -/
def buildAll {α : Type} (build : Json → Option α) (response : Json) : Option (List α) :=
  if response.contains "result" then (response.index "result").items.mapM build
  else some []

/-- The method `getPositions`: an empty list when the facade is not authenticated;
otherwise a GET on the base URL (the request document is built and then not used by
`RestClient::get`) and one `Position` for each value of the result.  No exception is
caught.  The constructor `Position(json)` is passed in as `position`. -/
def ApiClient.getPositions {α : Type} (a : ApiClient) (w : World)
    (position : Json → Option α) : ApiList α :=
  if !a.is_authenticated_ then { ret := some [], api := a, world := w }
  else
    let r := a.rest_client_.get w ""
    { ret := r.value.bind (buildAll position), api := { a with rest_client_ := r.client },
      world := r.world }

/-- The method `getOpenOrders`: an empty list when the facade is not authenticated;
otherwise a GET on the base URL and one `Order` for each value of the result.  No
exception is caught.  The constructor `Order(json)` is passed in as `order`. -/
def ApiClient.getOpenOrders {α : Type} (a : ApiClient) (w : World)
    (order : Json → Option α) : ApiList α :=
  if !a.is_authenticated_ then { ret := some [], api := a, world := w }
  else
    let r := a.rest_client_.get w ""
    { ret := r.value.bind (buildAll order), api := { a with rest_client_ := r.client },
      world := r.world }

/-- The outcome the next `curl_easy_perform` is going to have. -/
def World.nextReply (w : World) : HttpReply :=
  match w.httpScript with
  | [] => HttpReply.curlError
  | reply :: _ => reply

/-- A result that carries the four token fields, each of the type it is read with. -/
def Json.isToken (result : Json) (access refresh : String) (expires : Int)
    (kind : String) : Prop :=
  (result.getKey "access_token").bind Json.getString = some access
    ∧ (result.getKey "refresh_token").bind Json.getString = some refresh
    ∧ (result.getKey "expires_in").bind Json.getInt = some expires
    ∧ (result.getKey "token_type").bind Json.getString = some kind

/-- The request is a GET. -/
def HttpRequest.isGet : HttpRequest → Bool
  | .get _ _ => true
  | _ => false

/-- An environment in which the next request is answered with status 200 and a result. -/
def World.requestAnswered : World :=
  { World.quiet 0 with httpScript := [.done 200 (resultFrame "reply" 1 (.obj []))] }


/-- An environment in which two logins are each answered with a token, no connection ever
opens and nothing else is scripted: every wait of `connect` runs out. -/
def World.connectTimesOut : World :=
  { World.quiet 0 with
    httpScript := [tokenReply "login" "access-1" "refresh-1" 900,
      tokenReply "login" "access-2" "refresh-2" 900] }

/-- An environment in which the login is answered with status 200 and a result whose
`refresh_token` is a number, not a string. -/
def World.loginIllTyped : World :=
  { World.quiet 0 with
    httpScript := [.done 200 (resultFrame "login" 9929
      (.obj [("access_token", .str "access-1"), ("expires_in", .int 900),
        ("refresh_token", .int 17), ("token_type", .str "bearer")]))] }


/-! ## Decoding the payload documents -/

theorem snapshotStep_entry (levels : List PriceLevel) (e : SnapshotEntry) :
    snapshotStep levels e.toJson
      = some (if e.kept then levels ++ [e.level] else levels) := by
  by_cases h : e.action = "new" ∨ e.action = "change" <;>
    simp [snapshotStep, SnapshotEntry.toJson, Json.is_array, Json.size, Json.getIdx,
      Json.getString, Json.getDouble, SnapshotEntry.kept, SnapshotEntry.level, h]

theorem foldlM_snapshotStep (es : List SnapshotEntry) :
    ∀ levels : List PriceLevel,
      (es.map SnapshotEntry.toJson).foldlM snapshotStep levels
        = some (levels ++ (es.filter SnapshotEntry.kept).map SnapshotEntry.level) := by
  induction es with
  | nil => intro levels; simp
  | cons e es ih =>
    intro levels
    rw [List.map_cons, List.foldlM_cons, snapshotStep_entry]
    by_cases h : e.kept = true
    · simp [h, ih]
    · simp [h, ih]

theorem updateStep_pair (levels : List PriceLevel) (pa : ℚ × ℚ) :
    updateStep levels (pairToJson pa) = some (applyPair levels pa.1 pa.2) := by
  simp [updateStep, pairToJson, Json.is_array, Json.size, Json.getIdx, Json.getDouble]

theorem foldlM_updateStep (ps : List (ℚ × ℚ)) :
    ∀ levels : List PriceLevel,
      (ps.map pairToJson).foldlM updateStep levels = some (mergePairs levels ps) := by
  induction ps with
  | nil => intro levels; simp [mergePairs]
  | cons pa ps ih =>
    intro levels
    rw [List.map_cons, List.foldlM_cons, updateStep_pair]
    simp [ih, mergePairs]

/-- The constructor never fails on the document of a snapshot payload, and this is the
Book it builds. -/
theorem ofJson_toJson (s : Snapshot) :
    Orderbook.ofJson s.toJson = some
      { instrument_name_ := s.instrument_name.getD ""
        timestamp_ := s.timestamp.getD 0
        bids_ := stdSort bidComp (keptLevels s.bids)
        asks_ := stdSort askComp (keptLevels s.asks) } := by
  obtain ⟨name, ts, bids, asks⟩ := s
  cases name <;> cases ts <;> cases bids <;> cases asks <;>
    simp [Orderbook.ofJson, Snapshot.toJson, optField, Json.contains, Json.getKey,
      List.lookup, Json.getString, Json.getInt64, Json.items, foldlM_snapshotStep,
      keptLevels]

/-- The update never fails on the document of an incremental message, and this is the
Book it leaves. -/
theorem update_toJson (b : Orderbook) (m : Incremental) :
    b.update m.toJson = some
      { instrument_name_ := m.instrument_name.getD b.instrument_name_
        timestamp_ := m.timestamp.getD b.timestamp_
        bids_ := match m.bids with
          | some ps => stdSort bidComp (mergePairs b.bids_ ps)
          | none => b.bids_
        asks_ := match m.asks with
          | some ps => stdSort askComp (mergePairs b.asks_ ps)
          | none => b.asks_ } := by
  obtain ⟨name, ts, bids, asks⟩ := m
  cases name <;> cases ts <;> cases bids <;> cases asks <;>
    simp [Orderbook.update, Incremental.toJson, optField, Json.contains, Json.getKey,
      List.lookup, Json.getString, Json.getInt64, Json.items, foldlM_updateStep]


/-! ## The merge of one pair -/

theorem applyPair_nil (p a : ℚ) :
    applyPair [] p a = if a > 0 then [PriceLevel.mk p a] else [] := by
  simp [applyPair]

theorem applyPair_cons (l : PriceLevel) (ls : List PriceLevel) (p a : ℚ) :
    applyPair (l :: ls) p a
      = if l.price = p then
          (if a > 0 then { l with amount := a } :: ls else ls)
        else l :: applyPair ls p a := by
  by_cases h : l.price = p
  · simp [applyPair, List.findIdx?_cons, h]
  · simp only [applyPair, List.findIdx?_cons, h, decide_False, if_false, Bool.false_eq_true]
    rw [List.findIdx?_succ]
    cases hf : List.findIdx? (fun level => decide (level.price = p)) ls 0 with
    | none => by_cases ha : a > 0 <;> simp [ha]
    | some i => by_cases ha : a > 0 <;> simp [ha]


/-! ## The sort -/

theorem bidRel_total : IsTotal PriceLevel (fun a b => bidComp b a = false) :=
  ⟨fun a b => by
    simp only [bidComp, decide_eq_false_iff_not, not_lt, gt_iff_lt]
    exact le_total b.price a.price⟩

theorem bidRel_trans : IsTrans PriceLevel (fun a b => bidComp b a = false) :=
  ⟨fun a b c hab hbc => by
    simp only [bidComp, decide_eq_false_iff_not, not_lt, gt_iff_lt] at *
    exact le_trans hbc hab⟩

theorem askRel_total : IsTotal PriceLevel (fun a b => askComp b a = false) :=
  ⟨fun a b => by
    simp only [askComp, decide_eq_false_iff_not, not_lt]
    exact le_total a.price b.price⟩

theorem askRel_trans : IsTrans PriceLevel (fun a b => askComp b a = false) :=
  ⟨fun a b c hab hbc => by
    simp only [askComp, decide_eq_false_iff_not, not_lt] at *
    exact le_trans hab hbc⟩

theorem stdSort_perm (comp : PriceLevel → PriceLevel → Bool) (l : List PriceLevel) :
    (stdSort comp l).Perm l :=
  List.perm_insertionSort _ l

theorem mem_stdSort (comp : PriceLevel → PriceLevel → Bool) (l : List PriceLevel)
    (x : PriceLevel) : x ∈ stdSort comp l ↔ x ∈ l :=
  (stdSort_perm comp l).mem_iff

theorem stdSort_bid_weak (l : List PriceLevel) : WeakDesc (stdSort bidComp l) := by
  have h := @List.sorted_insertionSort PriceLevel (fun a b => bidComp b a = false) _
    bidRel_total bidRel_trans l
  refine List.Pairwise.imp ?_ h
  intro a b hab
  simpa [bidComp] using hab

theorem stdSort_ask_weak (l : List PriceLevel) : WeakAsc (stdSort askComp l) := by
  have h := @List.sorted_insertionSort PriceLevel (fun a b => askComp b a = false) _
    askRel_total askRel_trans l
  refine List.Pairwise.imp ?_ h
  intro a b hab
  simpa [askComp] using hab

theorem stdSort_bid_of_weak (l : List PriceLevel) (h : WeakDesc l) :
    stdSort bidComp l = l := by
  apply List.Sorted.insertionSort_eq
  refine List.Pairwise.imp ?_ h
  intro a b hab
  simpa [bidComp] using hab

theorem stdSort_ask_of_weak (l : List PriceLevel) (h : WeakAsc l) :
    stdSort askComp l = l := by
  apply List.Sorted.insertionSort_eq
  refine List.Pairwise.imp ?_ h
  intro a b hab
  simpa [askComp] using hab

theorem strictDesc_weak {l : List PriceLevel} (h : StrictDesc l) : WeakDesc l :=
  List.Pairwise.imp (fun hab => le_of_lt hab) h

theorem strictAsc_weak {l : List PriceLevel} (h : StrictAsc l) : WeakAsc l :=
  List.Pairwise.imp (fun hab => le_of_lt hab) h

theorem strictDesc_distinct {l : List PriceLevel} (h : StrictDesc l) : DistinctPrices l := by
  unfold DistinctPrices StrictDesc at *
  rw [List.Nodup, List.pairwise_map]
  exact List.Pairwise.imp (fun hab => ne_of_gt hab) h

theorem strictAsc_distinct {l : List PriceLevel} (h : StrictAsc l) : DistinctPrices l := by
  unfold DistinctPrices StrictAsc at *
  rw [List.Nodup, List.pairwise_map]
  exact List.Pairwise.imp (fun hab => ne_of_lt hab) h

theorem distinctPrices_perm {l₁ l₂ : List PriceLevel} (hp : l₁.Perm l₂)
    (h : DistinctPrices l₂) : DistinctPrices l₁ :=
  ((hp.map PriceLevel.price).nodup_iff).mpr h

theorem strictDesc_of_weak_distinct {l : List PriceLevel} (hw : WeakDesc l)
    (hd : DistinctPrices l) : StrictDesc l := by
  unfold DistinctPrices at hd
  rw [List.Nodup, List.pairwise_map] at hd
  exact (hw.and hd).imp (fun ⟨h1, h2⟩ => lt_of_le_of_ne h1 (Ne.symm h2))

theorem strictAsc_of_weak_distinct {l : List PriceLevel} (hw : WeakAsc l)
    (hd : DistinctPrices l) : StrictAsc l := by
  unfold DistinctPrices at hd
  rw [List.Nodup, List.pairwise_map] at hd
  exact (hw.and hd).imp (fun ⟨h1, h2⟩ => lt_of_le_of_ne h1 h2)

theorem stdSort_bid_strict (l : List PriceLevel) (hd : DistinctPrices l) :
    StrictDesc (stdSort bidComp l) :=
  strictDesc_of_weak_distinct (stdSort_bid_weak l) (distinctPrices_perm (stdSort_perm bidComp l) hd)

theorem stdSort_ask_strict (l : List PriceLevel) (hd : DistinctPrices l) :
    StrictAsc (stdSort askComp l) :=
  strictAsc_of_weak_distinct (stdSort_ask_weak l) (distinctPrices_perm (stdSort_perm askComp l) hd)

theorem strictDesc_unique {l₁ l₂ : List PriceLevel} (hp : l₁.Perm l₂)
    (h₁ : StrictDesc l₁) (h₂ : StrictDesc l₂) : l₁ = l₂ :=
  @List.eq_of_perm_of_sorted PriceLevel (fun a b => a.price > b.price)
    ⟨fun _ _ hab hba => absurd hab (not_lt_of_gt hba)⟩ l₁ l₂ hp h₁ h₂

theorem strictAsc_unique {l₁ l₂ : List PriceLevel} (hp : l₁.Perm l₂)
    (h₁ : StrictAsc l₁) (h₂ : StrictAsc l₂) : l₁ = l₂ :=
  @List.eq_of_perm_of_sorted PriceLevel (fun a b => a.price < b.price)
    ⟨fun _ _ hab hba => absurd hab (not_lt_of_gt hba)⟩ l₁ l₂ hp h₁ h₂


/-! ## The four cases of a merged pair -/

theorem applyPair_absent (ls : List PriceLevel) (p a : ℚ) (h : ∀ l ∈ ls, l.price ≠ p) :
    applyPair ls p a = if a > 0 then ls ++ [PriceLevel.mk p a] else ls := by
  induction ls with
  | nil => simp [applyPair_nil]
  | cons l ls ih =>
    have hl : l.price ≠ p := h l (List.mem_cons_self _ _)
    have ht : ∀ x ∈ ls, x.price ≠ p := fun x hx => h x (List.mem_cons_of_mem _ hx)
    rw [applyPair_cons, if_neg hl, ih ht]
    by_cases ha : a > 0 <;> simp [ha]

theorem map_setAmount_absent (ls : List PriceLevel) (p a : ℚ) (h : ∀ l ∈ ls, l.price ≠ p) :
    ls.map (fun l => if l.price = p then { l with amount := a } else l) = ls := by
  induction ls with
  | nil => rfl
  | cons l ls ih =>
    have hl : l.price ≠ p := h l (List.mem_cons_self _ _)
    have ht : ∀ x ∈ ls, x.price ≠ p := fun x hx => h x (List.mem_cons_of_mem _ hx)
    simp [hl, ih ht]

theorem filter_ne_absent (ls : List PriceLevel) (p : ℚ) (h : ∀ l ∈ ls, l.price ≠ p) :
    ls.filter (fun l => decide (l.price ≠ p)) = ls := by
  rw [List.filter_eq_self]
  intro l hl
  simpa using h l hl

theorem distinct_cons {l : List PriceLevel} {x : PriceLevel} (h : DistinctPrices (x :: l)) :
    (∀ y ∈ l, y.price ≠ x.price) ∧ DistinctPrices l := by
  unfold DistinctPrices at *
  rw [List.map_cons, List.nodup_cons] at h
  refine ⟨fun y hy hxy => h.1 ?_, h.2⟩
  rw [← hxy]
  exact List.mem_map_of_mem _ hy

theorem applyPair_update (ls : List PriceLevel) (p a : ℚ) (hd : DistinctPrices ls)
    (ha : a > 0) (hp : ∃ l ∈ ls, l.price = p) :
    applyPair ls p a
      = ls.map (fun l => if l.price = p then { l with amount := a } else l) := by
  induction ls with
  | nil => obtain ⟨l, hl, _⟩ := hp; cases hl
  | cons x ls ih =>
    obtain ⟨hx, hd2⟩ := distinct_cons hd
    rw [applyPair_cons]
    by_cases hxp : x.price = p
    · have hrest : ∀ y ∈ ls, y.price ≠ p := fun y hy => hxp ▸ hx y hy
      simp [hxp, ha, map_setAmount_absent ls p a hrest]
    · obtain ⟨l, hl, hlp⟩ := hp
      have hl2 : l ∈ ls := by
        rcases List.mem_cons.mp hl with h | h
        · exact absurd (h ▸ hlp) hxp
        · exact h
      simp [hxp, ih hd2 ⟨l, hl2, hlp⟩]

theorem applyPair_remove (ls : List PriceLevel) (p a : ℚ) (hd : DistinctPrices ls)
    (ha : a ≤ 0) (hp : ∃ l ∈ ls, l.price = p) :
    applyPair ls p a = ls.filter (fun l => decide (l.price ≠ p)) := by
  have ha2 : ¬ a > 0 := not_lt.mpr ha
  induction ls with
  | nil => obtain ⟨l, hl, _⟩ := hp; cases hl
  | cons x ls ih =>
    obtain ⟨hx, hd2⟩ := distinct_cons hd
    rw [applyPair_cons]
    by_cases hxp : x.price = p
    · have hrest : ∀ y ∈ ls, y.price ≠ p := fun y hy => hxp ▸ hx y hy
      have := filter_ne_absent ls p hrest
      simp only [ne_eq, decide_not] at this
      simp [hxp, ha2, this]
    · obtain ⟨l, hl, hlp⟩ := hp
      have hl2 : l ∈ ls := by
        rcases List.mem_cons.mp hl with h | h
        · exact absurd (h ▸ hlp) hxp
        · exact h
      have := ih hd2 ⟨l, hl2, hlp⟩
      simp only [ne_eq, decide_not] at this
      simp [hxp, this]

theorem price_mem_applyPair (ls : List PriceLevel) (p a : ℚ) (x : PriceLevel)
    (hx : x ∈ applyPair ls p a) : x.price = p ∨ ∃ y ∈ ls, y.price = x.price := by
  induction ls with
  | nil =>
    rw [applyPair_nil] at hx
    by_cases ha : a > 0
    · rw [if_pos ha] at hx
      left
      rw [List.mem_singleton.mp hx]
    · rw [if_neg ha] at hx; cases hx
  | cons l ls ih =>
    rw [applyPair_cons] at hx
    by_cases hl : l.price = p
    · rw [if_pos hl] at hx
      by_cases ha : a > 0
      · rw [if_pos ha] at hx
        rcases List.mem_cons.mp hx with h | h
        · left; rw [h]; exact hl
        · right; exact ⟨x, List.mem_cons_of_mem _ h, rfl⟩
      · rw [if_neg ha] at hx
        right; exact ⟨x, List.mem_cons_of_mem _ hx, rfl⟩
    · rw [if_neg hl] at hx
      rcases List.mem_cons.mp hx with h | h
      · right; exact ⟨l, List.mem_cons_self _ _, by rw [h]⟩
      · rcases ih h with h2 | ⟨y, hy, hyx⟩
        · left; exact h2
        · right; exact ⟨y, List.mem_cons_of_mem _ hy, hyx⟩

theorem distinct_cons_iff (l : List PriceLevel) (x : PriceLevel) :
    DistinctPrices (x :: l) ↔ (∀ y ∈ l, y.price ≠ x.price) ∧ DistinctPrices l := by
  constructor
  · exact distinct_cons
  · rintro ⟨h1, h2⟩
    unfold DistinctPrices at *
    rw [List.map_cons, List.nodup_cons]
    refine ⟨?_, h2⟩
    intro hmem
    obtain ⟨y, hy, hyx⟩ := List.mem_map.mp hmem
    exact h1 y hy hyx

theorem applyPair_distinct (ls : List PriceLevel) (p a : ℚ) (hd : DistinctPrices ls) :
    DistinctPrices (applyPair ls p a) := by
  induction ls with
  | nil =>
    rw [applyPair_nil]
    by_cases ha : a > 0 <;> simp [ha, DistinctPrices]
  | cons l ls ih =>
    obtain ⟨hx, hd2⟩ := distinct_cons hd
    rw [applyPair_cons]
    by_cases hl : l.price = p
    · rw [if_pos hl]
      by_cases ha : a > 0
      · rw [if_pos ha]
        exact (distinct_cons_iff _ _).mpr ⟨hx, hd2⟩
      · rw [if_neg ha]; exact hd2
    · rw [if_neg hl]
      refine (distinct_cons_iff _ _).mpr ⟨?_, ih hd2⟩
      intro y hy
      rcases price_mem_applyPair ls p a y hy with h | ⟨z, hz, hzy⟩
      · rw [h]; exact Ne.symm hl
      · rw [← hzy]; exact hx z hz

theorem mergePairs_distinct (ps : List (ℚ × ℚ)) :
    ∀ ls : List PriceLevel, DistinctPrices ls → DistinctPrices (mergePairs ls ps) := by
  induction ps with
  | nil => intro ls h; exact h
  | cons pa ps ih =>
    intro ls h
    exact ih _ (applyPair_distinct ls pa.1 pa.2 h)

theorem applyPair_positive (ls : List PriceLevel) (p a : ℚ)
    (h : ∀ l ∈ ls, l.amount > 0) : ∀ l ∈ applyPair ls p a, l.amount > 0 := by
  induction ls with
  | nil =>
    rw [applyPair_nil]
    by_cases ha : a > 0
    · rw [if_pos ha]
      intro l hl
      rw [List.mem_singleton.mp hl]
      exact ha
    · rw [if_neg ha]; intro l hl; cases hl
  | cons x ls ih =>
    have hx : x.amount > 0 := h x (List.mem_cons_self _ _)
    have ht : ∀ l ∈ ls, l.amount > 0 := fun l hl => h l (List.mem_cons_of_mem _ hl)
    rw [applyPair_cons]
    by_cases hxp : x.price = p
    · rw [if_pos hxp]
      by_cases ha : a > 0
      · rw [if_pos ha]
        intro l hl
        rcases List.mem_cons.mp hl with h1 | h1
        · rw [h1]; exact ha
        · exact ht l h1
      · rw [if_neg ha]; exact ht
    · rw [if_neg hxp]
      intro l hl
      rcases List.mem_cons.mp hl with h1 | h1
      · rw [h1]; exact hx
      · exact ih ht l h1

theorem mergePairs_positive (ps : List (ℚ × ℚ)) :
    ∀ ls : List PriceLevel, (∀ l ∈ ls, l.amount > 0) →
      ∀ l ∈ mergePairs ls ps, l.amount > 0 := by
  induction ps with
  | nil => intro ls h; exact h
  | cons pa ps ih =>
    intro ls h
    exact ih _ (applyPair_positive ls pa.1 pa.2 h)


/-! ## Invariants along a sequence of operations -/

theorem bookInvariant_of_strict {b : Orderbook} (hb : StrictDesc b.bids_)
    (ha : StrictAsc b.asks_) : BookInvariant b :=
  ⟨hb, ha, strictDesc_distinct hb, strictAsc_distinct ha⟩

theorem ofJson_weaklyOrdered (s : Snapshot) :
    ∃ b, Orderbook.ofJson s.toJson = some b ∧ WeaklyOrdered b
      ∧ (SnapshotDistinct s → BookInvariant b) := by
  refine ⟨_, ofJson_toJson s, ⟨stdSort_bid_weak _, stdSort_ask_weak _⟩, ?_⟩
  intro hd
  exact bookInvariant_of_strict (stdSort_bid_strict _ hd.1) (stdSort_ask_strict _ hd.2)

theorem update_weaklyOrdered (b : Orderbook) (m : Incremental) :
    ∃ b2, b.update m.toJson = some b2 ∧ (WeaklyOrdered b → WeaklyOrdered b2)
      ∧ (BookInvariant b → BookInvariant b2) := by
  refine ⟨_, update_toJson b m, ?_, ?_⟩
  · intro hw
    constructor
    · show WeakDesc (match m.bids with
        | some ps => stdSort bidComp (mergePairs b.bids_ ps)
        | none => b.bids_)
      cases m.bids with
      | none => exact hw.1
      | some ps => exact stdSort_bid_weak _
    · show WeakAsc (match m.asks with
        | some ps => stdSort askComp (mergePairs b.asks_ ps)
        | none => b.asks_)
      cases m.asks with
      | none => exact hw.2
      | some ps => exact stdSort_ask_weak _
  · intro hi
    apply bookInvariant_of_strict
    · show StrictDesc (match m.bids with
        | some ps => stdSort bidComp (mergePairs b.bids_ ps)
        | none => b.bids_)
      cases m.bids with
      | none => exact hi.1
      | some ps => exact stdSort_bid_strict _ (mergePairs_distinct ps _ hi.2.2.1)
    · show StrictAsc (match m.asks with
        | some ps => stdSort askComp (mergePairs b.asks_ ps)
        | none => b.asks_)
      cases m.asks with
      | none => exact hi.2.1
      | some ps => exact stdSort_ask_strict _ (mergePairs_distinct ps _ hi.2.2.2)

theorem runOps_ordered (ops : List BookOp) :
    ∀ b : Orderbook, ∃ b2, runOps b ops = some b2
      ∧ (WeaklyOrdered b → WeaklyOrdered b2)
      ∧ (BookInvariant b → (∀ s, BookOp.replace s ∈ ops → SnapshotDistinct s) →
          BookInvariant b2) := by
  induction ops with
  | nil => intro b; exact ⟨b, rfl, id, fun h _ => h⟩
  | cons op ops ih =>
    intro b
    cases op with
    | replace s =>
      obtain ⟨b1, h1, hw1, hs1⟩ := ofJson_weaklyOrdered s
      obtain ⟨b2, h2, hw2, hs2⟩ := ih b1
      refine ⟨b2, ?_, fun _ => hw2 hw1, ?_⟩
      · simp [runOps, applyOp, h1] at h2 ⊢
        exact h2
      · intro _ hd
        exact hs2 (hs1 (hd s (List.mem_cons_self _ _)))
          (fun t ht => hd t (List.mem_cons_of_mem _ ht))
    | update m =>
      obtain ⟨b1, h1, hw1, hs1⟩ := update_weaklyOrdered b m
      obtain ⟨b2, h2, hw2, hs2⟩ := ih b1
      refine ⟨b2, ?_, fun h => hw2 (hw1 h), ?_⟩
      · simp [runOps, applyOp, h1] at h2 ⊢
        exact h2
      · intro hi hd
        exact hs2 (hs1 hi) (fun t ht => hd t (List.mem_cons_of_mem _ ht))

theorem default_invariant : BookInvariant Orderbook.default := by
  simp [BookInvariant, Orderbook.default, StrictDesc, StrictAsc, DistinctPrices]

theorem default_weaklyOrdered : WeaklyOrdered Orderbook.default := by
  simp [WeaklyOrdered, Orderbook.default, WeakDesc, WeakAsc]

/-! ## The claims -/

/-- C1 (as amended): starting from an empty Book, every finite sequence of full replaces
and incremental updates runs to a Book whose bid list is descending and whose ask list is
ascending by price; when every snapshot payload of the sequence has pairwise distinct
prices among its kept entries on each side, both lists are strictly ordered and no two
levels of a side share a price. -/
theorem book_ordered_after_ops (ops : List BookOp) :
    ∃ b, runOps Orderbook.default ops = some b ∧ WeakDesc b.bids_ ∧ WeakAsc b.asks_
      ∧ ((∀ s, BookOp.replace s ∈ ops → SnapshotDistinct s) → BookInvariant b) := by
  obtain ⟨b, hrun, hw, hs⟩ := runOps_ordered ops Orderbook.default
  exact ⟨b, hrun, (hw default_weaklyOrdered).1, (hw default_weaklyOrdered).2,
    hs default_invariant⟩

/-- C1, the claim as stated fails: a snapshot payload that lists the price 100 twice on
the bid side yields a Book with two bid levels at 100, so the bid list is neither
strictly descending nor free of repeated prices. -/
theorem book_ordered_after_ops_counterexample :
    ∃ b, runOps Orderbook.default
          [BookOp.replace
            { instrument_name := none, timestamp := none,
              bids := some [⟨"new", 100, 5⟩, ⟨"new", 100, 3⟩], asks := none }] = some b
      ∧ b.bids_.map PriceLevel.price = [100, 100]
      ∧ ¬ StrictDesc b.bids_ ∧ ¬ DistinctPrices b.bids_ := by
  refine ⟨⟨"", 0, [⟨100, 5⟩, ⟨100, 3⟩], []⟩, by decide, by decide, ?_, ?_⟩
  · simp [StrictDesc]
  · simp [DistinctPrices]

/-- C1, an instance: a snapshot followed by an update that deletes the best bid and adds
an ask leaves a strictly ordered Book. -/
theorem book_ordered_after_ops_witness :
    ∃ b, runOps Orderbook.default
          [BookOp.replace
            { instrument_name := none, timestamp := none,
              bids := some [⟨"new", 99, 3⟩, ⟨"new", 100, 5⟩],
              asks := some [⟨"new", 101, 2⟩] },
           BookOp.update
            { instrument_name := none, timestamp := none,
              bids := some [(100, 0)], asks := some [(102, 1)] }] = some b
      ∧ BookInvariant b := by
  obtain ⟨b, hrun, _, _, hs⟩ := book_ordered_after_ops
    [BookOp.replace
      { instrument_name := none, timestamp := none,
        bids := some [⟨"new", 99, 3⟩, ⟨"new", 100, 5⟩],
        asks := some [⟨"new", 101, 2⟩] },
     BookOp.update
      { instrument_name := none, timestamp := none,
        bids := some [(100, 0)], asks := some [(102, 1)] }]
  refine ⟨b, hrun, hs ?_⟩
  intro s hs
  simp only [List.mem_cons, BookOp.replace.injEq, List.mem_singleton, reduceCtorEq,
    or_false, List.not_mem_nil] at hs
  subst hs
  constructor <;> simp [SnapshotDistinct, DistinctPrices, keptLevels, SnapshotEntry.kept,
    SnapshotEntry.level]


/-- C2: the constructor returns on every snapshot payload; the bid list it builds is a
rearrangement of the levels of the bid entries whose action is "new" or "change", in
descending order of price, and the ask list a rearrangement of the kept ask entries in
ascending order of price.  Entries with any other action contribute nothing. -/
theorem full_replace_keeps_new_and_change (s : Snapshot) :
    ∃ b, Orderbook.ofJson s.toJson = some b
      ∧ b.bids_.Perm (((s.bids.getD []).filter
          (fun e => decide (e.action = "new" ∨ e.action = "change"))).map
          (fun e => PriceLevel.mk e.price e.amount))
      ∧ WeakDesc b.bids_
      ∧ b.asks_.Perm (((s.asks.getD []).filter
          (fun e => decide (e.action = "new" ∨ e.action = "change"))).map
          (fun e => PriceLevel.mk e.price e.amount))
      ∧ WeakAsc b.asks_ :=
  ⟨_, ofJson_toJson s, stdSort_perm bidComp _, stdSort_bid_weak _,
    stdSort_perm askComp _, stdSort_ask_weak _⟩


/-! ## A single pair merged into an ordered side -/

theorem setAmount_price (x : PriceLevel) (p a : ℚ) :
    (if x.price = p then { x with amount := a } else x).price = x.price := by
  split <;> rfl

theorem strictDesc_map_setAmount (ls : List PriceLevel) (p a : ℚ) (h : StrictDesc ls) :
    StrictDesc (ls.map (fun l => if l.price = p then { l with amount := a } else l)) := by
  unfold StrictDesc at *
  rw [List.pairwise_map]
  refine List.Pairwise.imp ?_ h
  intro x y hxy
  rw [setAmount_price, setAmount_price]
  exact hxy

theorem strictAsc_map_setAmount (ls : List PriceLevel) (p a : ℚ) (h : StrictAsc ls) :
    StrictAsc (ls.map (fun l => if l.price = p then { l with amount := a } else l)) := by
  unfold StrictAsc at *
  rw [List.pairwise_map]
  refine List.Pairwise.imp ?_ h
  intro x y hxy
  rw [setAmount_price, setAmount_price]
  exact hxy

theorem strictDesc_filter (ls : List PriceLevel) (f : PriceLevel → Bool)
    (h : StrictDesc ls) : StrictDesc (ls.filter f) :=
  List.Pairwise.filter f h

theorem strictAsc_filter (ls : List PriceLevel) (f : PriceLevel → Bool)
    (h : StrictAsc ls) : StrictAsc (ls.filter f) :=
  List.Pairwise.filter f h

theorem update_single_bid (b : Orderbook) (m : Incremental) (p a : ℚ)
    (hm : m.bids = some [(p, a)]) :
    ∃ b2, b.update m.toJson = some b2
      ∧ b2.bids_ = stdSort bidComp (applyPair b.bids_ p a)
      ∧ (m.asks = none → b2.asks_ = b.asks_) := by
  refine ⟨_, update_toJson b m, ?_, ?_⟩
  · simp [hm, mergePairs]
  · intro h; simp [h]

theorem update_single_ask (b : Orderbook) (m : Incremental) (p a : ℚ)
    (hm : m.asks = some [(p, a)]) :
    ∃ b2, b.update m.toJson = some b2
      ∧ b2.asks_ = stdSort askComp (applyPair b.asks_ p a)
      ∧ (m.bids = none → b2.bids_ = b.bids_) := by
  refine ⟨_, update_toJson b m, ?_, ?_⟩
  · simp [hm, mergePairs]
  · intro h; simp [h]

/-- C3: on a Book that satisfies the invariant, an incremental message whose bid (ask) key
holds the single pair (p, a) with a > 0, where the side has a level at price p, is
accepted and leaves that side with the amount of the level at p set to a and every other
level, the number of levels and their order as before. -/
theorem update_existing_level_sets_amount (b : Orderbook) (m : Incremental) (p a : ℚ)
    (hinv : BookInvariant b) (ha : a > 0) :
    (m.bids = some [(p, a)] → (∃ l ∈ b.bids_, l.price = p) →
      ∃ b2, b.update m.toJson = some b2
        ∧ b2.bids_ = b.bids_.map
            (fun l => if l.price = p then { l with amount := a } else l)
        ∧ b2.bids_.length = b.bids_.length)
    ∧ (m.asks = some [(p, a)] → (∃ l ∈ b.asks_, l.price = p) →
      ∃ b2, b.update m.toJson = some b2
        ∧ b2.asks_ = b.asks_.map
            (fun l => if l.price = p then { l with amount := a } else l)
        ∧ b2.asks_.length = b.asks_.length) := by
  obtain ⟨hb, hk, hdb, hda⟩ := hinv
  constructor
  · intro hm hp
    obtain ⟨b2, h2, hbids, _⟩ := update_single_bid b m p a hm
    have heq : b2.bids_ = b.bids_.map
        (fun l => if l.price = p then { l with amount := a } else l) := by
      rw [hbids, applyPair_update _ p a hdb ha hp]
      exact stdSort_bid_of_weak _ (strictDesc_weak (strictDesc_map_setAmount _ p a hb))
    exact ⟨b2, h2, heq, by rw [heq, List.length_map]⟩
  · intro hm hp
    obtain ⟨b2, h2, hasks, _⟩ := update_single_ask b m p a hm
    have heq : b2.asks_ = b.asks_.map
        (fun l => if l.price = p then { l with amount := a } else l) := by
      rw [hasks, applyPair_update _ p a hda ha hp]
      exact stdSort_ask_of_weak _ (strictAsc_weak (strictAsc_map_setAmount _ p a hk))
    exact ⟨b2, h2, heq, by rw [heq, List.length_map]⟩

/-- C3, an instance: bids=[[99,7]] on the bids (100,5),(99,3) sets the level at 99 to 7. -/
theorem update_existing_level_sets_amount_witness :
    ∃ b2, (Orderbook.mk "BTC-PERPETUAL" 1 [⟨100, 5⟩, ⟨99, 3⟩] [⟨101, 2⟩]).update
        (Incremental.toJson ⟨none, none, some [(99, 7)], none⟩) = some b2
      ∧ b2.bids_ = [⟨100, 5⟩, ⟨99, 7⟩] := by
  obtain ⟨b2, h2, hb, _⟩ := (update_existing_level_sets_amount
    (Orderbook.mk "BTC-PERPETUAL" 1 [⟨100, 5⟩, ⟨99, 3⟩] [⟨101, 2⟩])
    ⟨none, none, some [(99, 7)], none⟩ 99 7
    (by norm_num [BookInvariant, StrictDesc, StrictAsc, DistinctPrices])
    (by decide)).1 rfl ⟨⟨99, 3⟩, by simp, rfl⟩
  refine ⟨b2, h2, ?_⟩
  rw [hb]
  decide


/-- C4: on a Book that satisfies the invariant, an incremental message whose bid (ask)
key holds the single pair (p, a) with a <= 0, where the side has a level at price p, is
accepted and leaves that side equal to the earlier list with the level at p deleted: no
level at p remains and the other levels keep their values and order.  In particular
bids=[[100,0]] applied to the bids (100,5),(99,3) leaves the best bid (99,3). -/
theorem update_existing_level_removed (b : Orderbook) (m : Incremental) (p a : ℚ)
    (hinv : BookInvariant b) (ha : a ≤ 0) :
    (m.bids = some [(p, a)] → (∃ l ∈ b.bids_, l.price = p) →
      ∃ b2, b.update m.toJson = some b2
        ∧ b2.bids_ = b.bids_.filter (fun l => decide (l.price ≠ p))
        ∧ (∀ l ∈ b2.bids_, l.price ≠ p))
    ∧ (m.asks = some [(p, a)] → (∃ l ∈ b.asks_, l.price = p) →
      ∃ b2, b.update m.toJson = some b2
        ∧ b2.asks_ = b.asks_.filter (fun l => decide (l.price ≠ p))
        ∧ (∀ l ∈ b2.asks_, l.price ≠ p))
    ∧ (∃ b2, (Orderbook.mk "" 0 [⟨100, 5⟩, ⟨99, 3⟩] [⟨101, 2⟩]).update
          (Incremental.toJson ⟨none, none, some [(100, 0)], none⟩) = some b2
        ∧ b2.bids_ = [⟨99, 3⟩]
        ∧ b2.getBestBidPrice = 99 ∧ b2.getBestBidAmount = 3) := by
  obtain ⟨hb, hk, hdb, hda⟩ := hinv
  refine ⟨?_, ?_, ⟨⟨"", 0, [⟨99, 3⟩], [⟨101, 2⟩]⟩, by decide, rfl, rfl, rfl⟩⟩
  · intro hm hp
    obtain ⟨b2, h2, hbids, _⟩ := update_single_bid b m p a hm
    have heq : b2.bids_ = b.bids_.filter (fun l => decide (l.price ≠ p)) := by
      rw [hbids, applyPair_remove _ p a hdb ha hp]
      exact stdSort_bid_of_weak _ (strictDesc_weak (strictDesc_filter _ _ hb))
    refine ⟨b2, h2, heq, ?_⟩
    intro l hl
    rw [heq] at hl
    simpa using (List.mem_filter.mp hl).2
  · intro hm hp
    obtain ⟨b2, h2, hasks, _⟩ := update_single_ask b m p a hm
    have heq : b2.asks_ = b.asks_.filter (fun l => decide (l.price ≠ p)) := by
      rw [hasks, applyPair_remove _ p a hda ha hp]
      exact stdSort_ask_of_weak _ (strictAsc_weak (strictAsc_filter _ _ hk))
    refine ⟨b2, h2, heq, ?_⟩
    intro l hl
    rw [heq] at hl
    simpa using (List.mem_filter.mp hl).2

/-- C4, an instance: asks=[[101,-1]] on the asks (101,2),(102,4) deletes the level 101. -/
theorem update_existing_level_removed_witness :
    ∃ b2, (Orderbook.mk "BTC-PERPETUAL" 1 [⟨100, 5⟩] [⟨101, 2⟩, ⟨102, 4⟩]).update
        (Incremental.toJson ⟨none, none, none, some [(101, -1)]⟩) = some b2
      ∧ b2.asks_ = [⟨102, 4⟩] := by
  obtain ⟨b2, h2, hb, _⟩ := (update_existing_level_removed
    (Orderbook.mk "BTC-PERPETUAL" 1 [⟨100, 5⟩] [⟨101, 2⟩, ⟨102, 4⟩])
    ⟨none, none, none, some [(101, -1)]⟩ 101 (-1)
    (by norm_num [BookInvariant, StrictDesc, StrictAsc, DistinctPrices])
    (by decide)).2.1 rfl ⟨⟨101, 2⟩, by simp, rfl⟩
  refine ⟨b2, h2, ?_⟩
  rw [hb]
  decide

theorem insert_desc (ls : List PriceLevel) (x : PriceLevel) (h : StrictDesc ls)
    (hx : ∀ l ∈ ls, l.price ≠ x.price) :
    stdSort bidComp (ls ++ [x])
      = ls.filter (fun l => decide (l.price > x.price)) ++ [x]
          ++ ls.filter (fun l => decide (l.price < x.price)) := by
  have hd : DistinctPrices (ls ++ [x]) := by
    refine distinctPrices_perm (List.perm_append_singleton x ls) ?_
    exact (distinct_cons_iff ls x).mpr ⟨hx, strictDesc_distinct h⟩
  apply strictDesc_unique _ (stdSort_bid_strict _ hd)
  · unfold StrictDesc at *
    rw [List.pairwise_append, List.pairwise_append]
    refine ⟨⟨List.Pairwise.filter _ h, List.pairwise_singleton _ _, ?_⟩,
      List.Pairwise.filter _ h, ?_⟩
    · intro u hu v hv
      rw [List.mem_singleton.mp hv]
      simpa using (List.mem_filter.mp hu).2
    · intro u hu v hv
      have hv2 : v.price < x.price := by simpa using (List.mem_filter.mp hv).2
      rcases List.mem_append.mp hu with h1 | h1
      · have hu2 : u.price > x.price := by simpa using (List.mem_filter.mp h1).2
        exact lt_trans hv2 hu2
      · rw [List.mem_singleton.mp h1]; exact hv2
  · refine (stdSort_perm bidComp _).trans ?_
    have hfil : ls.filter (fun l => decide (l.price < x.price))
        = ls.filter (fun l => !decide (l.price > x.price)) := by
      apply List.filter_congr
      intro l hl
      have := hx l hl
      rcases lt_trichotomy l.price x.price with h1 | h1 | h1
      · simp [h1, not_lt_of_gt h1]
      · exact absurd h1 this
      · simp [h1, not_lt_of_gt h1]
    rw [hfil]
    have h1 := List.filter_append_perm (fun l => decide (l.price > x.price)) ls
    refine (h1.append_right [x]).symm.trans ?_
    rw [List.append_assoc, List.append_assoc]
    exact List.Perm.append_left _ List.perm_append_comm


theorem insert_asc (ls : List PriceLevel) (x : PriceLevel) (h : StrictAsc ls)
    (hx : ∀ l ∈ ls, l.price ≠ x.price) :
    stdSort askComp (ls ++ [x])
      = ls.filter (fun l => decide (l.price < x.price)) ++ [x]
          ++ ls.filter (fun l => decide (l.price > x.price)) := by
  have hd : DistinctPrices (ls ++ [x]) := by
    refine distinctPrices_perm (List.perm_append_singleton x ls) ?_
    exact (distinct_cons_iff ls x).mpr ⟨hx, strictAsc_distinct h⟩
  apply strictAsc_unique _ (stdSort_ask_strict _ hd)
  · unfold StrictAsc at *
    rw [List.pairwise_append, List.pairwise_append]
    refine ⟨⟨List.Pairwise.filter _ h, List.pairwise_singleton _ _, ?_⟩,
      List.Pairwise.filter _ h, ?_⟩
    · intro u hu v hv
      rw [List.mem_singleton.mp hv]
      simpa using (List.mem_filter.mp hu).2
    · intro u hu v hv
      have hv2 : v.price > x.price := by simpa using (List.mem_filter.mp hv).2
      rcases List.mem_append.mp hu with h1 | h1
      · have hu2 : u.price < x.price := by simpa using (List.mem_filter.mp h1).2
        exact lt_trans hu2 hv2
      · rw [List.mem_singleton.mp h1]; exact hv2
  · refine (stdSort_perm askComp _).trans ?_
    have hfil : ls.filter (fun l => decide (l.price > x.price))
        = ls.filter (fun l => !decide (l.price < x.price)) := by
      apply List.filter_congr
      intro l hl
      have := hx l hl
      rcases lt_trichotomy l.price x.price with h1 | h1 | h1
      · simp [h1, not_lt_of_gt h1]
      · exact absurd h1 this
      · simp [h1, not_lt_of_gt h1]
    rw [hfil]
    have h1 := List.filter_append_perm (fun l => decide (l.price < x.price)) ls
    refine (h1.append_right [x]).symm.trans ?_
    rw [List.append_assoc, List.append_assoc]
    exact List.Perm.append_left _ List.perm_append_comm

/-- C5: on a Book that satisfies the invariant, an incremental message whose bid (ask)
key holds the single pair (p, a) with a > 0, where the side has no level at price p, is
accepted and leaves that side made of the earlier levels and the new level (p, a), the
new level standing after the earlier levels that precede it in the order of the side
(higher prices for bids, lower prices for asks) and before the others. -/
theorem update_new_level_inserted (b : Orderbook) (m : Incremental) (p a : ℚ)
    (hinv : BookInvariant b) (ha : a > 0) :
    (m.bids = some [(p, a)] → (∀ l ∈ b.bids_, l.price ≠ p) →
      ∃ b2, b.update m.toJson = some b2
        ∧ b2.bids_ = b.bids_.filter (fun l => decide (l.price > p)) ++ [PriceLevel.mk p a]
            ++ b.bids_.filter (fun l => decide (l.price < p))
        ∧ b2.bids_.Perm (PriceLevel.mk p a :: b.bids_)
        ∧ StrictDesc b2.bids_)
    ∧ (m.asks = some [(p, a)] → (∀ l ∈ b.asks_, l.price ≠ p) →
      ∃ b2, b.update m.toJson = some b2
        ∧ b2.asks_ = b.asks_.filter (fun l => decide (l.price < p)) ++ [PriceLevel.mk p a]
            ++ b.asks_.filter (fun l => decide (l.price > p))
        ∧ b2.asks_.Perm (PriceLevel.mk p a :: b.asks_)
        ∧ StrictAsc b2.asks_) := by
  obtain ⟨hb, hk, hdb, hda⟩ := hinv
  constructor
  · intro hm hp
    obtain ⟨b2, h2, hbids, _⟩ := update_single_bid b m p a hm
    rw [applyPair_absent _ p a hp, if_pos ha] at hbids
    have hd : DistinctPrices (b.bids_ ++ [PriceLevel.mk p a]) :=
      distinctPrices_perm (List.perm_append_singleton _ _)
        ((distinct_cons_iff _ _).mpr ⟨hp, hdb⟩)
    refine ⟨b2, h2, ?_, ?_, ?_⟩
    · rw [hbids]; exact insert_desc b.bids_ (PriceLevel.mk p a) hb hp
    · rw [hbids]
      exact (stdSort_perm bidComp _).trans (List.perm_append_singleton _ _)
    · rw [hbids]; exact stdSort_bid_strict _ hd
  · intro hm hp
    obtain ⟨b2, h2, hasks, _⟩ := update_single_ask b m p a hm
    rw [applyPair_absent _ p a hp, if_pos ha] at hasks
    have hd : DistinctPrices (b.asks_ ++ [PriceLevel.mk p a]) :=
      distinctPrices_perm (List.perm_append_singleton _ _)
        ((distinct_cons_iff _ _).mpr ⟨hp, hda⟩)
    refine ⟨b2, h2, ?_, ?_, ?_⟩
    · rw [hasks]; exact insert_asc b.asks_ (PriceLevel.mk p a) hk hp
    · rw [hasks]
      exact (stdSort_perm askComp _).trans (List.perm_append_singleton _ _)
    · rw [hasks]; exact stdSort_ask_strict _ hd

/-- C5, an instance: bids=[[99,4]] on the bids (100,5),(98,3) puts (99,4) in between. -/
theorem update_new_level_inserted_witness :
    ∃ b2, (Orderbook.mk "BTC-PERPETUAL" 1 [⟨100, 5⟩, ⟨98, 3⟩] [⟨101, 2⟩]).update
        (Incremental.toJson ⟨none, none, some [(99, 4)], none⟩) = some b2
      ∧ b2.bids_ = [⟨100, 5⟩, ⟨99, 4⟩, ⟨98, 3⟩] := by
  obtain ⟨b2, h2, hb, _⟩ := (update_new_level_inserted
    (Orderbook.mk "BTC-PERPETUAL" 1 [⟨100, 5⟩, ⟨98, 3⟩] [⟨101, 2⟩])
    ⟨none, none, some [(99, 4)], none⟩ 99 4
    (by norm_num [BookInvariant, StrictDesc, StrictAsc, DistinctPrices])
    (by decide)).1 rfl (by decide)
  refine ⟨b2, h2, ?_⟩
  rw [hb]
  decide

/-- C6: on a Book that satisfies the invariant, an incremental message that holds nothing
but the single pair (p, a) with a <= 0 on the bid (ask) side, where that side has no
level at price p, is accepted without error and leaves the bid list and the ask list
identical to those before. -/
theorem update_absent_level_delete_noop (b : Orderbook) (m : Incremental) (p a : ℚ)
    (hinv : BookInvariant b) (ha : a ≤ 0) :
    (m.bids = some [(p, a)] → m.asks = none → (∀ l ∈ b.bids_, l.price ≠ p) →
      ∃ b2, b.update m.toJson = some b2 ∧ b2.bids_ = b.bids_ ∧ b2.asks_ = b.asks_)
    ∧ (m.asks = some [(p, a)] → m.bids = none → (∀ l ∈ b.asks_, l.price ≠ p) →
      ∃ b2, b.update m.toJson = some b2 ∧ b2.bids_ = b.bids_ ∧ b2.asks_ = b.asks_) := by
  obtain ⟨hb, hk, _, _⟩ := hinv
  have ha2 : ¬ a > 0 := not_lt.mpr ha
  constructor
  · intro hm hn hp
    obtain ⟨b2, h2, hbids, hasks⟩ := update_single_bid b m p a hm
    rw [applyPair_absent _ p a hp, if_neg ha2, stdSort_bid_of_weak _ (strictDesc_weak hb)] at hbids
    exact ⟨b2, h2, hbids, hasks hn⟩
  · intro hm hn hp
    obtain ⟨b2, h2, hasks, hbids⟩ := update_single_ask b m p a hm
    rw [applyPair_absent _ p a hp, if_neg ha2, stdSort_ask_of_weak _ (strictAsc_weak hk)] at hasks
    exact ⟨b2, h2, hbids hn, hasks⟩

/-- C6, an instance: bids=[[97,0]] on the bids (100,5),(98,3) changes nothing. -/
theorem update_absent_level_delete_noop_witness :
    ∃ b2, (Orderbook.mk "BTC-PERPETUAL" 1 [⟨100, 5⟩, ⟨98, 3⟩] [⟨101, 2⟩]).update
        (Incremental.toJson ⟨none, none, some [(97, 0)], none⟩) = some b2
      ∧ b2.bids_ = [⟨100, 5⟩, ⟨98, 3⟩] ∧ b2.asks_ = [⟨101, 2⟩] :=
  (update_absent_level_delete_noop
    (Orderbook.mk "BTC-PERPETUAL" 1 [⟨100, 5⟩, ⟨98, 3⟩] [⟨101, 2⟩])
    ⟨none, none, some [(97, 0)], none⟩ 97 0
    (by norm_num [BookInvariant, StrictDesc, StrictAsc, DistinctPrices])
    (by decide)).1 rfl rfl (by decide)

/-- C7: for every Book, an incremental message with a "bids" key and no "asks" key is
accepted and leaves the ask list identical; a message with an "asks" key and no "bids"
key is accepted and leaves the bid list identical. -/
theorem update_sides_independent (b : Orderbook) (m : Incremental) :
    (m.bids.isSome = true → m.asks = none →
      ∃ b2, b.update m.toJson = some b2 ∧ b2.asks_ = b.asks_)
    ∧ (m.asks.isSome = true → m.bids = none →
      ∃ b2, b.update m.toJson = some b2 ∧ b2.bids_ = b.bids_) := by
  constructor
  · intro _ hn
    exact ⟨_, update_toJson b m, by simp [hn]⟩
  · intro _ hn
    exact ⟨_, update_toJson b m, by simp [hn]⟩

/-- C7, an instance: bids=[[99,4],[100,0]] leaves the asks (102,1),(101,2) as they are,
even though they are not in ascending order. -/
theorem update_sides_independent_witness :
    ∃ b2, (Orderbook.mk "BTC-PERPETUAL" 1 [⟨100, 5⟩] [⟨102, 1⟩, ⟨101, 2⟩]).update
        (Incremental.toJson ⟨none, some 7, some [(99, 4), (100, 0)], none⟩) = some b2
      ∧ b2.asks_ = [⟨102, 1⟩, ⟨101, 2⟩] :=
  (update_sides_independent
    (Orderbook.mk "BTC-PERPETUAL" 1 [⟨100, 5⟩] [⟨102, 1⟩, ⟨101, 2⟩])
    ⟨none, some 7, some [(99, 4), (100, 0)], none⟩).1 rfl rfl


/-- C8 (as amended): the full replace stores every kept ("new" or "change") entry with
the amount it carries, so the Book it builds has only positive amounts exactly when every
kept entry of the payload has a positive amount; and on a Book whose levels all have a
positive amount every incremental message is accepted and leaves only levels with a
positive amount. -/
theorem amounts_positive (s : Snapshot) (b : Orderbook) (m : Incremental) :
    (∃ b1, Orderbook.ofJson s.toJson = some b1
      ∧ (AllPositive b1 ↔
          (∀ l ∈ keptLevels s.bids, l.amount > 0)
            ∧ (∀ l ∈ keptLevels s.asks, l.amount > 0)))
    ∧ (AllPositive b → ∃ b2, b.update m.toJson = some b2 ∧ AllPositive b2) := by
  constructor
  · refine ⟨_, ofJson_toJson s, ?_⟩
    simp only [AllPositive, mem_stdSort]
  · intro hpos
    refine ⟨_, update_toJson b m, ?_, ?_⟩
    · show ∀ l : PriceLevel, l ∈ (match m.bids with
        | some ps => stdSort bidComp (mergePairs b.bids_ ps)
        | none => b.bids_) → l.amount > 0
      cases m.bids with
      | none => exact hpos.1
      | some ps =>
        intro l hl
        exact mergePairs_positive ps _ hpos.1 l ((mem_stdSort _ _ _).mp hl)
    · show ∀ l : PriceLevel, l ∈ (match m.asks with
        | some ps => stdSort askComp (mergePairs b.asks_ ps)
        | none => b.asks_) → l.amount > 0
      cases m.asks with
      | none => exact hpos.2
      | some ps =>
        intro l hl
        exact mergePairs_positive ps _ hpos.2 l ((mem_stdSort _ _ _).mp hl)

/-- C8, the claim as stated fails: the snapshot entry ["new", 100, 0] is stored as a bid
level with amount 0. -/
theorem amounts_positive_counterexample :
    ∃ b, Orderbook.ofJson (Snapshot.toJson
          { instrument_name := none, timestamp := none,
            bids := some [⟨"new", 100, 0⟩], asks := none }) = some b
      ∧ b.bids_ = [⟨100, 0⟩] ∧ ¬ AllPositive b := by
  refine ⟨⟨"", 0, [⟨100, 0⟩], []⟩, by decide, rfl, ?_⟩
  simp [AllPositive]

/-- C8, an instance: pairs with amount 0 and -2 merged into a Book with positive amounts
leave positive amounts only. -/
theorem amounts_positive_witness :
    ∃ b2, (Orderbook.mk "BTC-PERPETUAL" 1 [⟨100, 5⟩, ⟨98, 3⟩] [⟨101, 2⟩]).update
        (Incremental.toJson ⟨none, none, some [(100, 0), (97, -2), (99, 1)], some [(101, 0)]⟩)
          = some b2
      ∧ AllPositive b2 :=
  (amounts_positive ⟨none, none, none, none⟩
    (Orderbook.mk "BTC-PERPETUAL" 1 [⟨100, 5⟩, ⟨98, 3⟩] [⟨101, 2⟩])
    ⟨none, none, some [(100, 0), (97, -2), (99, 1)], some [(101, 0)]⟩).2
    (by norm_num [AllPositive])

/-- C9: the four best-level queries are total; each returns the price (amount) of the
first element of its list, and 0 when the list is empty. -/
theorem best_queries_read_front (b : Orderbook) :
    b.getBestBidPrice = (match b.bids_.head? with | some l => l.price | none => 0)
    ∧ b.getBestBidAmount = (match b.bids_.head? with | some l => l.amount | none => 0)
    ∧ b.getBestAskPrice = (match b.asks_.head? with | some l => l.price | none => 0)
    ∧ b.getBestAskAmount = (match b.asks_.head? with | some l => l.amount | none => 0) := by
  obtain ⟨name, ts, bids, asks⟩ := b
  cases bids <;> cases asks <;>
    simp [Orderbook.getBestBidPrice, Orderbook.getBestBidAmount, Orderbook.getBestAskPrice,
      Orderbook.getBestAskAmount]

theorem front_of_weakDesc {l ks : List PriceLevel} (hp : l.Perm ks) (hw : WeakDesc l)
    (hne : ks ≠ []) :
    ∃ x rest, l = x :: rest ∧ x ∈ ks ∧ ∀ y ∈ ks, y.price ≤ x.price := by
  cases l with
  | nil => exact absurd hp.symm.eq_nil hne
  | cons x rest =>
    refine ⟨x, rest, rfl, hp.subset (List.mem_cons_self _ _), ?_⟩
    intro y hy
    rcases List.mem_cons.mp (hp.symm.subset hy) with h | h
    · rw [h]
    · exact List.rel_of_pairwise_cons hw h

theorem front_of_weakAsc {l ks : List PriceLevel} (hp : l.Perm ks) (hw : WeakAsc l)
    (hne : ks ≠ []) :
    ∃ x rest, l = x :: rest ∧ x ∈ ks ∧ ∀ y ∈ ks, x.price ≤ y.price := by
  cases l with
  | nil => exact absurd hp.symm.eq_nil hne
  | cons x rest =>
    refine ⟨x, rest, rfl, hp.subset (List.mem_cons_self _ _), ?_⟩
    intro y hy
    rcases List.mem_cons.mp (hp.symm.subset hy) with h | h
    · rw [h]
    · exact List.rel_of_pairwise_cons hw h

/-- C10: the constructor returns on every snapshot payload; when the payload has a kept
("new" or "change") bid entry, the best bid price and amount of the Book are those of a
kept bid entry whose price no kept bid entry exceeds, and when it has a kept ask entry,
the best ask price and amount are those of a kept ask entry whose price is below or
equal to that of every kept ask entry.  In particular bids=[["new",100,5],["new",99,3]],
asks=[["new",101,2]] gives best bid (100,5) and best ask (101,2). -/
theorem snapshot_best_levels (s : Snapshot) :
    (∃ b, Orderbook.ofJson s.toJson = some b
      ∧ (keptLevels s.bids ≠ [] →
          ∃ l ∈ keptLevels s.bids, b.getBestBidPrice = l.price
            ∧ b.getBestBidAmount = l.amount
            ∧ ∀ l2 ∈ keptLevels s.bids, l2.price ≤ l.price)
      ∧ (keptLevels s.asks ≠ [] →
          ∃ l ∈ keptLevels s.asks, b.getBestAskPrice = l.price
            ∧ b.getBestAskAmount = l.amount
            ∧ ∀ l2 ∈ keptLevels s.asks, l.price ≤ l2.price))
    ∧ (∃ b, Orderbook.ofJson (Snapshot.toJson
          { instrument_name := none, timestamp := none,
            bids := some [⟨"new", 100, 5⟩, ⟨"new", 99, 3⟩],
            asks := some [⟨"new", 101, 2⟩] }) = some b
        ∧ b.getBestBidPrice = 100 ∧ b.getBestBidAmount = 5
        ∧ b.getBestAskPrice = 101 ∧ b.getBestAskAmount = 2) := by
  refine ⟨⟨_, ofJson_toJson s, ?_, ?_⟩,
    ⟨⟨"", 0, [⟨100, 5⟩, ⟨99, 3⟩], [⟨101, 2⟩]⟩, by decide, rfl, rfl, rfl, rfl⟩⟩
  · intro hne
    obtain ⟨x, rest, hl, hx, hmax⟩ :=
      front_of_weakDesc (stdSort_perm bidComp _) (stdSort_bid_weak _) hne
    refine ⟨x, hx, ?_, ?_, hmax⟩
    · simp [Orderbook.getBestBidPrice, hl]
    · simp [Orderbook.getBestBidAmount, hl]
  · intro hne
    obtain ⟨x, rest, hl, hx, hmin⟩ :=
      front_of_weakAsc (stdSort_perm askComp _) (stdSort_ask_weak _) hne
    refine ⟨x, hx, ?_, ?_, hmin⟩
    · simp [Orderbook.getBestAskPrice, hl]
    · simp [Orderbook.getBestAskAmount, hl]

/-- C10, an instance: with the bids ["change",98,1], ["delete",120,9], ["new",99,3] the
best bid is a kept entry, never the deleted 120. -/
theorem snapshot_best_levels_witness :
    ∃ b, Orderbook.ofJson (Snapshot.toJson
          { instrument_name := some "ETH-PERPETUAL", timestamp := some 3,
            bids := some [⟨"change", 98, 1⟩, ⟨"delete", 120, 9⟩, ⟨"new", 99, 3⟩],
            asks := none }) = some b
      ∧ ∃ l ∈ ([⟨98, 1⟩, ⟨99, 3⟩] : List PriceLevel), b.getBestBidPrice = l.price
          ∧ b.getBestBidAmount = l.amount
          ∧ ∀ l2 ∈ ([⟨98, 1⟩, ⟨99, 3⟩] : List PriceLevel), l2.price ≤ l.price := by
  obtain ⟨⟨b, hb, hbid, _⟩, _⟩ := snapshot_best_levels
    { instrument_name := some "ETH-PERPETUAL", timestamp := some 3,
      bids := some [⟨"change", 98, 1⟩, ⟨"delete", 120, 9⟩, ⟨"new", 99, 3⟩],
      asks := none }
  exact ⟨b, hb, hbid (by decide)⟩

/-! ## The handlers of the streaming session -/

theorem onMessage_undecoded (c : WebSocketClient) (frame : Payload)
    (h : frame.decoded = none) : c.onMessage frame = (c, []) := by
  simp [WebSocketClient.onMessage, h]

theorem onMessage_connected (c : WebSocketClient) (frame : Payload) :
    (c.onMessage frame).1.is_connected_ = c.is_connected_ := by
  unfold WebSocketClient.onMessage
  cases frame.decoded with
  | none => rfl
  | some json => dsimp only; split_ifs <;> rfl

theorem onMessage_callback (c : WebSocketClient) (frame : Payload) :
    (c.onMessage frame).1.has_message_callback_ = c.has_message_callback_ := by
  unfold WebSocketClient.onMessage
  cases frame.decoded with
  | none => rfl
  | some json => dsimp only; split_ifs <;> rfl

theorem onMessage_authenticated (c : WebSocketClient) (frame : Payload) :
    (c.onMessage frame).1.is_authenticated_
      = (c.is_authenticated_ || frame.isAuthSuccess) := by
  unfold WebSocketClient.onMessage Payload.isAuthSuccess
  cases frame.decoded with
  | none => simp
  | some json =>
    dsimp only
    cases h1 : (json.contains "id" && (json.index "id").eqInt 9929) <;>
      cases h2 : (json.contains "result" && !json.contains "error") <;>
      simp [h1, h2, Bool.and_assoc] <;> split_ifs <;> simp

/-- C11: for every frame that decodes, when its id is absent or differs from 9929 the
handler leaves the authenticated flag (and the connected flag) as it was, so a session
whose authenticate is pending stays unauthenticated; when its id is 9929 and it has a
result and no error, the handler sets the authenticated flag.  In particular, when the
reply with id 9930 arrives during the first wait of `authenticate` and the reply with id
9929 during the second, the session is unauthenticated after the first wait and
`authenticate` returns true. -/
theorem auth_resolves_on_matching_id (c : WebSocketClient) (frame : Payload) (json : Json)
    (hdec : frame.decoded = some json) :
    ((json.contains "id" && (json.index "id").eqInt 9929) = false →
      (c.onMessage frame).1.is_authenticated_ = c.is_authenticated_
        ∧ (c.onMessage frame).1.is_connected_ = c.is_connected_)
    ∧ ((json.contains "id" && (json.index "id").eqInt 9929) = true →
        json.contains "result" = true → json.contains "error" = false →
        (c.onMessage frame).1.is_authenticated_ = true
          ∧ (c.onMessage frame).1.is_connected_ = c.is_connected_)
    ∧ (((c.onClose.onOpen.sleep
          (World.withWindows [[.message (resultFrame "a" 9930 Json.null)],
            [.message (resultFrame "b" 9929 (.obj []))]])).1.is_authenticated_ = false)
        ∧ (c.onClose.onOpen.authenticate
          (World.withWindows [[.message (resultFrame "a" 9930 Json.null)],
            [.message (resultFrame "b" 9929 (.obj []))]])).ret = some true) := by
  refine ⟨fun h => ⟨?_, onMessage_connected c frame⟩,
    fun h hr he => ⟨?_, onMessage_connected c frame⟩, rfl, rfl⟩
  · rw [onMessage_authenticated]
    simp [Payload.isAuthSuccess, hdec, h]
  · rw [onMessage_authenticated]
    simp only [Bool.and_eq_true] at h
    simp [Payload.isAuthSuccess, hdec, h.1, h.2, hr, he]

/-- C11, an instance: with the authenticate pending, the reply with id 9930 leaves the
session unauthenticated and the reply with id 9929 that follows authenticates it. -/
theorem auth_resolves_on_matching_id_witness :
    (((WebSocketClient.new ⟨"key", "secret", true⟩).onOpen.onMessage
        (resultFrame "a" 9930 Json.null)).1.is_authenticated_ = false)
    ∧ ((((WebSocketClient.new ⟨"key", "secret", true⟩).onOpen.onMessage
        (resultFrame "a" 9930 Json.null)).1.onMessage
        (resultFrame "b" 9929 (.obj []))).1.is_authenticated_ = true) :=
  ⟨((auth_resolves_on_matching_id (WebSocketClient.new ⟨"key", "secret", true⟩).onOpen
      (resultFrame "a" 9930 Json.null) _ rfl).1 (by decide)).1,
   ((auth_resolves_on_matching_id
      ((WebSocketClient.new ⟨"key", "secret", true⟩).onOpen.onMessage
        (resultFrame "a" 9930 Json.null)).1
      (resultFrame "b" 9929 (.obj [])) _ rfl).2.1 (by decide) (by decide) (by decide)).1⟩


theorem handle_not_opened (c : WebSocketClient) (ev : WsEvent) (hev : ev.isOpened = false)
    (hc : c.is_connected_ = false) : (c.handle ev).1.is_connected_ = false := by
  cases ev with
  | opened => simp [WsEvent.isOpened] at hev
  | closed => rfl
  | failed => rfl
  | message frame =>
    show (c.onMessage frame).1.is_connected_ = false
    rw [onMessage_connected, hc]

theorem handle_not_authSuccess (c : WebSocketClient) (ev : WsEvent)
    (hev : ev.isAuthSuccess = false) (hc : c.is_authenticated_ = false) :
    (c.handle ev).1.is_authenticated_ = false := by
  cases ev with
  | opened => exact hc
  | closed => rfl
  | failed => rfl
  | message frame =>
    show (c.onMessage frame).1.is_authenticated_ = false
    rw [onMessage_authenticated, hc]
    simpa [WsEvent.isAuthSuccess] using hev

theorem handleAll_not_opened (evs : List WsEvent) :
    ∀ c : WebSocketClient, (∀ ev ∈ evs, ev.isOpened = false) → c.is_connected_ = false →
      (c.handleAll evs).1.is_connected_ = false := by
  induction evs with
  | nil => intro c _ hc; exact hc
  | cons ev evs ih =>
    intro c hevs hc
    exact ih (c.handle ev).1 (fun e he => hevs e (List.mem_cons_of_mem _ he))
      (handle_not_opened c ev (hevs ev (List.mem_cons_self _ _)) hc)

theorem handleAll_not_authSuccess (evs : List WsEvent) :
    ∀ c : WebSocketClient, (∀ ev ∈ evs, ev.isAuthSuccess = false) →
      c.is_authenticated_ = false → (c.handleAll evs).1.is_authenticated_ = false := by
  induction evs with
  | nil => intro c _ hc; exact hc
  | cons ev evs ih =>
    intro c hevs hc
    exact ih (c.handle ev).1 (fun e he => hevs e (List.mem_cons_of_mem _ he))
      (handle_not_authSuccess c ev (hevs ev (List.mem_cons_self _ _)) hc)

/-- C12 (as amended): immediately after `onClose` or `onFail` the session is neither
connected nor authenticated; from then on `isConnected()` stays false as long as no open
callback runs and `isAuthenticated()` stays false as long as no frame with id 9929, a
result and no error is handled; while the session is not connected `authenticate`, `send`,
`subscribe` and `unsubscribe` are refused without touching the flags, and a further
`connect()` on a session whose run thread was started never returns true (it reports
failure or ends in `std::terminate`). -/
theorem closed_until_reopened (c : WebSocketClient) (evs : List WsEvent) (w : World)
    (message : Json) (channel : String) (params : Json) :
    (c.onClose.is_connected_ = false ∧ c.onClose.is_authenticated_ = false
      ∧ c.onFail.is_connected_ = false ∧ c.onFail.is_authenticated_ = false)
    ∧ ((∀ ev ∈ evs, ev.isOpened = false) →
        (c.onClose.handleAll evs).1.is_connected_ = false
          ∧ (c.onFail.handleAll evs).1.is_connected_ = false)
    ∧ ((∀ ev ∈ evs, ev.isAuthSuccess = false) →
        (c.onClose.handleAll evs).1.is_authenticated_ = false
          ∧ (c.onFail.handleAll evs).1.is_authenticated_ = false)
    ∧ (c.is_connected_ = false →
        (c.authenticate w).ret = some false ∧ (c.authenticate w).client = c
          ∧ (c.send w message).1 = false
          ∧ (c.subscribe w channel params).1 = false
          ∧ (c.unsubscribe w channel).1 = false)
    ∧ (c.is_connected_ = false → c.is_running_ = true →
        (c.connect w).ret ≠ some true ∧ (c.connect w).client = c) := by
  refine ⟨⟨rfl, rfl, rfl, rfl⟩, fun h => ⟨?_, ?_⟩, fun h => ⟨?_, ?_⟩, fun hc => ?_,
    fun hc hr => ?_⟩
  · exact handleAll_not_opened evs _ h rfl
  · exact handleAll_not_opened evs _ h rfl
  · exact handleAll_not_authSuccess evs _ h rfl
  · exact handleAll_not_authSuccess evs _ h rfl
  · simp [WebSocketClient.authenticate, WebSocketClient.send, WebSocketClient.subscribe,
      WebSocketClient.unsubscribe, hc]
  · unfold WebSocketClient.connect
    simp only [hc, hr, Bool.false_eq_true, if_false, if_true]
    split_ifs <;> simp

/-- C12, the claim as stated fails: after `onClose` a late open callback makes
`isConnected()` true again, and a late reply with id 9929 makes `isAuthenticated()` true
again. -/
theorem closed_until_reopened_counterexample :
    (((WebSocketClient.new ⟨"key", "secret", true⟩).onOpen.onClose.handleAll
        [WsEvent.opened]).1.is_connected_ = true)
    ∧ (((WebSocketClient.new ⟨"key", "secret", true⟩).onOpen.onClose.handleAll
        [WsEvent.message (resultFrame "late" 9929 (.obj []))]).1.is_authenticated_ = true)
    ∧ (((WebSocketClient.new ⟨"key", "secret", true⟩).onOpen.onFail.handleAll
        [WsEvent.opened]).1.is_connected_ = true) := by
  decide

/-- C12, an instance: after `onClose`, frames that are not the authenticate reply leave
the session closed, and `authenticate` is refused. -/
theorem closed_until_reopened_witness :
    (((WebSocketClient.new ⟨"key", "secret", true⟩).onOpen.onClose.handleAll
        [WsEvent.message (resultFrame "n" 9930 Json.null), WsEvent.failed]).1.is_connected_
        = false)
    ∧ ((WebSocketClient.new ⟨"key", "secret", true⟩).onOpen.onClose.authenticate
        (World.quiet 0)).ret = some false :=
  ⟨((closed_until_reopened (WebSocketClient.new ⟨"key", "secret", true⟩).onOpen
      [WsEvent.message (resultFrame "n" 9930 Json.null), WsEvent.failed] (World.quiet 0)
      Json.null "" Json.null).2.1 (by decide)).1,
   ((closed_until_reopened (WebSocketClient.new ⟨"key", "secret", true⟩).onOpen.onClose
      [] (World.quiet 0) Json.null "" Json.null).2.2.2.1 rfl).1⟩


/-! ## The wait of the streaming authenticate -/

theorem handle_message_connected (c : WebSocketClient) (ev : WsEvent)
    (hev : ev.isMessage = true) : (c.handle ev).1.is_connected_ = c.is_connected_ := by
  cases ev with
  | opened => simp [WsEvent.isMessage] at hev
  | closed => simp [WsEvent.isMessage] at hev
  | failed => simp [WsEvent.isMessage] at hev
  | message frame => exact onMessage_connected c frame

theorem handleAll_message_connected (evs : List WsEvent) :
    ∀ c : WebSocketClient, (∀ ev ∈ evs, ev.isMessage = true) →
      (c.handleAll evs).1.is_connected_ = c.is_connected_ := by
  induction evs with
  | nil => intro c _; rfl
  | cons ev evs ih =>
    intro c hevs
    have h1 := ih (c.handle ev).1 (fun e he => hevs e (List.mem_cons_of_mem _ he))
    have h2 := handle_message_connected c ev (hevs ev (List.mem_cons_self _ _))
    show ((c.handle ev).1.handleAll evs).1.is_connected_ = c.is_connected_
    rw [h1, h2]

theorem sleep_nil (c : WebSocketClient) (w : World) (h : w.wsWindows = []) :
    c.sleep w = (c, w) := by
  unfold WebSocketClient.sleep
  rw [h]

theorem sleep_cons (c : WebSocketClient) (w : World) (evs : List WsEvent)
    (rest : List (List WsEvent)) (h : w.wsWindows = evs :: rest) :
    (c.sleep w).1 = (c.handleAll evs).1 ∧ (c.sleep w).2.wsWindows = rest := by
  unfold WebSocketClient.sleep
  rw [h]
  exact ⟨rfl, rfl⟩

theorem waitAuthenticated_timeout (n : Nat) :
    ∀ (c : WebSocketClient) (w : World),
      (∀ evs ∈ w.wsWindows.take n, ∀ ev ∈ evs, ev.isAuthSuccess = false) →
      c.is_authenticated_ = false →
      (WebSocketClient.waitAuthenticated n c w).ret = some false
        ∧ (WebSocketClient.waitAuthenticated n c w).client.is_authenticated_ = false := by
  induction n with
  | zero => intro c w _ hc; exact ⟨rfl, hc⟩
  | succ n ih =>
    intro c w hw hc
    unfold WebSocketClient.waitAuthenticated
    simp only [hc, Bool.false_eq_true, if_false]
    cases hwin : w.wsWindows with
    | nil =>
      rw [sleep_nil c w hwin]
      exact ih c w (by rw [hwin]; intro evs he; simp at he) hc
    | cons evs rest =>
      obtain ⟨h1, h2⟩ := sleep_cons c w evs rest hwin
      rw [hwin, List.take_succ_cons] at hw
      refine ih _ _ ?_ ?_
      · rw [h2]
        exact fun e he => hw e (List.mem_cons_of_mem _ he)
      · rw [h1]
        exact handleAll_not_authSuccess evs c (hw evs (List.mem_cons_self _ _)) hc

theorem waitAuthenticated_connected (n : Nat) :
    ∀ (c : WebSocketClient) (w : World),
      (∀ evs ∈ w.wsWindows.take n, ∀ ev ∈ evs, ev.isMessage = true) →
      (WebSocketClient.waitAuthenticated n c w).client.is_connected_ = c.is_connected_ := by
  induction n with
  | zero => intro c w _; rfl
  | succ n ih =>
    intro c w hw
    unfold WebSocketClient.waitAuthenticated
    split_ifs
    · rfl
    · cases hwin : w.wsWindows with
      | nil =>
        rw [sleep_nil c w hwin]
        exact ih c w (by rw [hwin]; intro evs he; simp at he)
      | cons evs rest =>
        obtain ⟨h1, h2⟩ := sleep_cons c w evs rest hwin
        rw [hwin, List.take_succ_cons] at hw
        rw [ih _ _ (by rw [h2]; exact fun e he => hw e (List.mem_cons_of_mem _ he)), h1]
        exact handleAll_message_connected evs c (hw evs (List.mem_cons_self _ _))

theorem wsSend_windows (w : World) (frame : Json) :
    (w.wsSend frame).2.wsWindows = w.wsWindows := by
  unfold World.wsSend
  cases w.wsSendError with
  | nil => rfl
  | cons b rest => cases b <;> rfl

/-- C13 (as amended): when a connected, unauthenticated session calls `authenticate` and
no frame with id 9929, a result and no error is handled during its ten waits (the
matching reply carries an error, or no matching reply arrives in that time),
`authenticate` returns false and the session is not authenticated afterwards.  The
connected flag is not cleared by this: when only frames are handled during the waits,
`isConnected()` is still true. -/
theorem authenticate_fails_without_success_reply (c : WebSocketClient) (w : World)
    (hconn : c.is_connected_ = true) (hauth : c.is_authenticated_ = false)
    (hw : ∀ evs ∈ w.wsWindows.take 10, ∀ ev ∈ evs, ev.isAuthSuccess = false) :
    (c.authenticate w).ret = some false
      ∧ (c.authenticate w).client.is_authenticated_ = false
      ∧ ((∀ evs ∈ w.wsWindows.take 10, ∀ ev ∈ evs, ev.isMessage = true) →
          (c.authenticate w).client.is_connected_ = true) := by
  unfold WebSocketClient.authenticate
  simp only [hconn, Bool.not_true, Bool.false_eq_true, if_false]
  by_cases hs : (w.wsSend c.auth_request).1 = true
  · simp only [hs, Bool.not_true, Bool.false_eq_true, if_false]
    have hw2 : ∀ evs ∈ (w.wsSend c.auth_request).2.wsWindows.take 10, ∀ ev ∈ evs,
        ev.isAuthSuccess = false := by rw [wsSend_windows]; exact hw
    obtain ⟨h1, h2⟩ := waitAuthenticated_timeout 10 c _ hw2 hauth
    refine ⟨h1, h2, fun hm => ?_⟩
    rw [waitAuthenticated_connected 10 c _ (by rw [wsSend_windows]; exact hm)]
    exact hconn
  · simp only [hs, Bool.not_false, if_true]
    exact ⟨trivial, hauth, fun _ => hconn⟩

/-- C13, the claim as stated fails: the authenticate whose matching reply carries an error
returns false and leaves the session unauthenticated, but still connected; the same holds
when no reply arrives at all. -/
theorem authenticate_fails_without_success_reply_counterexample :
    (((WebSocketClient.new ⟨"key", "secret", true⟩).onOpen.authenticate
        (World.withWindows [[.message (errorFrame "e" 9929 13004 "invalid_credentials")]])).ret
        = some false)
    ∧ (((WebSocketClient.new ⟨"key", "secret", true⟩).onOpen.authenticate
        (World.withWindows
          [[.message (errorFrame "e" 9929 13004 "invalid_credentials")]])).client.is_connected_
        = true)
    ∧ (((WebSocketClient.new ⟨"key", "secret", true⟩).onOpen.authenticate
        (World.withWindows [])).ret = some false)
    ∧ (((WebSocketClient.new ⟨"key", "secret", true⟩).onOpen.authenticate
        (World.withWindows [])).client.is_connected_ = true) := by
  decide

/-- C13, an instance: the authenticate answered by an error reply returns false and leaves
the session unauthenticated. -/
theorem authenticate_fails_without_success_reply_witness :
    ((WebSocketClient.new ⟨"key", "secret", true⟩).onOpen.authenticate
        (World.withWindows [[.message (errorFrame "e" 9929 13004 "invalid_credentials")]])).ret
        = some false
    ∧ ((WebSocketClient.new ⟨"key", "secret", true⟩).onOpen.authenticate
        (World.withWindows
          [[.message (errorFrame "e" 9929 13004 "invalid_credentials")]])).client.is_authenticated_
        = false :=
  have h := authenticate_fails_without_success_reply
    (WebSocketClient.new ⟨"key", "secret", true⟩).onOpen
    (World.withWindows [[.message (errorFrame "e" 9929 13004 "invalid_credentials")]])
    rfl rfl (by decide)
  ⟨h.1, h.2.1⟩


/-! ## Frames that do not decode -/

/-- C14: a frame whose payload does not decode as JSON is dropped by `onMessage`: the
handler returns (the parse error is caught), the client with its connected and
authenticated flags is as before, nothing is handed to the message callback, and so no
orderbook callback of the facade is invoked. -/
theorem undecodable_frame_dropped (c : WebSocketClient) (a : ApiClient) (frame : Payload)
    (h : frame.decoded = none) :
    c.onMessage frame = (c, [])
      ∧ (c.onMessage frame).1.is_connected_ = c.is_connected_
      ∧ (c.onMessage frame).1.is_authenticated_ = c.is_authenticated_
      ∧ a.receive frame = (a, [])
      ∧ a.onWsMessage frame = [] := by
  have h1 := onMessage_undecoded c frame h
  refine ⟨h1, by rw [h1], by rw [h1], ?_, ?_⟩
  · simp [ApiClient.receive, onMessage_undecoded a.ws_client_ frame h]
  · simp [ApiClient.onWsMessage, h]

/-- C14, an instance: the text `{"id": 9929, "result"` is cut short and does not decode; a
session awaiting its authenticate stays as it is. -/
theorem undecodable_frame_dropped_witness :
    ((WebSocketClient.new ⟨"key", "secret", true⟩).onOpen.onMessage
        { text := "\x7b\"id\": 9929, \"result\"", decoded := none }).1
      = (WebSocketClient.new ⟨"key", "secret", true⟩).onOpen :=
  congrArg Prod.fst (undecodable_frame_dropped
    (WebSocketClient.new ⟨"key", "secret", true⟩).onOpen
    { config_ := ⟨"key", "secret", true⟩
      rest_client_ := ⟨⟨"key", "secret", true⟩, true, "", "", 0, "", false, 0⟩
      ws_client_ := (WebSocketClient.new ⟨"key", "secret", true⟩).onOpen
      orderbook_callbacks_ := [], is_initialized_ := true, is_authenticated_ := false,
      ws_running_ := false }
    { text := "\x7b\"id\": 9929, \"result\"", decoded := none } rfl).1

/-! ## The callback registry -/

theorem mapFind_mapErase_self (m : List (String × Callback)) (key : String) :
    mapFind (mapErase m key) key = none := by
  induction m with
  | nil => rfl
  | cons kv m ih =>
    unfold mapErase mapFind at *
    by_cases h : kv.1 = key
    · simpa [List.filter_cons, h] using ih
    · have h2 : (key == kv.1) = false := by simpa using fun h3 => h h3.symm
      simp only [List.filter_cons, bne_iff_ne, ne_eq, h, not_false_eq_true, if_true]
      rw [List.lookup_cons, h2]
      exact ih

theorem mapFind_mapErase_ne (m : List (String × Callback)) (key other : String)
    (hne : other ≠ key) : mapFind (mapErase m key) other = mapFind m other := by
  induction m with
  | nil => rfl
  | cons kv m ih =>
    unfold mapErase mapFind at *
    by_cases h : kv.1 = key
    · have h2 : (other == kv.1) = false := by rw [h]; simpa using hne
      simp only [List.filter_cons, h, bne_self_eq_false, Bool.false_eq_true, if_false]
      rw [List.lookup_cons, h2]
      exact ih
    · simp only [List.filter_cons, bne_iff_ne, ne_eq, h, not_false_eq_true, if_true]
      rw [List.lookup_cons, List.lookup_cons, ih]

theorem mapFind_mapAssign_self (m : List (String × Callback)) (key : String)
    (callback : Callback) : mapFind (mapAssign m key callback) key = some callback := by
  simp [mapFind, mapAssign, List.lookup_cons]

theorem mapFind_mapAssign_ne (m : List (String × Callback)) (key other : String)
    (callback : Callback) (hne : other ≠ key) :
    mapFind (mapAssign m key callback) other = mapFind m other := by
  have h2 : (other == key) = false := by simpa using hne
  have := mapFind_mapErase_ne m key other hne
  unfold mapFind mapErase at this
  unfold mapFind mapAssign
  rw [List.lookup_cons, h2]
  exact this

theorem handleOrderbookUpdate_of_name (a : ApiClient) (data : Json) (name : String)
    (hname : (data.index "instrument_name").getString = some name) :
    a.handleOrderbookUpdate data
      = some (invocations ((mapFind a.orderbook_callbacks_ name).getD none)
          (Orderbook.ofJson data)) := by
  unfold ApiClient.handleOrderbookUpdate
  rw [hname]
  by_cases hc : data.contains "instrument_name" = true
  · simp only [hc, Bool.not_true, Bool.false_eq_true, if_false]
    cases hf : mapFind a.orderbook_callbacks_ name with
    | none => rfl
    | some cb =>
      cases cb with
      | none => rfl
      | some callback => cases Orderbook.ofJson data <;> rfl
  · exfalso
    apply hc
    unfold Json.index Json.getKey at hname
    unfold Json.contains
    cases data with
    | obj kvs =>
      cases hl : kvs.lookup "instrument_name" with
      | none => simp [hl, Json.getString] at hname
      | some v => simp [hl]
    | _ => simp [Json.getString] at hname


theorem subscribeOrderbook_api (a : ApiClient) (w : World) (name : String) (c : Callback)
    (hauth : a.is_authenticated_ = true) :
    (a.subscribeOrderbook w name c).api
      = { a with orderbook_callbacks_ := mapAssign a.orderbook_callbacks_ name c } := by
  simp [ApiClient.subscribeOrderbook, hauth]

theorem unsubscribeOrderbook_api (a : ApiClient) (w : World) (name : String)
    (hauth : a.is_authenticated_ = true) :
    (a.unsubscribeOrderbook w name).api
      = { a with orderbook_callbacks_ := mapErase a.orderbook_callbacks_ name } := by
  simp [ApiClient.unsubscribeOrderbook, hauth]

theorem receive_notification (a : ApiClient) (text channel : String) (data : Json) :
    (a.receive (notificationFrame text channel data)).2
      = if a.ws_client_.has_message_callback_ && startsWith channel "book." then
          (a.handleOrderbookUpdate data).getD []
        else [] := by
  by_cases hcb : a.ws_client_.has_message_callback_ = true <;>
    by_cases hp : startsWith channel "book." = true <;>
    simp [ApiClient.receive, WebSocketClient.onMessage, WebSocketClient.forward,
      ApiClient.onWsMessage, notificationFrame, Json.contains, Json.index, Json.getKey,
      Json.eqStr, Json.eqInt, Json.getString, List.lookup, hcb, hp]

/-- C15: on an authenticated facade, after `subscribeOrderbook(X, c)` followed by
`unsubscribeOrderbook(X)` no callback is registered for X; `handleOrderbookUpdate` on an
update whose instrument name is X returns without error and invokes no callback, and so
does the delivery of a book notification carrying it; the callbacks registered for the
other instruments are the ones registered before. -/
theorem unsubscribed_instrument_not_dispatched (a : ApiClient) (w : World) (X : String)
    (c : Callback) (data : Json) (text channel : String)
    (hauth : a.is_authenticated_ = true) :
    mapFind ((a.subscribeOrderbook w X c).api.unsubscribeOrderbook
        (a.subscribeOrderbook w X c).world X).api.orderbook_callbacks_ X = none
    ∧ ((data.index "instrument_name").getString = some X →
        ((a.subscribeOrderbook w X c).api.unsubscribeOrderbook
            (a.subscribeOrderbook w X c).world X).api.handleOrderbookUpdate data = some []
        ∧ (((a.subscribeOrderbook w X c).api.unsubscribeOrderbook
            (a.subscribeOrderbook w X c).world X).api.receive
              (notificationFrame text channel data)).2 = [])
    ∧ (∀ Y, Y ≠ X →
        mapFind ((a.subscribeOrderbook w X c).api.unsubscribeOrderbook
            (a.subscribeOrderbook w X c).world X).api.orderbook_callbacks_ Y
          = mapFind a.orderbook_callbacks_ Y) := by
  rw [subscribeOrderbook_api a w X c hauth,
    unsubscribeOrderbook_api
      { a with orderbook_callbacks_ := mapAssign a.orderbook_callbacks_ X c }
      (a.subscribeOrderbook w X c).world X hauth]
  have hself : mapFind (mapErase (mapAssign a.orderbook_callbacks_ X c) X) X = none :=
    mapFind_mapErase_self _ X
  refine ⟨hself, fun hname => ?_, fun Y hY => ?_⟩
  · have h1 := handleOrderbookUpdate_of_name
      { a with orderbook_callbacks_ := mapErase (mapAssign a.orderbook_callbacks_ X c) X }
      data X hname
    simp only [hself, Option.getD_none, invocations] at h1
    refine ⟨h1, ?_⟩
    rw [receive_notification, h1]
    split_ifs <;> rfl
  · show mapFind (mapErase (mapAssign a.orderbook_callbacks_ X c) X) Y = _
    rw [mapFind_mapErase_ne _ X Y hY, mapFind_mapAssign_ne _ X Y c hY]


/-- C15, an instance: with callback 7 registered for ETH-PERPETUAL, subscribing callback 3
for BTC-PERPETUAL and unsubscribing it again leaves no callback for an update of
BTC-PERPETUAL and keeps callback 7. -/
theorem unsubscribed_instrument_not_dispatched_witness :
    (((ApiClient.ready [("ETH-PERPETUAL", some 7)]).subscribeOrderbook (World.quiet 0)
        "BTC-PERPETUAL" (some 3)).api.unsubscribeOrderbook
        ((ApiClient.ready [("ETH-PERPETUAL", some 7)]).subscribeOrderbook (World.quiet 0)
          "BTC-PERPETUAL" (some 3)).world "BTC-PERPETUAL").api.handleOrderbookUpdate
      (Snapshot.toJson ⟨some "BTC-PERPETUAL", some 1, some [⟨"new", 100, 5⟩], none⟩)
      = some [] :=
  ((unsubscribed_instrument_not_dispatched (ApiClient.ready [("ETH-PERPETUAL", some 7)])
    (World.quiet 0) "BTC-PERPETUAL" (some 3)
    (Snapshot.toJson ⟨some "BTC-PERPETUAL", some 1, some [⟨"new", 100, 5⟩], none⟩)
    "" "book.BTC-PERPETUAL.100ms" rfl).2.1 (by decide)).1

theorem mapAssign_entries (m : List (String × Callback)) (key : String) (c : Callback) :
    (mapAssign m key c).filter (fun kv => kv.1 == key) = [(key, c)] := by
  unfold mapAssign
  rw [List.filter_cons]
  simp only [beq_self_eq_true, if_true, List.filter_filter]
  congr 1
  rw [List.filter_eq_nil_iff]
  intro kv _
  by_cases h : kv.1 = key <;> simp [h]

theorem toJson_instrument_name (s : Snapshot) (name : String)
    (h : s.instrument_name = some name) :
    (s.toJson.index "instrument_name").getString = some name := by
  obtain ⟨n, ts, bids, asks⟩ := s
  simp only at h
  subst h
  cases ts <;> cases bids <;> cases asks <;>
    simp [Snapshot.toJson, optField, Json.index, Json.getKey, List.lookup, Json.getString]

/-- C16: on an authenticated facade, after `subscribeOrderbook(X, c1)` followed by
`subscribeOrderbook(X, c2)` the registry holds exactly one entry for X and it is c2; an
update for X invokes nothing but c2 (with the Book built from the update, when c2 holds
a function and the Book can be built), and on the document of a snapshot payload for X
it does invoke it; the entries of the other instruments are unchanged. -/
theorem last_subscriber_wins (a : ApiClient) (w : World) (X : String) (c1 c2 : Callback)
    (data : Json) (s : Snapshot) (hauth : a.is_authenticated_ = true) :
    mapFind ((a.subscribeOrderbook w X c1).api.subscribeOrderbook
        (a.subscribeOrderbook w X c1).world X c2).api.orderbook_callbacks_ X = some c2
    ∧ ((a.subscribeOrderbook w X c1).api.subscribeOrderbook
        (a.subscribeOrderbook w X c1).world X c2).api.orderbook_callbacks_.filter
          (fun kv => kv.1 == X) = [(X, c2)]
    ∧ ((data.index "instrument_name").getString = some X →
        ((a.subscribeOrderbook w X c1).api.subscribeOrderbook
            (a.subscribeOrderbook w X c1).world X c2).api.handleOrderbookUpdate data
          = some (invocations c2 (Orderbook.ofJson data)))
    ∧ (∀ callback, s.instrument_name = some X → c2 = some callback →
        ∃ orderbook, Orderbook.ofJson s.toJson = some orderbook
          ∧ ((a.subscribeOrderbook w X c1).api.subscribeOrderbook
              (a.subscribeOrderbook w X c1).world X c2).api.handleOrderbookUpdate s.toJson
            = some [(callback, orderbook)])
    ∧ (∀ Y, Y ≠ X →
        mapFind ((a.subscribeOrderbook w X c1).api.subscribeOrderbook
            (a.subscribeOrderbook w X c1).world X c2).api.orderbook_callbacks_ Y
          = mapFind a.orderbook_callbacks_ Y) := by
  have hcb : ((a.subscribeOrderbook w X c1).api.subscribeOrderbook
      (a.subscribeOrderbook w X c1).world X c2).api.orderbook_callbacks_
      = mapAssign (mapAssign a.orderbook_callbacks_ X c1) X c2 := by
    rw [subscribeOrderbook_api _ _ X c2 (by rw [subscribeOrderbook_api a w X c1 hauth]; exact hauth),
      subscribeOrderbook_api a w X c1 hauth]
  generalize ((a.subscribeOrderbook w X c1).api.subscribeOrderbook
      (a.subscribeOrderbook w X c1).world X c2).api = a2 at hcb ⊢
  have hupd : ∀ d : Json, (d.index "instrument_name").getString = some X →
      a2.handleOrderbookUpdate d = some (invocations c2 (Orderbook.ofJson d)) := by
    intro d hname
    rw [handleOrderbookUpdate_of_name a2 d X hname, hcb, mapFind_mapAssign_self]
    rfl
  refine ⟨?_, ?_, hupd data, ?_, fun Y hY => ?_⟩
  · rw [hcb]; exact mapFind_mapAssign_self _ X c2
  · rw [hcb]; exact mapAssign_entries _ X c2
  · intro callback hs hc
    refine ⟨_, ofJson_toJson s, ?_⟩
    rw [hupd s.toJson (toJson_instrument_name s X hs), hc, ofJson_toJson]
    rfl
  · rw [hcb, mapFind_mapAssign_ne _ X Y c2 hY, mapFind_mapAssign_ne _ X Y c1 hY]

/-- C16, an instance: callback 1 and then callback 2 subscribed for BTC-PERPETUAL; the
update goes to callback 2. -/
theorem last_subscriber_wins_witness :
    ∃ orderbook,
      (((ApiClient.ready []).subscribeOrderbook (World.quiet 0) "BTC-PERPETUAL"
          (some 1)).api.subscribeOrderbook
          ((ApiClient.ready []).subscribeOrderbook (World.quiet 0) "BTC-PERPETUAL"
            (some 1)).world "BTC-PERPETUAL" (some 2)).api.handleOrderbookUpdate
        (Snapshot.toJson ⟨some "BTC-PERPETUAL", some 1, some [⟨"new", 100, 5⟩], none⟩)
        = some [(2, orderbook)] := by
  obtain ⟨orderbook, _, h⟩ := (last_subscriber_wins (ApiClient.ready []) (World.quiet 0)
    "BTC-PERPETUAL" (some 1) (some 2) Json.null
    ⟨some "BTC-PERPETUAL", some 1, some [⟨"new", 100, 5⟩], none⟩ rfl).2.2.2.1 2 rfl rfl
  exact ⟨orderbook, h⟩


/-! ## The Book handed to a subscriber -/

theorem onMessage_forwarded_congr (c d : WebSocketClient) (frame : Payload)
    (h : c.has_message_callback_ = d.has_message_callback_) :
    (c.onMessage frame).2 = (d.onMessage frame).2 := by
  unfold WebSocketClient.onMessage WebSocketClient.forward
  cases frame.decoded with
  | none => rfl
  | some json => dsimp only; rw [h]; split_ifs <;> rfl

theorem receive_independent (a : ApiClient) (first second : Payload) :
    ((a.receive first).1.receive second).2 = (a.receive second).2 := by
  unfold ApiClient.receive
  dsimp only
  rw [onMessage_forwarded_congr (a.ws_client_.onMessage first).1 a.ws_client_ second
    (onMessage_callback a.ws_client_ first)]
  rfl

/-- C17 (as amended): no Book is kept per instrument.  The invocations made for a frame
do not depend on the frames delivered before it, and handling a frame leaves the registry
as it was; for a book notification that carries the document of a payload for an
instrument with a registered callback, the callback is invoked once with the Book the
JSON constructor builds from that payload alone: its new and change entries, sorted. -/
theorem notification_book_from_payload_alone (a : ApiClient) (first second : Payload)
    (s : Snapshot) (X : String) (target : Nat) (text channel : String) :
    ((a.receive first).1.receive second).2 = (a.receive second).2
    ∧ (a.receive first).1.orderbook_callbacks_ = a.orderbook_callbacks_
    ∧ (s.instrument_name = some X → mapFind a.orderbook_callbacks_ X = some (some target) →
        a.ws_client_.has_message_callback_ = true → startsWith channel "book." = true →
        ((a.receive first).1.receive (notificationFrame text channel s.toJson)).2
          = [(target,
              { instrument_name_ := X
                timestamp_ := s.timestamp.getD 0
                bids_ := stdSort bidComp (keptLevels s.bids)
                asks_ := stdSort askComp (keptLevels s.asks) })]) := by
  refine ⟨receive_independent a first second, rfl, fun hs hf hcb hp => ?_⟩
  rw [receive_independent, receive_notification, hcb, hp,
    handleOrderbookUpdate_of_name a s.toJson X (toJson_instrument_name s X hs), hf,
    ofJson_toJson, hs]
  simp [invocations]

/-- C17, the claim as stated fails: a first notification sets the bid level (100, 5), a
second one mentions only the bid level (99, 3); the Book passed to the callback for the
second notification has the single bid (99, 3) and no level at 100, whereas the
incremental merge of (99, 3) into the first Book keeps the level at 100. -/
theorem notification_book_from_payload_alone_counterexample :
    (((ApiClient.ready [("BTC-PERPETUAL", some 7)]).receive
        (notificationFrame "n1" "book.BTC-PERPETUAL.100ms"
          (Snapshot.toJson ⟨some "BTC-PERPETUAL", some 1, some [⟨"new", 100, 5⟩], none⟩))).2
      = [(7, ⟨"BTC-PERPETUAL", 1, [⟨100, 5⟩], []⟩)])
    ∧ ((((ApiClient.ready [("BTC-PERPETUAL", some 7)]).receive
        (notificationFrame "n1" "book.BTC-PERPETUAL.100ms"
          (Snapshot.toJson ⟨some "BTC-PERPETUAL", some 1, some [⟨"new", 100, 5⟩], none⟩))).1.receive
        (notificationFrame "n2" "book.BTC-PERPETUAL.100ms"
          (Snapshot.toJson ⟨some "BTC-PERPETUAL", some 2, some [⟨"new", 99, 3⟩], none⟩))).2
      = [(7, ⟨"BTC-PERPETUAL", 2, [⟨99, 3⟩], []⟩)])
    ∧ ((Orderbook.mk "BTC-PERPETUAL" 1 [⟨100, 5⟩] []).update
        (Incremental.toJson ⟨some "BTC-PERPETUAL", some 2, some [(99, 3)], none⟩)
      = some ⟨"BTC-PERPETUAL", 2, [⟨100, 5⟩, ⟨99, 3⟩], []⟩) := by
  decide

/-- C17, an instance: whatever came first, the notification with the bid entries
(99, 3) and (101, 1) is delivered as the Book with exactly these two bids. -/
theorem notification_book_from_payload_alone_witness :
    (((ApiClient.ready [("BTC-PERPETUAL", some 7)]).receive
        (notificationFrame "n1" "book.BTC-PERPETUAL.100ms" Json.null)).1.receive
        (notificationFrame "n2" "book.BTC-PERPETUAL.100ms"
          (Snapshot.toJson ⟨some "BTC-PERPETUAL", some 2,
            some [⟨"new", 99, 3⟩, ⟨"change", 101, 1⟩], none⟩))).2
      = [(7, ⟨"BTC-PERPETUAL", 2, [⟨101, 1⟩, ⟨99, 3⟩], []⟩)] :=
  (notification_book_from_payload_alone (ApiClient.ready [("BTC-PERPETUAL", some 7)])
    (notificationFrame "n1" "book.BTC-PERPETUAL.100ms" Json.null)
    (notificationFrame "n2" "book.BTC-PERPETUAL.100ms" Json.null)
    ⟨some "BTC-PERPETUAL", some 2, some [⟨"new", 99, 3⟩, ⟨"change", 101, 1⟩], none⟩
    "BTC-PERPETUAL" 7 "n2" "book.BTC-PERPETUAL.100ms").2.2 rfl rfl rfl rfl


/-! ## The authenticate sequence of the facade -/

theorem httpPerform_stream (w : World) (req : HttpRequest) :
    w.streamUntouched (w.httpPerform req).2 := by
  unfold World.httpPerform World.streamUntouched
  cases w.httpScript <;> exact ⟨rfl, rfl, rfl, rfl, rfl⟩

theorem rest_authenticate_stream (c : RestClient) (w : World) :
    w.streamUntouched (c.authenticate w).world := by
  unfold RestClient.authenticate
  cases hc : c.curl_
  · exact ⟨rfl, rfl, rfl, rfl, rfl⟩
  · simp only [if_true]
    split
    · exact httpPerform_stream w _
    · split_ifs <;> exact httpPerform_stream w _

theorem sleep_sent (c : WebSocketClient) (w : World) : w.nothingSent (c.sleep w).2 := by
  unfold WebSocketClient.sleep World.nothingSent
  cases w.wsWindows <;> exact ⟨rfl, rfl⟩

theorem waitConnected_sent (n : Nat) :
    ∀ (c : WebSocketClient) (w : World),
      w.nothingSent (WebSocketClient.waitConnected n c w).world := by
  induction n with
  | zero => intro c w; exact ⟨rfl, rfl⟩
  | succ n ih =>
    intro c w
    unfold WebSocketClient.waitConnected
    split_ifs
    · exact sleep_sent c w
    · have h1 := sleep_sent c w
      have h2 := ih (c.sleep w).1 (c.sleep w).2
      exact ⟨h2.1.trans h1.1, h2.2.trans h1.2⟩

theorem connect_sent (c : WebSocketClient) (w : World) :
    w.nothingSent (c.connect w).world := by
  unfold WebSocketClient.connect
  split_ifs
  · exact ⟨rfl, rfl⟩
  · exact ⟨rfl, rfl⟩
  · exact ⟨rfl, rfl⟩
  · exact waitConnected_sent 10 _ _

/-- The sequence of `ApiClient::authenticate`, for every facade and environment: it
returns true only when the facade is initialized, the login over the synchronous
transport leaves the REST client authenticated, `connect` then returns true and the
streaming `authenticate` then returns true, each step run on what the step before left;
the flag of the facade and the dispatch flag are then set.  When a step does not succeed
the outcome of the call is the outcome of that step (false when the step returns false,
no return when the step throws or reaches `std::terminate`), no later step is attempted,
the dispatch loop is not started and the flag of the facade is not set by the call. -/
theorem authenticate_true_only_on_full_success (a : ApiClient) (w : World) :
    ((a.authenticate w).ret = some true →
        a.is_initialized_ = true
        ∧ (a.loginStep w).client.is_authenticated_ = true
        ∧ (a.connectStep w).ret = some true
        ∧ (a.authStep w).ret = some true
        ∧ (a.authenticate w).api.is_authenticated_ = true
        ∧ (a.authenticate w).api.ws_running_ = true)
    ∧ (a.is_initialized_ = false →
        (a.authenticate w).ret = some false ∧ (a.authenticate w).api = a
          ∧ (a.authenticate w).world.httpSent = w.httpSent
          ∧ w.streamUntouched (a.authenticate w).world)
    ∧ (a.is_initialized_ = true →
        ((a.loginStep w).value = none ∨ (a.loginStep w).client.is_authenticated_ = false) →
        (a.authenticate w).ret = (if (a.loginStep w).value.isNone then none else some false)
          ∧ w.streamUntouched (a.authenticate w).world
          ∧ (a.authenticate w).api.ws_client_ = a.ws_client_
          ∧ (a.authenticate w).api.ws_running_ = a.ws_running_
          ∧ (a.authenticate w).api.is_authenticated_ = a.is_authenticated_)
    ∧ (a.is_initialized_ = true → (a.loginStep w).value ≠ none →
        (a.loginStep w).client.is_authenticated_ = true →
        (a.connectStep w).ret ≠ some true →
        (a.authenticate w).ret = (a.connectStep w).ret
          ∧ w.nothingSent (a.authenticate w).world
          ∧ (a.authenticate w).api.ws_running_ = a.ws_running_
          ∧ (a.authenticate w).api.is_authenticated_ = a.is_authenticated_)
    ∧ (a.is_initialized_ = true → (a.loginStep w).value ≠ none →
        (a.loginStep w).client.is_authenticated_ = true →
        (a.connectStep w).ret = some true → (a.authStep w).ret ≠ some true →
        (a.authenticate w).ret = (a.authStep w).ret
          ∧ (a.authenticate w).api.ws_running_ = a.ws_running_
          ∧ (a.authenticate w).api.is_authenticated_ = a.is_authenticated_) := by
  have hstream := rest_authenticate_stream a.rest_client_ w
  have hsent := connect_sent a.ws_client_ (a.rest_client_.authenticate w).world
  have hsent2 : w.nothingSent (a.ws_client_.connect (a.rest_client_.authenticate w).world).world :=
    ⟨hsent.1.trans hstream.2.1, hsent.2.trans hstream.2.2.1⟩
  unfold ApiClient.authenticate ApiClient.authStep ApiClient.connectStep ApiClient.loginStep
  cases hinit : a.is_initialized_ with
  | false =>
    refine ⟨?_, ?_, ?_, ?_, ?_⟩ <;> intros <;>
      first
      | contradiction
      | exact ⟨rfl, rfl, rfl, rfl, rfl, rfl, rfl, rfl⟩
      | simp_all
  | true =>
    cases hval : (a.rest_client_.authenticate w).value with
    | none =>
      refine ⟨?_, ?_, ?_, ?_, ?_⟩ <;> intros <;>
        first
        | contradiction
        | exact ⟨rfl, hstream, rfl, rfl, rfl⟩
        | simp_all
    | some login =>
      cases hra : (a.rest_client_.authenticate w).client.is_authenticated_ with
      | false =>
        refine ⟨?_, ?_, ?_, ?_, ?_⟩ <;> intros <;>
          first
          | contradiction
          | exact ⟨rfl, hstream, rfl, rfl, rfl⟩
          | simp_all
      | true =>
        cases hcn : (a.ws_client_.connect (a.rest_client_.authenticate w).world).ret with
        | none =>
          refine ⟨?_, ?_, ?_, ?_, ?_⟩ <;> intros <;>
            first
            | contradiction
            | exact ⟨rfl, hsent2, rfl, rfl⟩
            | simp_all
        | some cr =>
          cases cr with
          | false =>
            refine ⟨?_, ?_, ?_, ?_, ?_⟩ <;> intros <;>
              first
              | contradiction
              | exact ⟨rfl, hsent2, rfl, rfl⟩
              | simp_all
          | true =>
            cases hau : ((a.ws_client_.connect (a.rest_client_.authenticate w).world).client.authenticate
                (a.ws_client_.connect (a.rest_client_.authenticate w).world).world).ret with
            | none =>
              refine ⟨?_, ?_, ?_, ?_, ?_⟩ <;> intros <;>
                first
                | contradiction
                | exact ⟨rfl, rfl, rfl⟩
                | simp_all
            | some ar =>
              cases ar with
              | false =>
                refine ⟨?_, ?_, ?_, ?_, ?_⟩ <;> intros <;>
                  first
                  | contradiction
                  | exact ⟨rfl, rfl, rfl⟩
                  | simp_all
              | true =>
                cases hrun : a.ws_running_ <;>
                  refine ⟨?_, ?_, ?_, ?_, ?_⟩ <;> intros <;>
                  first
                  | contradiction
                  | exact ⟨rfl, rfl, rfl, rfl, rfl, rfl⟩
                  | simp_all


/-- An instance of the sequence: on a fresh facade, with the login answered by a token, the
connection opening and the streaming authenticate answered, the three steps succeed in
turn and `authenticate` returns true with the dispatch loop started. -/
theorem authenticate_true_only_on_full_success_witness :
    (ApiClient.fresh ⟨"key", "secret", true⟩).is_initialized_ = true
    ∧ ((ApiClient.fresh ⟨"key", "secret", true⟩).loginStep
        World.loginSucceeds).client.is_authenticated_ = true
    ∧ ((ApiClient.fresh ⟨"key", "secret", true⟩).connectStep World.loginSucceeds).ret
        = some true
    ∧ ((ApiClient.fresh ⟨"key", "secret", true⟩).authStep World.loginSucceeds).ret = some true
    ∧ ((ApiClient.fresh ⟨"key", "secret", true⟩).authenticate
        World.loginSucceeds).api.is_authenticated_ = true
    ∧ ((ApiClient.fresh ⟨"key", "secret", true⟩).authenticate
        World.loginSucceeds).api.ws_running_ = true :=
  (authenticate_true_only_on_full_success (ApiClient.fresh ⟨"key", "secret", true⟩)
    World.loginSucceeds).1 (by decide)

/-- C18, the code at two failing inputs.  First, a retry after a connect timeout: on a
fresh facade the login succeeds and `connect` runs out of polls, so `authenticate`
returns false, the run thread of the streaming client left started; on the next call the
login succeeds again and `connect` assigns to that started thread, which reaches
`std::terminate`: the call does not return false.  Second, a login reply whose result
carries a `refresh_token` that is not a string: the type error is caught neither by
`RestClient::authenticate` nor by `ApiClient::authenticate`, so the call is left by the
exception and does not return false.  In both cases no frame is sent and the dispatch
loop is not started. -/
theorem authenticate_failed_step_not_false :
    ((ApiClient.fresh ⟨"key", "secret", true⟩).authenticate World.connectTimesOut).ret
        = some false
    ∧ ((ApiClient.fresh ⟨"key", "secret", true⟩).authenticate
        World.connectTimesOut).api.ws_client_.is_running_ = true
    ∧ ((ApiClient.fresh ⟨"key", "secret", true⟩).authenticate
        World.connectTimesOut).api.ws_client_.is_connected_ = false
    ∧ (((ApiClient.fresh ⟨"key", "secret", true⟩).authenticate World.connectTimesOut).api.loginStep
        ((ApiClient.fresh ⟨"key", "secret", true⟩).authenticate
          World.connectTimesOut).world).client.is_authenticated_ = true
    ∧ (((ApiClient.fresh ⟨"key", "secret", true⟩).authenticate
        World.connectTimesOut).api.connectStep
        ((ApiClient.fresh ⟨"key", "secret", true⟩).authenticate
          World.connectTimesOut).world).ret = none
    ∧ (((ApiClient.fresh ⟨"key", "secret", true⟩).authenticate
        World.connectTimesOut).api.authenticate
        ((ApiClient.fresh ⟨"key", "secret", true⟩).authenticate
          World.connectTimesOut).world).ret = none
    ∧ (((ApiClient.fresh ⟨"key", "secret", true⟩).authenticate
        World.connectTimesOut).api.authenticate
        ((ApiClient.fresh ⟨"key", "secret", true⟩).authenticate
          World.connectTimesOut).world).api.ws_running_ = false
    ∧ (((ApiClient.fresh ⟨"key", "secret", true⟩).authenticate
        World.connectTimesOut).api.authenticate
        ((ApiClient.fresh ⟨"key", "secret", true⟩).authenticate
          World.connectTimesOut).world).world.wsSent.length = 0
    ∧ ((ApiClient.fresh ⟨"key", "secret", true⟩).loginStep World.loginIllTyped).value.isNone
        = true
    ∧ ((ApiClient.fresh ⟨"key", "secret", true⟩).authenticate World.loginIllTyped).ret = none
    ∧ ((ApiClient.fresh ⟨"key", "secret", true⟩).authenticate
        World.loginIllTyped).api.ws_running_ = false
    ∧ ((ApiClient.fresh ⟨"key", "secret", true⟩).authenticate
        World.loginIllTyped).world.wsConnects = 0 := by
  refine ⟨?_, ?_, ?_, ?_, ?_, ?_, ?_, ?_, ?_, ?_, ?_, ?_⟩ <;> rfl

theorem authenticate_false_flags (a : ApiClient) (w : World)
    (h : (a.authenticate w).ret = some false) :
    (a.authenticate w).api.is_authenticated_ = a.is_authenticated_
      ∧ (a.authenticate w).api.ws_running_ = a.ws_running_ := by
  unfold ApiClient.authenticate at h ⊢
  cases hinit : a.is_initialized_ with
  | false => simp [hinit]
  | true =>
    cases hval : (a.rest_client_.authenticate w).value with
    | none => simp [hinit, hval] at h
    | some login =>
      cases hra : (a.rest_client_.authenticate w).client.is_authenticated_ with
      | false => simp [hinit, hval, hra]
      | true =>
        cases hcn : (a.ws_client_.connect (a.rest_client_.authenticate w).world).ret with
        | none => simp [hinit, hval, hra, hcn] at h
        | some cr =>
          cases cr with
          | false => simp [hinit, hval, hra, hcn]
          | true =>
            cases hau : ((a.ws_client_.connect
                (a.rest_client_.authenticate w).world).client.authenticate
                (a.ws_client_.connect (a.rest_client_.authenticate w).world).world).ret with
            | none => simp [hinit, hval, hra, hcn, hau] at h
            | some ar =>
              cases ar with
              | false => simp [hinit, hval, hra, hcn, hau]
              | true => cases hrun : a.ws_running_ <;> simp [hinit, hval, hra, hcn, hau, hrun] at h

/-- C19 (as amended): whenever `ApiClient::authenticate` returns false, the authenticated
flag of the facade (and the dispatch flag) is what it was when the call was made; so a
facade that was unauthenticated when `authenticate` was called is unauthenticated
afterwards. -/
theorem authenticate_false_leaves_flag (a : ApiClient) (w : World)
    (h : (a.authenticate w).ret = some false) :
    (a.authenticate w).api.is_authenticated_ = a.is_authenticated_
      ∧ (a.authenticate w).api.ws_running_ = a.ws_running_
      ∧ (a.is_authenticated_ = false → (a.authenticate w).api.is_authenticated_ = false) := by
  obtain ⟨h1, h2⟩ := authenticate_false_flags a w h
  exact ⟨h1, h2, fun h3 => h1.trans h3⟩

/-- C19, the claim as stated fails: on a facade that an earlier `authenticate` left
authenticated, a further `authenticate` whose login meets a transport failure returns
false and leaves the facade authenticated. -/
theorem authenticate_false_leaves_flag_counterexample :
    ((ApiClient.ready []).authenticate (World.quiet 1000)).ret = some false
    ∧ ((ApiClient.ready []).authenticate (World.quiet 1000)).api.is_authenticated_ = true := by
  decide

/-- C19, an instance: on a fresh facade the login meets a transport failure;
`authenticate` returns false and the facade is unauthenticated. -/
theorem authenticate_false_leaves_flag_witness :
    ((ApiClient.fresh ⟨"key", "secret", true⟩).authenticate (World.quiet 0)).ret = some false
    ∧ ((ApiClient.fresh ⟨"key", "secret", true⟩).authenticate
        (World.quiet 0)).api.is_authenticated_ = false :=
  ⟨by decide,
   (authenticate_false_leaves_flag (ApiClient.fresh ⟨"key", "secret", true⟩) (World.quiet 0)
    (by decide)).2.2 rfl⟩


/-! ## Trading operations and a failed refresh -/

/-- C20, the code at the failing input: the facade is authenticated, its token is due for
refresh and the refresh meets a transport failure.  `placeBuyOrder` and `placeSellOrder`
return false with nothing but the refresh request performed and no frame sent; but
`cancelOrder` and `modifyOrder` go on, post the command and return true on its reply. -/
theorem trading_after_failed_refresh :
    (ApiClient.ready []).rest_client_.needsRefresh World.refreshFails.now = true
    ∧ ((ApiClient.ready []).rest_client_.checkAndRefreshToken World.refreshFails).1
        = some false
    ∧ ((ApiClient.ready []).placeBuyOrder World.refreshFails true "BTC-PERPETUAL" 10
          "limit" 100 "").ret = some false
    ∧ ((ApiClient.ready []).placeBuyOrder World.refreshFails true "BTC-PERPETUAL" 10
          "limit" 100 "").world.wsSent = []
    ∧ ((ApiClient.ready []).placeBuyOrder World.refreshFails true "BTC-PERPETUAL" 10
          "limit" 100 "").world.httpSent.map HttpRequest.isRefresh = [true]
    ∧ ((ApiClient.ready []).placeSellOrder World.refreshFails (fun _ => "10.000000")
          "BTC-PERPETUAL" 10 "market" 0 "").ret = some false
    ∧ ((ApiClient.ready []).placeSellOrder World.refreshFails (fun _ => "10.000000")
          "BTC-PERPETUAL" 10 "market" 0 "").world.httpSent.map HttpRequest.isRefresh = [true]
    ∧ ((ApiClient.ready []).cancelOrder World.refreshFails "ORD-1").ret = some true
    ∧ ((ApiClient.ready []).cancelOrder World.refreshFails "ORD-1").world.httpSent
        = [.refresh "refresh-1" "key" "secret", .post "" (cancel_request "ORD-1") none]
    ∧ ((ApiClient.ready []).modifyOrder World.refreshFails "ORD-1" 10 100).ret = some true
    ∧ ((ApiClient.ready []).modifyOrder World.refreshFails "ORD-1" 10 100).world.httpSent.map
          (HttpRequest.isPostOf "private/edit") = [false, true] := by
  have hdue : RestClient.needsRefresh (ApiClient.ready []).rest_client_ 700 = true := by
    norm_num [RestClient.needsRefresh, ApiClient.ready]
    rfl
  have hrefresh : RestClient.refreshToken (ApiClient.ready []).rest_client_ World.refreshFails
      = { value := some Json.null
          client := { (ApiClient.ready []).rest_client_ with is_authenticated_ := false }
          world := { World.quiet 700 with
            httpScript := [.done 200 (resultFrame "reply" 42 (.obj []))]
            httpSent := [.refresh "refresh-1" "key" "secret"] } } := by
    rfl
  have hnow : World.refreshFails.now = 700 := rfl
  refine ⟨hdue, ?_, ?_, ?_, ?_, ?_, ?_, ?_, ?_, ?_, ?_⟩
  · simp only [RestClient.checkAndRefreshToken, hnow, hdue, hrefresh, if_true]; rfl
  · simp only [ApiClient.placeBuyOrder, hnow, hdue, hrefresh, if_true]; rfl
  · simp only [ApiClient.placeBuyOrder, hnow, hdue, hrefresh, if_true]; rfl
  · simp only [ApiClient.placeBuyOrder, hnow, hdue, hrefresh, if_true]; rfl
  · simp only [ApiClient.placeSellOrder, RestClient.get, hnow, hdue, hrefresh]; rfl
  · simp only [ApiClient.placeSellOrder, RestClient.get, hnow, hdue, hrefresh]; rfl
  · simp only [ApiClient.cancelOrder, RestClient.post, RestClient.checkAndRefreshToken, hnow,
      hdue, hrefresh, if_true]; rfl
  · simp only [ApiClient.cancelOrder, RestClient.post, RestClient.checkAndRefreshToken, hnow,
      hdue, hrefresh, if_true]; rfl
  · simp only [ApiClient.modifyOrder, RestClient.post, RestClient.checkAndRefreshToken, hnow,
      hdue, hrefresh, if_true]; rfl
  · simp only [ApiClient.modifyOrder, RestClient.post, RestClient.checkAndRefreshToken, hnow,
      hdue, hrefresh, if_true]; rfl


/-! ## Full replace and update as functions of the payload -/

/-- C24: the full replace with a snapshot payload builds the Book from the payload alone,
so applying it twice yields the Book (instrument, timestamp, bid list, ask list) that
applying it once yields, whatever Book was held before. -/
theorem full_replace_idempotent (b other : Orderbook) (s : Snapshot) :
    ∃ b1, applyOp b (.replace s) = some b1
      ∧ applyOp b1 (.replace s) = some b1
      ∧ applyOp other (.replace s) = some b1
      ∧ runOps b [.replace s, .replace s] = runOps b [.replace s] := by
  refine ⟨_, ofJson_toJson s, ofJson_toJson s, ofJson_toJson s, ?_⟩
  simp [runOps, applyOp, ofJson_toJson]

/-- C25: for every Book whose bid prices are pairwise distinct, in any order, and every
incremental message with a "bids" key, the update is accepted and leaves bid prices
that are pairwise distinct and strictly descending; likewise for asks, strictly
ascending. -/
theorem update_establishes_order (b : Orderbook) (m : Incremental) :
    (DistinctPrices b.bids_ → m.bids.isSome = true →
      ∃ b2, b.update m.toJson = some b2 ∧ DistinctPrices b2.bids_ ∧ StrictDesc b2.bids_)
    ∧ (DistinctPrices b.asks_ → m.asks.isSome = true →
      ∃ b2, b.update m.toJson = some b2 ∧ DistinctPrices b2.asks_ ∧ StrictAsc b2.asks_) := by
  constructor
  · intro hd hm
    refine ⟨_, update_toJson b m, ?_⟩
    cases hb : m.bids with
    | none => rw [hb] at hm; cases hm
    | some ps =>
      have h := stdSort_bid_strict _ (mergePairs_distinct ps _ hd)
      exact ⟨strictDesc_distinct h, h⟩
  · intro hd hm
    refine ⟨_, update_toJson b m, ?_⟩
    cases hb : m.asks with
    | none => rw [hb] at hm; cases hm
    | some ps =>
      have h := stdSort_ask_strict _ (mergePairs_distinct ps _ hd)
      exact ⟨strictAsc_distinct h, h⟩

/-- C25, an instance: the unsorted bids (98,3),(100,5) merged with the pairs (99,1),
(99,4),(100,0) come out as (99,4),(98,3). -/
theorem update_establishes_order_witness :
    ∃ b2, (Orderbook.mk "BTC-PERPETUAL" 1 [⟨98, 3⟩, ⟨100, 5⟩] []).update
        (Incremental.toJson ⟨none, none, some [(99, 1), (99, 4), (100, 0)], none⟩) = some b2
      ∧ DistinctPrices b2.bids_ ∧ StrictDesc b2.bids_ :=
  (update_establishes_order (Orderbook.mk "BTC-PERPETUAL" 1 [⟨98, 3⟩, ⟨100, 5⟩] [])
    ⟨none, none, some [(99, 1), (99, 4), (100, 0)], none⟩).1
    (by simp [DistinctPrices]) rfl


/-! ## The document of a Book -/

theorem toJson_asIncremental (b : Orderbook) : b.toJson = b.asIncremental.toJson := by
  simp [Orderbook.toJson, Incremental.toJson, Orderbook.asIncremental, optField,
    List.map_map, Function.comp_def, pairToJson, PriceLevel.pair]

theorem mergePairs_fresh (l : List PriceLevel) :
    ∀ acc : List PriceLevel, DistinctPrices (acc ++ l) → (∀ x ∈ l, x.amount > 0) →
      mergePairs acc (l.map PriceLevel.pair) = acc ++ l := by
  induction l with
  | nil => intro acc _ _; simp [mergePairs]
  | cons x xs ih =>
    intro acc hd hpos
    have hx : ∀ y ∈ acc, y.price ≠ x.price := by
      intro y hy hyx
      unfold DistinctPrices at hd
      rw [List.map_append, List.map_cons] at hd
      have hdis := (List.nodup_append.mp hd).2.2
      exact hdis (List.mem_map_of_mem _ hy) (by rw [hyx]; exact List.mem_cons_self _ _)
    have hstep : applyPair acc x.price x.amount = acc ++ [x] := by
      rw [applyPair_absent acc x.price x.amount hx,
        if_pos (hpos x (List.mem_cons_self _ _))]
    have hd2 : DistinctPrices ((acc ++ [x]) ++ xs) := by
      rw [List.append_assoc]; exact hd
    have h := ih (acc ++ [x]) hd2 (fun y hy => hpos y (List.mem_cons_of_mem _ hy))
    rw [List.append_assoc, List.singleton_append] at h
    rw [← h]
    simp only [mergePairs, List.map_cons, List.foldl_cons, PriceLevel.pair]
    rw [hstep]

/-- C27: for every Book that satisfies the invariant and has only positive amounts, a
default-constructed Book updated with the document `toJson` gives of it is that Book:
same instrument name, timestamp, bid list and ask list. -/
theorem toJson_update_roundtrip (b : Orderbook) (hinv : BookInvariant b)
    (hpos : AllPositive b) : Orderbook.default.update b.toJson = some b := by
  obtain ⟨hb, hk, hdb, hda⟩ := hinv
  rw [toJson_asIncremental, update_toJson]
  have h1 : mergePairs [] (b.bids_.map PriceLevel.pair) = b.bids_ := by
    simpa using mergePairs_fresh b.bids_ [] (by simpa using hdb) hpos.1
  have h2 : mergePairs [] (b.asks_.map PriceLevel.pair) = b.asks_ := by
    simpa using mergePairs_fresh b.asks_ [] (by simpa using hda) hpos.2
  simp only [Orderbook.asIncremental, Orderbook.default, Option.getD_some, h1, h2,
    stdSort_bid_of_weak _ (strictDesc_weak hb), stdSort_ask_of_weak _ (strictAsc_weak hk)]

/-- C27, an instance: the Book with bids (100,5),(99,3) and the ask (101,2) comes back
from its document. -/
theorem toJson_update_roundtrip_witness :
    Orderbook.default.update
        (Orderbook.mk "BTC-PERPETUAL" 7 [⟨100, 5⟩, ⟨99, 3⟩] [⟨101, 2⟩]).toJson
      = some (Orderbook.mk "BTC-PERPETUAL" 7 [⟨100, 5⟩, ⟨99, 3⟩] [⟨101, 2⟩]) :=
  toJson_update_roundtrip (Orderbook.mk "BTC-PERPETUAL" 7 [⟨100, 5⟩, ⟨99, 3⟩] [⟨101, 2⟩])
    (by norm_num [BookInvariant, StrictDesc, StrictAsc, DistinctPrices])
    (by norm_num [AllPositive])

theorem foldlM_snapshotStep_pairs (l : List PriceLevel) (acc : List PriceLevel) :
    (l.map (fun x => Json.arr [.float x.price, .float x.amount])).foldlM snapshotStep acc
      = some acc := by
  induction l with
  | nil => rfl
  | cons x xs ih =>
    rw [List.map_cons, List.foldlM_cons]
    simpa [snapshotStep, Json.is_array, Json.size] using ih

/-- C28: for every Book, the JSON constructor applied to the document `toJson` gives of
it returns a Book with the same instrument name and timestamp and with an empty bid list
and an empty ask list: every level of the document is an array of two elements, and the
constructor skips arrays of fewer than three. -/
theorem toJson_constructor_drops_levels (b : Orderbook) :
    Orderbook.ofJson b.toJson
      = some { instrument_name_ := b.instrument_name_, timestamp_ := b.timestamp_,
               bids_ := [], asks_ := [] } := by
  simp [Orderbook.ofJson, Orderbook.toJson, Json.contains, Json.getKey, List.lookup,
    Json.getString, Json.getInt64, Json.items, foldlM_snapshotStep_pairs, stdSort]


/-! ## The merge as a function of the last pair per price -/

theorem level_eq_iff (x y : PriceLevel) : x = y ↔ x.price = y.price ∧ x.amount = y.amount := by
  cases x; cases y; simp

theorem mem_applyPair (l : List PriceLevel) (p a : ℚ) (x : PriceLevel)
    (hd : DistinctPrices l) :
    x ∈ applyPair l p a
      ↔ (x.price = p ∧ a > 0 ∧ x.amount = a) ∨ (x.price ≠ p ∧ x ∈ l) := by
  induction l with
  | nil =>
    rw [applyPair_nil]
    by_cases ha : a > 0
    · simp [ha, level_eq_iff]
    · simp [ha]
  | cons y ys ih =>
    obtain ⟨hy, hd2⟩ := distinct_cons hd
    rw [applyPair_cons]
    by_cases hyp : y.price = p
    · have hys : ∀ z ∈ ys, z.price ≠ p := fun z hz => hyp ▸ hy z hz
      rw [if_pos hyp]
      by_cases ha : a > 0
      · rw [if_pos ha, List.mem_cons, List.mem_cons, level_eq_iff]
        constructor
        · rintro (⟨h1, h2⟩ | h)
          · exact Or.inl ⟨h1.trans hyp, ha, h2⟩
          · exact Or.inr ⟨hys x h, Or.inr h⟩
        · rintro (⟨h1, _, h3⟩ | ⟨h1, h2 | h2⟩)
          · exact Or.inl ⟨h1.trans hyp.symm, h3⟩
          · exact absurd (h2 ▸ hyp) h1
          · exact Or.inr h2
      · rw [if_neg ha, List.mem_cons]
        constructor
        · intro h
          exact Or.inr ⟨hys x h, Or.inr h⟩
        · rintro (⟨_, h2, _⟩ | ⟨h1, h2 | h2⟩)
          · exact absurd h2 ha
          · exact absurd (h2 ▸ hyp) h1
          · exact h2
    · rw [if_neg hyp, List.mem_cons, ih hd2, List.mem_cons]
      constructor
      · rintro (h | h | ⟨h1, h2⟩)
        · exact Or.inr ⟨by rw [h]; exact hyp, Or.inl h⟩
        · exact Or.inl h
        · exact Or.inr ⟨h1, Or.inr h2⟩
      · rintro (h | ⟨h1, h2 | h2⟩)
        · exact Or.inr (Or.inl h)
        · exact Or.inl h2
        · exact Or.inr (Or.inr ⟨h1, h2⟩)

theorem lastAmount_append (ps : List (ℚ × ℚ)) (pa : ℚ × ℚ) (p : ℚ) :
    lastAmount (ps ++ [pa]) p = if pa.1 = p then some pa.2 else lastAmount ps p := by
  simp [lastAmount, List.foldl_append]

theorem mergePairs_append (l : List PriceLevel) (ps : List (ℚ × ℚ)) (pa : ℚ × ℚ) :
    mergePairs l (ps ++ [pa]) = applyPair (mergePairs l ps) pa.1 pa.2 := by
  simp [mergePairs, List.foldl_append]

theorem mem_mergePairs (l : List PriceLevel) (ps : List (ℚ × ℚ)) (x : PriceLevel)
    (hd : DistinctPrices l) :
    (lastAmount ps x.price = none → (x ∈ mergePairs l ps ↔ x ∈ l))
      ∧ (∀ a, lastAmount ps x.price = some a →
          (x ∈ mergePairs l ps ↔ a > 0 ∧ x.amount = a)) := by
  induction ps using List.reverseRecOn with
  | nil =>
    refine ⟨fun _ => Iff.rfl, fun a h => ?_⟩
    simp [lastAmount] at h
  | append_singleton ps pa ih =>
    rw [mergePairs_append, lastAmount_append,
      mem_applyPair _ pa.1 pa.2 x (mergePairs_distinct ps l hd)]
    by_cases hp : pa.1 = x.price
    · rw [if_pos hp]
      refine ⟨(fun h => by cases h), fun a h => ?_⟩
      have ha : pa.2 = a := by simpa using h
      subst ha
      constructor
      · rintro (⟨_, h2, h3⟩ | ⟨h1, _⟩)
        · exact ⟨h2, h3⟩
        · exact absurd hp.symm h1
      · rintro ⟨h2, h3⟩
        exact Or.inl ⟨hp.symm, h2, h3⟩
    · rw [if_neg hp]
      have hne : x.price ≠ pa.1 := fun h => hp h.symm
      have hiff : ((x.price = pa.1 ∧ pa.2 > 0 ∧ x.amount = pa.2)
          ∨ (x.price ≠ pa.1 ∧ x ∈ mergePairs l ps)) ↔ x ∈ mergePairs l ps := by
        constructor
        · rintro (⟨h1, _⟩ | ⟨_, h2⟩)
          · exact absurd h1 hne
          · exact h2
        · exact fun h => Or.inr ⟨hne, h⟩
      rw [hiff]
      exact ih

theorem distinct_nodup {l : List PriceLevel} (hd : DistinctPrices l) : l.Nodup :=
  List.Nodup.of_map PriceLevel.price hd

theorem mergePairs_again (l k : List PriceLevel) (ps : List (ℚ × ℚ))
    (hl : DistinctPrices l) (hk : DistinctPrices k)
    (hmem : ∀ x, x ∈ k ↔ x ∈ mergePairs l ps) :
    (mergePairs k ps).Perm (mergePairs l ps) := by
  rw [List.perm_ext_iff_of_nodup (distinct_nodup (mergePairs_distinct ps k hk))
    (distinct_nodup (mergePairs_distinct ps l hl))]
  intro x
  obtain ⟨hk1, hk2⟩ := mem_mergePairs k ps x hk
  obtain ⟨hl1, hl2⟩ := mem_mergePairs l ps x hl
  cases h : lastAmount ps x.price with
  | none => rw [hk1 h, hmem x]
  | some a => rw [hk2 a h, hl2 a h]

theorem stdSort_bid_merge_again (l : List PriceLevel) (ps : List (ℚ × ℚ))
    (hl : DistinctPrices l) :
    stdSort bidComp (mergePairs (stdSort bidComp (mergePairs l ps)) ps)
      = stdSort bidComp (mergePairs l ps) := by
  have hm := mergePairs_distinct ps l hl
  have hk : DistinctPrices (stdSort bidComp (mergePairs l ps)) :=
    distinctPrices_perm (stdSort_perm bidComp _) hm
  have hperm := mergePairs_again l _ ps hl hk (fun x => mem_stdSort bidComp _ x)
  exact strictDesc_unique
    (((stdSort_perm bidComp _).trans hperm).trans (stdSort_perm bidComp _).symm)
    (stdSort_bid_strict _ (mergePairs_distinct ps _ hk)) (stdSort_bid_strict _ hm)

theorem stdSort_ask_merge_again (l : List PriceLevel) (ps : List (ℚ × ℚ))
    (hl : DistinctPrices l) :
    stdSort askComp (mergePairs (stdSort askComp (mergePairs l ps)) ps)
      = stdSort askComp (mergePairs l ps) := by
  have hm := mergePairs_distinct ps l hl
  have hk : DistinctPrices (stdSort askComp (mergePairs l ps)) :=
    distinctPrices_perm (stdSort_perm askComp _) hm
  have hperm := mergePairs_again l _ ps hl hk (fun x => mem_stdSort askComp _ x)
  exact strictAsc_unique
    (((stdSort_perm askComp _).trans hperm).trans (stdSort_perm askComp _).symm)
    (stdSort_ask_strict _ (mergePairs_distinct ps _ hk)) (stdSort_ask_strict _ hm)

/-- C26: for every Book with pairwise distinct prices on each side and every incremental
message, with any number of pairs per side and prices that may repeat, the update is
accepted, and applying the same update to the Book it leaves is accepted and leaves that
same Book (instrument, timestamp, bid list, ask list). -/
theorem update_idempotent (b : Orderbook) (m : Incremental)
    (hbids : DistinctPrices b.bids_) (hasks : DistinctPrices b.asks_) :
    ∃ b1, b.update m.toJson = some b1 ∧ b1.update m.toJson = some b1 := by
  refine ⟨_, update_toJson b m, ?_⟩
  rw [update_toJson]
  obtain ⟨name, ts, bids, asks⟩ := m
  cases name <;> cases ts <;> cases bids <;> cases asks <;>
    simp [stdSort_bid_merge_again _ _ hbids, stdSort_ask_merge_again _ _ hasks]

/-- C26, an instance: the pairs (100,0),(100,7),(98,1),(98,0) on the unsorted bids
(98,3),(100,5),(99,2) leave (100,7),(99,2), and so does applying them again. -/
theorem update_idempotent_witness :
    ∃ b1, (Orderbook.mk "BTC-PERPETUAL" 1 [⟨98, 3⟩, ⟨100, 5⟩, ⟨99, 2⟩] []).update
        (Incremental.toJson ⟨none, some 2, some [(100, 0), (100, 7), (98, 1), (98, 0)], none⟩)
          = some b1
      ∧ b1.update
        (Incremental.toJson ⟨none, some 2, some [(100, 0), (100, 7), (98, 1), (98, 0)], none⟩)
          = some b1 :=
  update_idempotent (Orderbook.mk "BTC-PERPETUAL" 1 [⟨98, 3⟩, ⟨100, 5⟩, ⟨99, 2⟩] [])
    ⟨none, some 2, some [(100, 0), (100, 7), (98, 1), (98, 0)], none⟩
    (by simp [DistinctPrices]) (by simp [DistinctPrices])


/-! ## The token across a refresh -/

theorem httpPerform_fst (w : World) (req : HttpRequest) :
    (w.httpPerform req).1 = w.nextReply := by
  unfold World.httpPerform World.nextReply
  cases w.httpScript <;> rfl

theorem httpPerform_now (w : World) (req : HttpRequest) :
    (w.httpPerform req).2.now = w.now := by
  unfold World.httpPerform
  cases w.httpScript <;> rfl

theorem storeToken_complete (c : RestClient) (result : Json) (access refresh : String)
    (expires : Int) (kind : String) (h : result.isToken access refresh expires kind) :
    c.storeToken result
      = ({ c with access_token_ := access, refresh_token_ := refresh,
                  expires_in_ := expires, token_type_ := kind }, true) := by
  obtain ⟨h1, h2, h3, h4⟩ := h
  simp [RestClient.storeToken, h1, h2, h3, h4]

/-- C21 (as amended): for every RestClient state and every outcome of `refreshToken` other
than a reply whose result lacks a token field or carries one of the wrong type: after
the call either the access value, refresh value, validity duration, kind and expiry all
hold the values of the successful reply (expiry: now plus the validity), or they all
hold their prior values (no refresh token held, transport failure, undecodable body,
reply with neither result nor error, error envelope).  The authenticated status is
cleared on a transport failure and on an error envelope and is as before otherwise. -/
theorem refreshToken_replaces_all_or_keeps_token (c : RestClient) (w : World) :
    (c.refresh_token_.isEmpty = true →
      (c.refreshToken w).client = c ∧ (c.refreshToken w).value = some Json.null)
    ∧ (c.refresh_token_.isEmpty = false → (c.curl_ = false ∨ w.nextReply = .curlError) →
      (c.refreshToken w).client = { c with is_authenticated_ := false }
        ∧ (c.refreshToken w).value = some Json.null)
    ∧ (∀ code body, c.refresh_token_.isEmpty = false → c.curl_ = true →
        w.nextReply = .done code body → body.decoded = none →
        (c.refreshToken w).client = c ∧ (c.refreshToken w).value = some Json.null)
    ∧ (∀ code body, c.refresh_token_.isEmpty = false → c.curl_ = true →
        w.nextReply = .done code body → (handleResponse body).contains "result" = false →
        (c.refreshToken w).client
          = (if (handleResponse body).contains "error" then
              { c with is_authenticated_ := false } else c)
        ∧ ((c.refreshToken w).value.map (fun response => response.contains "result")
            = some false))
    ∧ (∀ code body access refresh expires kind, c.refresh_token_.isEmpty = false →
        c.curl_ = true → w.nextReply = .done code body →
        (handleResponse body).contains "result" = true →
        ((handleResponse body).index "result").isToken access refresh expires kind →
        (c.refreshToken w).client
          = { c with access_token_ := access, refresh_token_ := refresh,
                     expires_in_ := expires, token_type_ := kind,
                     token_expiry_ := w.now + (expires : ℚ) }
        ∧ (c.refreshToken w).value = some (handleResponse body)) := by
  refine ⟨?_, ?_, ?_, ?_, ?_⟩
  · intro he
    simp [RestClient.refreshToken, he]
  · intro he hfail
    unfold RestClient.refreshToken
    simp only [he, Bool.false_eq_true, if_false]
    cases hc : c.curl_ with
    | false => simp
    | true =>
      rcases hfail with h | h
      · rw [hc] at h; cases h
      · simp only [if_true, httpPerform_fst, h]
        constructor <;> first | rfl | trivial
  · intro code body he hc hreply hdec
    unfold RestClient.refreshToken
    simp only [he, hc, Bool.false_eq_true, if_false, if_true, httpPerform_fst, hreply]
    simp [handleResponse, hdec, Json.contains]
  · intro code body he hc hreply hres
    unfold RestClient.refreshToken
    simp only [he, hc, Bool.false_eq_true, if_false, if_true, httpPerform_fst, hreply, hres]
    by_cases herr : (handleResponse body).contains "error" = true
    · simp only [herr, if_true]
      constructor <;> first | rfl | trivial
    · simp only [herr, Bool.false_eq_true, if_false]
      constructor <;> first | rfl | trivial | simp [hres]
  · intro code body access refresh expires kind he hc hreply hres htok
    unfold RestClient.refreshToken
    simp only [he, hc, Bool.false_eq_true, if_false, if_true, httpPerform_fst, hreply, hres,
      storeToken_complete c _ access refresh expires kind htok, httpPerform_now]
    constructor <;> first | rfl | trivial


/-- C21, the claim as stated fails, at two inputs.  On the client of `ApiClient.ready` the
refresh meets a transport failure: the token fields are as before but the authenticated
status, set before the call, is cleared.  And a reply whose result carries a
`refresh_token` that is not a string: the access value is replaced, the type error leaves
the call, and the refresh value, validity, kind and expiry are the prior ones. -/
theorem refreshToken_replaces_all_or_keeps_token_counterexample :
    (ApiClient.ready []).rest_client_.is_authenticated_ = true
    ∧ ((ApiClient.ready []).rest_client_.refreshToken (World.quiet 700)).client
        = { (ApiClient.ready []).rest_client_ with is_authenticated_ := false }
    ∧ ((ApiClient.ready []).rest_client_.refreshToken (World.quiet 700)).client
        ≠ (ApiClient.ready []).rest_client_
    ∧ ((ApiClient.ready []).rest_client_.refreshToken
        { World.quiet 700 with
          httpScript := [.done 200 (resultFrame "reply" 9929
            (.obj [("access_token", .str "access-2"), ("expires_in", .int 600),
              ("refresh_token", .int 17), ("token_type", .str "bearer")]))] }).client
        = { (ApiClient.ready []).rest_client_ with access_token_ := "access-2" }
    ∧ ((ApiClient.ready []).rest_client_.refreshToken
        { World.quiet 700 with
          httpScript := [.done 200 (resultFrame "reply" 9929
            (.obj [("access_token", .str "access-2"), ("expires_in", .int 600),
              ("refresh_token", .int 17), ("token_type", .str "bearer")]))] }).value.isNone
        = true := by
  refine ⟨rfl, rfl, ?_, rfl, rfl⟩
  intro h
  have hflag := congrArg RestClient.is_authenticated_ h
  revert hflag
  decide

/-- C21, an instance: the token of `ApiClient.ready` is refreshed at time 700 and the reply
carries a token valid for 600 seconds; all five values are those of the reply, the expiry
being 1300. -/
theorem refreshToken_replaces_all_or_keeps_token_witness :
    ((ApiClient.ready []).rest_client_.refreshToken
        { World.quiet 700 with
          httpScript := [tokenReply "refresh" "access-2" "refresh-2" 600] }).client
      = { (ApiClient.ready []).rest_client_ with
          access_token_ := "access-2", refresh_token_ := "refresh-2", expires_in_ := 600,
          token_type_ := "bearer", token_expiry_ := 700 + ((600 : Int) : ℚ) }
    ∧ ((ApiClient.ready []).rest_client_.refreshToken
        { World.quiet 700 with
          httpScript := [tokenReply "refresh" "access-2" "refresh-2" 600] }).value
      = some (.obj [("id", .int 9929), ("jsonrpc", .str "2.0"),
          ("result", .obj [("access_token", .str "access-2"), ("expires_in", .int 600),
            ("refresh_token", .str "refresh-2"), ("token_type", .str "bearer")])]) :=
  (refreshToken_replaces_all_or_keeps_token (ApiClient.ready []).rest_client_
    { World.quiet 700 with
      httpScript := [tokenReply "refresh" "access-2" "refresh-2" 600] }).2.2.2.2
    200 _ "access-2" "refresh-2" 600 "bearer" rfl rfl rfl rfl ⟨rfl, rfl, rfl, rfl⟩


/-! ## When a refresh is due -/

theorem needsRefresh_eq (c : RestClient) (t : ℚ) :
    c.needsRefresh t
      = (c.is_authenticated_ && !c.refresh_token_.isEmpty && decide (c.token_expiry_ - t < 300)) := by
  unfold RestClient.needsRefresh
  cases c.is_authenticated_ <;> cases c.refresh_token_.isEmpty <;> simp

/-- C22 (as amended): `needsRefresh` returns false whenever no token is held, that is when
the client is not authenticated or its refresh value is empty, at every time; in
particular immediately after construction, and after an `authenticate` that found no
result in its reply (transport failure included). -/
theorem needsRefresh_false_without_token (c : RestClient) (now : ℚ) :
    ((c.is_authenticated_ = false ∨ c.refresh_token_.isEmpty = true) →
      c.needsRefresh now = false)
    ∧ (∀ config expires_in, (RestClient.new config expires_in).needsRefresh now = false)
    ∧ (∀ w, (c.authenticate w).value.map (fun response => response.contains "result")
        = some false → (c.authenticate w).client.needsRefresh now = false) := by
  refine ⟨?_, ?_, ?_⟩
  · intro h
    rw [needsRefresh_eq]
    rcases h with h | h <;> simp [h]
  · intro config expires_in
    rw [needsRefresh_eq]
    simp [RestClient.new]
  · intro w h
    rw [needsRefresh_eq]
    have hflag : (c.authenticate w).client.is_authenticated_ = false := by
      revert h
      unfold RestClient.authenticate
      generalize (if c.curl_ = true then
        w.httpPerform (.login c.config_.api_key_ c.config_.api_secret_)
        else (HttpReply.curlError, w)) = p
      rcases p with ⟨reply, w2⟩
      cases reply with
      | curlError => intro _; rfl
      | done code body =>
        by_cases h1 : (handleResponse body).contains "result" = true
        · by_cases h2 : (c.storeToken ((handleResponse body).index "result")).2 = true
          · simp [h1, h2]
          · simp [h1, h2]
        · simp [h1]
    simp [hflag]

/-- C22, the claim as stated fails: a client just constructed holds no token, and
`needsRefresh` returns false. -/
theorem needsRefresh_false_without_token_counterexample :
    (RestClient.new ⟨"key", "secret", true⟩ 0).access_token_ = ""
    ∧ (RestClient.new ⟨"key", "secret", true⟩ 0).is_authenticated_ = false
    ∧ ¬ ((RestClient.new ⟨"key", "secret", true⟩ 0).needsRefresh 0 = true) := by
  refine ⟨rfl, rfl, ?_⟩
  rw [needsRefresh_eq]
  simp [RestClient.new]

/-- C22, an instance: a client whose login met a transport failure is not authenticated,
and `needsRefresh` is false at time 1000. -/
theorem needsRefresh_false_without_token_witness :
    ((ApiClient.fresh ⟨"key", "secret", true⟩).rest_client_.authenticate
        (World.quiet 0)).client.is_authenticated_ = false
    ∧ ((ApiClient.fresh ⟨"key", "secret", true⟩).rest_client_.authenticate
        (World.quiet 0)).client.needsRefresh 1000 = false :=
  ⟨rfl,
   (needsRefresh_false_without_token
      ((ApiClient.fresh ⟨"key", "secret", true⟩).rest_client_.authenticate
        (World.quiet 0)).client 1000).1 (Or.inl rfl)⟩


theorem authenticate_records (c : RestClient) (w : World) (code : Nat) (body : Payload)
    (access refresh : String) (d : Int) (kind : String) (hc : c.curl_ = true)
    (hreply : w.nextReply = .done code body)
    (hres : (handleResponse body).contains "result" = true)
    (htok : ((handleResponse body).index "result").isToken access refresh d kind) :
    (c.authenticate w).client
      = { c with access_token_ := access, refresh_token_ := refresh, expires_in_ := d,
                 token_type_ := kind, is_authenticated_ := true,
                 token_expiry_ := w.now + (d : ℚ) } := by
  unfold RestClient.authenticate
  simp only [hc, if_true, httpPerform_fst, hreply, hres,
    storeToken_complete c _ access refresh d kind htok, httpPerform_now,
    RestClient.updateTokenExpiry]

/-- C23 (as amended): whenever `authenticate` has recorded, at time t0, a token with a
non-empty refresh value and validity duration d seconds, the expiry is t0 + d and
`needsRefresh` evaluated at time t returns true iff (t0 + d) - t < 300 seconds: it is
false at t = t0 when d > 300 and true at every t > t0 + d - 300.  More generally, for
every client state `needsRefresh` at time t is true iff the client is authenticated, its
refresh value is not empty and expiry - t < 300. -/
theorem needsRefresh_iff_within_margin (c : RestClient) (w : World) (code : Nat)
    (body : Payload) (access refresh : String) (d : Int) (kind : String) (t : ℚ)
    (hc : c.curl_ = true) (hreply : w.nextReply = .done code body)
    (hres : (handleResponse body).contains "result" = true)
    (htok : ((handleResponse body).index "result").isToken access refresh d kind)
    (hne : refresh.isEmpty = false) :
    (c.authenticate w).client.token_expiry_ = w.now + (d : ℚ)
    ∧ ((c.authenticate w).client.needsRefresh t = true ↔ (w.now + (d : ℚ)) - t < 300)
    ∧ (300 < d → (c.authenticate w).client.needsRefresh w.now = false)
    ∧ (w.now + (d : ℚ) - 300 < t → (c.authenticate w).client.needsRefresh t = true)
    ∧ (c.needsRefresh t = true ↔
        (c.is_authenticated_ = true ∧ c.refresh_token_.isEmpty = false
          ∧ c.token_expiry_ - t < 300)) := by
  have hiff : ∀ s : ℚ, (c.authenticate w).client.needsRefresh s = true
      ↔ (w.now + (d : ℚ)) - s < 300 := by
    intro s
    rw [authenticate_records c w code body access refresh d kind hc hreply hres htok,
      needsRefresh_eq]
    simp [hne]
  refine ⟨?_, hiff t, ?_, ?_, ?_⟩
  · rw [authenticate_records c w code body access refresh d kind hc hreply hres htok]
  · intro hd
    have hq : (300 : ℚ) < (d : ℚ) := by exact_mod_cast hd
    have hnot : ¬ ((c.authenticate w).client.needsRefresh w.now = true) := by
      rw [hiff]
      linarith
    simpa using hnot
  · intro ht
    rw [hiff]
    linarith
  · rw [needsRefresh_eq]
    simp [and_assoc]

/-- C23, the claim as stated fails: the reply to the login at time 0 carries a token valid
for 900 seconds whose refresh value is empty.  The token is recorded with expiry 900, and
at time 1000, where (0 + 900) - 1000 < 300, `needsRefresh` returns false. -/
theorem needsRefresh_iff_within_margin_counterexample :
    ((ApiClient.fresh ⟨"key", "secret", true⟩).rest_client_.authenticate
        { World.quiet 0 with httpScript := [tokenReply "login" "access-1" "" 900] }).client
      = { (ApiClient.fresh ⟨"key", "secret", true⟩).rest_client_ with
          access_token_ := "access-1", refresh_token_ := "", expires_in_ := 900,
          token_type_ := "bearer", is_authenticated_ := true,
          token_expiry_ := 0 + ((900 : Int) : ℚ) }
    ∧ ((0 : ℚ) + ((900 : Int) : ℚ)) - 1000 < 300
    ∧ ¬ (((ApiClient.fresh ⟨"key", "secret", true⟩).rest_client_.authenticate
        { World.quiet 0 with
          httpScript := [tokenReply "login" "access-1" "" 900] }).client.needsRefresh 1000
          = true) := by
  have hrec := authenticate_records (ApiClient.fresh ⟨"key", "secret", true⟩).rest_client_
    { World.quiet 0 with httpScript := [tokenReply "login" "access-1" "" 900] }
    200 _ "access-1" "" 900 "bearer" rfl rfl rfl ⟨rfl, rfl, rfl, rfl⟩
  have hempty : ("" : String).isEmpty = true := by decide
  refine ⟨hrec, by norm_num, ?_⟩
  rw [hrec, needsRefresh_eq]
  simp [hempty]

/-- C23, an instance: the login at time 0 is answered with a token valid for 900 seconds
and the refresh value "refresh-1"; the expiry is 900, `needsRefresh` is false at time 0
and true at time 601. -/
theorem needsRefresh_iff_within_margin_witness :
    ((ApiClient.fresh ⟨"key", "secret", true⟩).rest_client_.authenticate
        World.loginSucceeds).client.token_expiry_ = World.loginSucceeds.now + ((900 : Int) : ℚ)
    ∧ ((ApiClient.fresh ⟨"key", "secret", true⟩).rest_client_.authenticate
        World.loginSucceeds).client.needsRefresh World.loginSucceeds.now = false
    ∧ ((ApiClient.fresh ⟨"key", "secret", true⟩).rest_client_.authenticate
        World.loginSucceeds).client.needsRefresh 601 = true :=
  ⟨(needsRefresh_iff_within_margin (ApiClient.fresh ⟨"key", "secret", true⟩).rest_client_
      World.loginSucceeds 200 _ "access-1" "refresh-1" 900 "bearer" 601 rfl rfl rfl
      ⟨rfl, rfl, rfl, rfl⟩ (by decide)).1,
   (needsRefresh_iff_within_margin (ApiClient.fresh ⟨"key", "secret", true⟩).rest_client_
      World.loginSucceeds 200 _ "access-1" "refresh-1" 900 "bearer" 601 rfl rfl rfl
      ⟨rfl, rfl, rfl, rfl⟩ (by decide)).2.2.1 (by decide),
   (needsRefresh_iff_within_margin (ApiClient.fresh ⟨"key", "secret", true⟩).rest_client_
      World.loginSucceeds 200 _ "access-1" "refresh-1" 900 "bearer" 601 rfl rfl rfl
      ⟨rfl, rfl, rfl, rfl⟩ (by decide)).2.2.2.1
      (by norm_num [World.loginSucceeds, World.quiet])⟩


/-! ## The guard of the private operations -/

theorem guarded_operations_refuse (a : ApiClient) (w : World)
    (h : a.is_authenticated_ = false) :
    (∀ multiple instrument amount type price label,
      (a.placeBuyOrder w multiple instrument amount type price label).ret = some false
      ∧ (a.placeBuyOrder w multiple instrument amount type price label).api = a
      ∧ (a.placeBuyOrder w multiple instrument amount type price label).world = w)
    ∧ (∀ order_id, (a.cancelOrder w order_id).ret = some false
      ∧ (a.cancelOrder w order_id).api = a ∧ (a.cancelOrder w order_id).world = w)
    ∧ (∀ order_id amount price, (a.modifyOrder w order_id amount price).ret = some false
      ∧ (a.modifyOrder w order_id amount price).api = a
      ∧ (a.modifyOrder w order_id amount price).world = w)
    ∧ (∀ (α : Type) (position : Json → Option α), (a.getPositions w position).ret = some []
      ∧ (a.getPositions w position).api = a ∧ (a.getPositions w position).world = w)
    ∧ (∀ (α : Type) (order : Json → Option α), (a.getOpenOrders w order).ret = some []
      ∧ (a.getOpenOrders w order).api = a ∧ (a.getOpenOrders w order).world = w)
    ∧ (∀ instrument callback, (a.subscribeOrderbook w instrument callback).ret = some false
      ∧ (a.subscribeOrderbook w instrument callback).api = a
      ∧ (a.subscribeOrderbook w instrument callback).world = w)
    ∧ (∀ instrument, (a.unsubscribeOrderbook w instrument).ret = some false
      ∧ (a.unsubscribeOrderbook w instrument).api = a
      ∧ (a.unsubscribeOrderbook w instrument).world = w) := by
  refine ⟨?_, ?_, ?_, ?_, ?_, ?_, ?_⟩
  · intro multiple instrument amount type price label
    simp [ApiClient.placeBuyOrder, h]
  · intro order_id
    simp [ApiClient.cancelOrder, h]
  · intro order_id amount price
    simp [ApiClient.modifyOrder, h]
  · intro α position
    simp [ApiClient.getPositions, h]
  · intro α order
    simp [ApiClient.getOpenOrders, h]
  · intro instrument callback
    simp [ApiClient.subscribeOrderbook, h]
  · intro instrument
    simp [ApiClient.unsubscribeOrderbook, h]

/-- C29, the code at the failing input: on a facade that is initialized and not
authenticated, `placeSellOrder` performs its GET on the synchronous transport, without a
bearer token.  When the request is answered with a result the call returns true; when it
meets a transport failure the call returns false, the request having been performed. -/
theorem placeSellOrder_unauthenticated_reaches_transport :
    (ApiClient.fresh ⟨"key", "secret", true⟩).is_authenticated_ = false
    ∧ ((ApiClient.fresh ⟨"key", "secret", true⟩).placeSellOrder World.requestAnswered
        (fun _ => "10.000000") "BTC-PERPETUAL" 10 "market" 0 "").ret = some true
    ∧ ((ApiClient.fresh ⟨"key", "secret", true⟩).placeSellOrder World.requestAnswered
        (fun _ => "10.000000") "BTC-PERPETUAL" 10 "market" 0 "").world.httpSent
        = [.get "private/sell?amount=10.000000&instrument_name=BTC-PERPETUAL&type=market"
            none]
    ∧ ((ApiClient.fresh ⟨"key", "secret", true⟩).placeSellOrder (World.quiet 0)
        (fun _ => "10.000000") "BTC-PERPETUAL" 10 "market" 0 "").ret = some false
    ∧ ((ApiClient.fresh ⟨"key", "secret", true⟩).placeSellOrder (World.quiet 0)
        (fun _ => "10.000000") "BTC-PERPETUAL" 10 "market" 0 "").world.httpSent
        = [.get "private/sell?amount=10.000000&instrument_name=BTC-PERPETUAL&type=market"
            none] := by
  refine ⟨rfl, ?_, ?_, ?_, ?_⟩ <;>
    simp [ApiClient.placeSellOrder, RestClient.get, ApiClient.fresh, RestClient.new,
      RestClient.performGet, RestClient.bearer, World.requestAnswered, World.quiet,
      World.httpPerform, resultFrame, Json.contains, Json.getKey, sell_endpoint] <;> rfl


/-! ## The registry across a refused subscription -/

theorem wsSend_fst (w : World) (frame : Json) :
    (w.wsSend frame).1 = !(w.wsSendError.head? == some true) := by
  unfold World.wsSend
  rcases hs : w.wsSendError with _ | ⟨b, rest⟩
  · rfl
  · cases b <;> rfl

theorem subscribe_fst (c : WebSocketClient) (w : World) (channel name : String) :
    (c.subscribe w channel (.obj [("instrument_name", .str name)])).1
      = (c.is_connected_ && c.is_authenticated_ && !(w.wsSendError.head? == some true)) := by
  unfold WebSocketClient.subscribe
  cases hcn : c.is_connected_ <;> cases hau : c.is_authenticated_ <;>
    simp [Json.is_null, Json.update, WebSocketClient.send, hcn, wsSend_fst]

/-- C30 (as amended): when `subscribeOrderbook` returns false because the facade is not
authenticated, the facade, its callback registry included, is the same as before the
call.  On an authenticated facade the callback is stored under the instrument before the
subscription is attempted and stays stored whatever the result: the registry afterwards
is the prior one with the entry of the instrument assigned, also when the call returns
false, which it does exactly when the streaming session is not connected or not
authenticated or the send fails. -/
theorem subscribeOrderbook_registry (a : ApiClient) (w : World) (X : String)
    (c : Callback) :
    (a.is_authenticated_ = false →
      (a.subscribeOrderbook w X c).ret = some false ∧ (a.subscribeOrderbook w X c).api = a)
    ∧ (a.is_authenticated_ = true →
      (a.subscribeOrderbook w X c).api.orderbook_callbacks_
          = mapAssign a.orderbook_callbacks_ X c
      ∧ mapFind (a.subscribeOrderbook w X c).api.orderbook_callbacks_ X = some c
      ∧ (∀ Y, Y ≠ X → mapFind (a.subscribeOrderbook w X c).api.orderbook_callbacks_ Y
          = mapFind a.orderbook_callbacks_ Y)
      ∧ ((a.subscribeOrderbook w X c).ret = some false ↔
          (a.ws_client_.is_connected_ = false ∨ a.ws_client_.is_authenticated_ = false
            ∨ w.wsSendError.head? = some true))) := by
  refine ⟨?_, ?_⟩
  · intro h
    simp [ApiClient.subscribeOrderbook, h]
  · intro h
    have hapi := subscribeOrderbook_api a w X c h
    refine ⟨by rw [hapi], ?_, ?_, ?_⟩
    · rw [hapi]
      exact mapFind_mapAssign_self _ _ _
    · intro Y hY
      rw [hapi]
      exact mapFind_mapAssign_ne _ _ _ _ hY
    · have hret : (a.subscribeOrderbook w X c).ret
          = some (a.ws_client_.subscribe w ("book." ++ X ++ ".100ms")
              (.obj [("instrument_name", .str X)])).1 := by
        simp [ApiClient.subscribeOrderbook, h]
      rw [hret, subscribe_fst]
      cases a.ws_client_.is_connected_ <;> cases a.ws_client_.is_authenticated_ <;> simp

/-- C30, the claim as stated fails: on an authenticated facade with an empty registry
whose streaming session has been closed, `subscribeOrderbook` returns false, no frame is
sent, and the callback is registered for the instrument. -/
theorem subscribeOrderbook_registry_counterexample :
    ({ ApiClient.ready [] with
        ws_client_ := (ApiClient.ready []).ws_client_.onClose }).orderbook_callbacks_ = []
    ∧ (ApiClient.subscribeOrderbook
        { ApiClient.ready [] with ws_client_ := (ApiClient.ready []).ws_client_.onClose }
        (World.quiet 0) "BTC-PERPETUAL" (some 1)).ret = some false
    ∧ (ApiClient.subscribeOrderbook
        { ApiClient.ready [] with ws_client_ := (ApiClient.ready []).ws_client_.onClose }
        (World.quiet 0) "BTC-PERPETUAL" (some 1)).world.wsSent.length = 0
    ∧ (ApiClient.subscribeOrderbook
        { ApiClient.ready [] with ws_client_ := (ApiClient.ready []).ws_client_.onClose }
        (World.quiet 0) "BTC-PERPETUAL" (some 1)).api.orderbook_callbacks_
        = [("BTC-PERPETUAL", some 1)]
    ∧ (ApiClient.subscribeOrderbook
        { ApiClient.ready [] with ws_client_ := (ApiClient.ready []).ws_client_.onClose }
        (World.quiet 0) "BTC-PERPETUAL" (some 1)).api.orderbook_callbacks_
        ≠ ({ ApiClient.ready [] with
            ws_client_ := (ApiClient.ready []).ws_client_.onClose }).orderbook_callbacks_ := by
  decide

/-- C30, an instance: on `ApiClient.ready` the send of the subscription fails; the call
returns false and the callback is found under the instrument. -/
theorem subscribeOrderbook_registry_witness :
    mapFind ((ApiClient.ready []).subscribeOrderbook
        { World.quiet 0 with wsSendError := [true] } "BTC-PERPETUAL"
        (some 1)).api.orderbook_callbacks_ "BTC-PERPETUAL" = some (some 1)
    ∧ ((ApiClient.ready []).subscribeOrderbook
        { World.quiet 0 with wsSendError := [true] } "BTC-PERPETUAL" (some 1)).ret
        = some false :=
  ⟨((subscribeOrderbook_registry (ApiClient.ready [])
      { World.quiet 0 with wsSendError := [true] } "BTC-PERPETUAL" (some 1)).2 rfl).2.1,
   ((subscribeOrderbook_registry (ApiClient.ready [])
      { World.quiet 0 with wsSendError := [true] } "BTC-PERPETUAL" (some 1)).2 rfl).2.2.2.2
      (Or.inr (Or.inr rfl))⟩

end deribit
